import Mathlib

/-!
# ClaudeEther: thread lifecycle and connection supervisor

A shallow embedding of `src/src/client_manager.c` and `src/src/app_thread.c`.

The C functions talk to collaborators that live outside the two files
(sockets, the comms thread group, the logger, the shutdown flag, the
configuration).  Every call of such a collaborator that returns a value is
answered by the environment; the embedding takes these answers as an explicit
argument (a list with one record per loop iteration) and returns, next to the
function's result, the sequence of collaborator calls it performed, in program
order.  A loop that is still running when the answers are used up yields no
result.
-/

namespace ClaudeEther

/-! ## Connection supervisor (`client_manager.c`) -/

/-- Severity argument of `logger_log`. -/
inductive LogLevel
  | LOG_DEBUG
  | LOG_INFO
  | LOG_WARN
  | LOG_ERROR
  deriving DecidableEq, Repr

/-- Modelled from the spec: the platform socket handle (`platform_sockets.h` is not part of the
sources): `setupSocket(...) -> socket|invalid`. -/
inductive SOCKET
  | INVALID_SOCKET
  | valid (fd : Nat)
  deriving DecidableEq, Repr

/-- Calls of external collaborators made by the connection supervisor.  A call that returns a
value carries the value the environment answered. -/
inductive Event
  | shutdown_signalled (answer : Bool)
  | logger_log (level : LogLevel)
  | setup_socket (answer : SOCKET)
  | get_socket_error_message
  | connect_with_timeout (sock : SOCKET) (conn_timeout : Int) (success : Bool)
  | close_socket (sock : SOCKET)
  | sleep_seconds (seconds : Int)
  | sleep_ms (ms : Int)
  | comms_thread_group_init (answer : Bool)
  | comms_thread_group_create_threads (answer : Bool)
  | comms_thread_group_is_closed (answer : Bool)
  | comms_thread_group_wait (timeout_ms : Int) (threads_completed : Bool)
  | get_config_int_retry_limit (answer : Int)
  | comms_thread_has_activity (answer : Bool)
  | comms_thread_group_cleanup
  deriving DecidableEq, Repr

/-- Outcome of running a function against a finite list of environment answers: `result` is
`none` when the answers ran out while the function was still looping. -/
structure Run (α : Type) where
  result : Option α
  trace : List Event
  deriving Repr

/-- Prefix a run with the calls performed before it. -/
def Run.after {α : Type} (pre : List Event) (r : Run α) : Run α :=
  { result := r.result, trace := pre ++ r.trace }

/-- Value of a C `int` expression after two's-complement wrap-around to 32 bits. -/
def wrapInt32 (x : Int) : Int :=
  (x + 2147483648) % 4294967296 - 2147483648

/-- Answers of the environment during one iteration of the dial loop of `attempt_connection`:
`shutdown` answers `shutdown_signalled()` at the loop head, `sock` answers `setup_socket`, and
`connected` tells whether `connect_with_timeout` returned `PLATFORM_SOCKET_SUCCESS` (asked
only for TCP and a valid socket). -/
structure DialAnswers where
  shutdown : Bool
  sock : SOCKET
  connected : Bool
  deriving DecidableEq, Repr

/-- The `while (!shutdown_signalled())` loop of `attempt_connection` (lines 44-80), entered with
the current value of `backoff`.  In the connect-failure branch the socket is valid, so the
guarded `close_socket` of lines 67-69 is always performed.  The doubling `backoff * 2` is an
`int` multiplication. -/
def attempt_connection_loop (is_tcp : Bool) (conn_timeout backoff_max : Int) :
    Int → List DialAnswers → Run SOCKET
  | _, [] => { result := none, trace := [] }
  | backoff, a :: rest =>
    if a.shutdown then
      { result := some SOCKET.INVALID_SOCKET,
        trace := [Event.shutdown_signalled true, Event.logger_log LogLevel.LOG_INFO] }
    else if a.sock = SOCKET.INVALID_SOCKET then
      Run.after
        [Event.shutdown_signalled false, Event.logger_log LogLevel.LOG_DEBUG,
         Event.setup_socket a.sock, Event.get_socket_error_message,
         Event.logger_log LogLevel.LOG_ERROR, Event.sleep_seconds backoff]
        (attempt_connection_loop is_tcp conn_timeout backoff_max
          (if backoff < backoff_max then wrapInt32 (backoff * 2) else backoff_max) rest)
    else if is_tcp then
      if a.connected then
        { result := some a.sock,
          trace := [Event.shutdown_signalled false, Event.logger_log LogLevel.LOG_DEBUG,
                    Event.setup_socket a.sock,
                    Event.connect_with_timeout a.sock conn_timeout true,
                    Event.logger_log LogLevel.LOG_INFO] }
      else
        Run.after
          [Event.shutdown_signalled false, Event.logger_log LogLevel.LOG_DEBUG,
           Event.setup_socket a.sock,
           Event.connect_with_timeout a.sock conn_timeout false,
           Event.get_socket_error_message, Event.logger_log LogLevel.LOG_ERROR,
           Event.close_socket a.sock, Event.sleep_seconds backoff]
          (attempt_connection_loop is_tcp conn_timeout backoff_max
            (if backoff < backoff_max then wrapInt32 (backoff * 2) else backoff_max) rest)
    else
      { result := some a.sock,
        trace := [Event.shutdown_signalled false, Event.logger_log LogLevel.LOG_DEBUG,
                  Event.setup_socket a.sock, Event.logger_log LogLevel.LOG_INFO] }

/-- Source function `attempt_connection` (lines 38-84): `backoff` starts at 1 and `backoff_max`
is the value read from `client.backoff_max_seconds`. -/
def attempt_connection (is_tcp : Bool) (conn_timeout backoff_max : Int)
    (answers : List DialAnswers) : Run SOCKET :=
  attempt_connection_loop is_tcp conn_timeout backoff_max 1 answers

/-- Arguments of the `sleep_seconds` calls of a trace, in order. -/
def sleepSeconds : List Event → List Int
  | [] => []
  | Event.sleep_seconds n :: rest => n :: sleepSeconds rest
  | _ :: rest => sleepSeconds rest

/-- A dial iteration that fails: shutdown is not signalled and either the socket setup fails
or (TCP) the connect fails. -/
def dialFails (is_tcp : Bool) (a : DialAnswers) : Bool :=
  !a.shutdown && (a.sock == SOCKET.INVALID_SOCKET || (is_tcp && !a.connected))

/-- Answers of the environment during one iteration of the monitoring loop of
`clientMainThread` (lines 175-206): `shutdown` and `is_closed` answer the loop condition
(`is_closed` is asked only when `shutdown` is false), `threads_completed` answers
`comms_thread_group_wait`, `retry_limit` answers the lookup of `client.retry_limit` (asked only
while `monitoring_connection_health` is set) and `has_activity` answers
`comms_thread_has_activity`. -/
structure MonitorAnswers where
  shutdown : Bool
  is_closed : Bool
  threads_completed : Bool
  retry_limit : Int
  has_activity : Bool
  deriving DecidableEq, Repr

/-- The two locals of the monitoring loop.  `health_check_retries` is kept as a mathematical
integer: the `++` is not wrapped, the counter is reset with every new session and grows by at
most one per iteration. -/
structure MonitorState where
  health_check_retries : Int
  monitoring_connection_health : Bool
  deriving DecidableEq, Repr

/-- How the monitoring loop is left: the loop condition saw shutdown, the loop condition saw
the group closed, the `threads_completed` break, or the retry-limit break. -/
inductive MonitorExit
  | shutdown
  | closed
  | completed
  | forced
  deriving DecidableEq, Repr

/-- Result of one evaluation of the loop condition and, when it holds, of the loop body. -/
inductive MonitorStep
  | exit (why : MonitorExit)
  | next (s : MonitorState)
  deriving DecidableEq, Repr

/-- One step of the monitoring loop together with the calls it performs. -/
structure MonitorIter where
  step : MonitorStep
  events : List Event
  deriving DecidableEq, Repr

/-- The calls every iteration performs once neither loop-condition test ends the loop and the
group wait does not report completion. -/
def monitorPrefix (thread_wait_timeout : Int) : List Event :=
  [Event.shutdown_signalled false, Event.comms_thread_group_is_closed false,
   Event.logger_log LogLevel.LOG_DEBUG,
   Event.comms_thread_group_wait thread_wait_timeout false]

/-- Loop condition and body of the monitoring loop of `clientMainThread` (lines 175-206). -/
def monitor_iteration (thread_wait_timeout : Int) (s : MonitorState) (a : MonitorAnswers) :
    MonitorIter :=
  if a.shutdown then
    { step := MonitorStep.exit MonitorExit.shutdown, events := [Event.shutdown_signalled true] }
  else if a.is_closed then
    { step := MonitorStep.exit MonitorExit.closed,
      events := [Event.shutdown_signalled false, Event.comms_thread_group_is_closed true] }
  else if a.threads_completed then
    { step := MonitorStep.exit MonitorExit.completed,
      events := [Event.shutdown_signalled false, Event.comms_thread_group_is_closed false,
                 Event.logger_log LogLevel.LOG_DEBUG,
                 Event.comms_thread_group_wait thread_wait_timeout true,
                 Event.logger_log LogLevel.LOG_INFO] }
  else if s.monitoring_connection_health then
    if 0 < a.retry_limit ∧ a.retry_limit ≤ s.health_check_retries + 1 then
      { step := MonitorStep.exit MonitorExit.forced,
        events := monitorPrefix thread_wait_timeout ++
          [Event.get_config_int_retry_limit a.retry_limit, Event.logger_log LogLevel.LOG_ERROR] }
    else if a.has_activity then
      { step := MonitorStep.next { health_check_retries := 0,
                                   monitoring_connection_health := false },
        events := monitorPrefix thread_wait_timeout ++
          [Event.get_config_int_retry_limit a.retry_limit,
           Event.comms_thread_has_activity true] }
    else
      { step := MonitorStep.next { health_check_retries := s.health_check_retries + 1,
                                   monitoring_connection_health := true },
        events := monitorPrefix thread_wait_timeout ++
          [Event.get_config_int_retry_limit a.retry_limit,
           Event.comms_thread_has_activity false] }
  else if a.has_activity then
    { step := MonitorStep.next { health_check_retries := 0,
                                 monitoring_connection_health := false },
      events := monitorPrefix thread_wait_timeout ++ [Event.comms_thread_has_activity true] }
  else
    { step := MonitorStep.next { health_check_retries := s.health_check_retries,
                                 monitoring_connection_health := true },
      events := monitorPrefix thread_wait_timeout ++
        [Event.comms_thread_has_activity false, Event.logger_log LogLevel.LOG_WARN] }

/-- Outcome of the monitoring loop on a finite list of answers: `outcome` is `exit why` when
the loop was left, and `next s` when the answers ran out with the loop still running in state
`s`; `iterations` counts the evaluations of the loop condition. -/
structure MonitorRun where
  outcome : MonitorStep
  trace : List Event
  iterations : Nat
  deriving DecidableEq, Repr

/-- The monitoring loop of `clientMainThread` (lines 175-206), entered in state `s`. -/
def monitor_loop (thread_wait_timeout : Int) : MonitorState → List MonitorAnswers → MonitorRun
  | s, [] => { outcome := MonitorStep.next s, trace := [], iterations := 0 }
  | s, a :: rest =>
    match (monitor_iteration thread_wait_timeout s a).step with
    | MonitorStep.exit why =>
      { outcome := MonitorStep.exit why,
        trace := (monitor_iteration thread_wait_timeout s a).events, iterations := 1 }
    | MonitorStep.next s1 =>
      { outcome := (monitor_loop thread_wait_timeout s1 rest).outcome,
        trace := (monitor_iteration thread_wait_timeout s a).events ++
                 (monitor_loop thread_wait_timeout s1 rest).trace,
        iterations := (monitor_loop thread_wait_timeout s1 rest).iterations + 1 }

/-- State of the monitoring loop of a freshly established session (lines 172-173). -/
def freshSession : MonitorState :=
  { health_check_retries := 0, monitoring_connection_health := false }

/-- Answers of the environment during one iteration of the outer loop of `clientMainThread`
(lines 137-228): the shutdown poll at the loop head, the value of
`client.backoff_max_seconds` read by `attempt_connection`, the dial iterations, the results of
`comms_thread_group_init` and `comms_thread_group_create_threads`, the monitoring iterations
and the shutdown poll of line 218. -/
structure SessionAnswers where
  shutdown_head : Bool
  backoff_max : Int
  dial : List DialAnswers
  group_init : Bool
  create_threads : Bool
  monitor : List MonitorAnswers
  shutdown_after : Bool
  deriving DecidableEq, Repr

/-- Lines 208-215: clean up the group and close the socket when it is still valid. -/
def sessionTeardown (sock : SOCKET) : List Event :=
  [Event.comms_thread_group_cleanup, Event.logger_log LogLevel.LOG_INFO] ++
    (if sock = SOCKET.INVALID_SOCKET then [] else [Event.close_socket sock])

/-- The outer `while (!shutdown_signalled())` loop of `clientMainThread` (lines 137-231).  The
result is `some ()` when the thread function returns.  The local `sock` is changed by this
function only. -/
def clientMainThread_loop (is_tcp : Bool) (conn_timeout thread_wait_timeout : Int) :
    List SessionAnswers → Run Unit
  | [] => { result := none, trace := [] }
  | s :: rest =>
    if s.shutdown_head then
      { result := some (),
        trace := [Event.shutdown_signalled true, Event.logger_log LogLevel.LOG_INFO] }
    else
      match (attempt_connection is_tcp conn_timeout s.backoff_max s.dial).result with
      | none =>
        { result := none,
          trace := Event.shutdown_signalled false ::
            (attempt_connection is_tcp conn_timeout s.backoff_max s.dial).trace }
      | some SOCKET.INVALID_SOCKET =>
        { result := some (),
          trace := Event.shutdown_signalled false ::
            (attempt_connection is_tcp conn_timeout s.backoff_max s.dial).trace ++
            [Event.logger_log LogLevel.LOG_INFO] }
      | some sock =>
        if s.group_init = false then
          Run.after
            (Event.shutdown_signalled false ::
              (attempt_connection is_tcp conn_timeout s.backoff_max s.dial).trace ++
              [Event.comms_thread_group_init false, Event.logger_log LogLevel.LOG_ERROR,
               Event.close_socket sock])
            (clientMainThread_loop is_tcp conn_timeout thread_wait_timeout rest)
        else if s.create_threads = false then
          Run.after
            (Event.shutdown_signalled false ::
              (attempt_connection is_tcp conn_timeout s.backoff_max s.dial).trace ++
              [Event.comms_thread_group_init true,
               Event.comms_thread_group_create_threads false,
               Event.logger_log LogLevel.LOG_ERROR, Event.comms_thread_group_cleanup,
               Event.close_socket sock])
            (clientMainThread_loop is_tcp conn_timeout thread_wait_timeout rest)
        else
          match (monitor_loop thread_wait_timeout freshSession s.monitor).outcome with
          | MonitorStep.next _ =>
            { result := none,
              trace := Event.shutdown_signalled false ::
                (attempt_connection is_tcp conn_timeout s.backoff_max s.dial).trace ++
                [Event.comms_thread_group_init true,
                 Event.comms_thread_group_create_threads true] ++
                (monitor_loop thread_wait_timeout freshSession s.monitor).trace }
          | MonitorStep.exit _ =>
            if s.shutdown_after then
              { result := some (),
                trace := Event.shutdown_signalled false ::
                  (attempt_connection is_tcp conn_timeout s.backoff_max s.dial).trace ++
                  [Event.comms_thread_group_init true,
                   Event.comms_thread_group_create_threads true] ++
                  (monitor_loop thread_wait_timeout freshSession s.monitor).trace ++
                  sessionTeardown sock ++
                  [Event.shutdown_signalled true, Event.logger_log LogLevel.LOG_INFO,
                   Event.logger_log LogLevel.LOG_INFO] }
            else
              Run.after
                (Event.shutdown_signalled false ::
                  (attempt_connection is_tcp conn_timeout s.backoff_max s.dial).trace ++
                  [Event.comms_thread_group_init true,
                   Event.comms_thread_group_create_threads true] ++
                  (monitor_loop thread_wait_timeout freshSession s.monitor).trace ++
                  sessionTeardown sock ++
                  [Event.shutdown_signalled false, Event.logger_log LogLevel.LOG_INFO,
                   Event.sleep_ms 1000])
                (clientMainThread_loop is_tcp conn_timeout thread_wait_timeout rest)

/-- Source function `clientMainThread` (lines 108-232): the configuration is loaded (the values
it reads are the parameters), the start of the supervisor is logged, and the outer loop runs.
Setting the thread label and storing the configuration (lines 110-128) call none of the
collaborators traced here. -/
def clientMainThread (is_tcp : Bool) (conn_timeout thread_wait_timeout : Int)
    (answers : List SessionAnswers) : Run Unit :=
  Run.after [Event.logger_log LogLevel.LOG_INFO]
    (clientMainThread_loop is_tcp conn_timeout thread_wait_timeout answers)

/-- Number of `logger_log` calls of the given level in a trace. -/
def countLogs (level : LogLevel) (tr : List Event) : Nat :=
  tr.countP (fun e => e == Event.logger_log level)

/-- A monitoring iteration in which the group wait times out (no shutdown, group not closed)
with the retry limit read as `L` and the given activity answer. -/
def timedOut (L : Int) (activity : Bool) : MonitorAnswers :=
  { shutdown := false, is_closed := false, threads_completed := false, retry_limit := L,
    has_activity := activity }

/-- A monitoring iteration in which the group wait times out and no activity is reported,
with no shutdown, the group not closed and the retry limit read as `L`. -/
def unhealthy (L : Int) : MonitorAnswers :=
  timedOut L false

/-! ## Thread management (`app_thread.c`) -/

/-- C `isspace` in the "C" locale: space, and the control characters `\t \n \v \f \r`. -/
def isspace (c : Char) : Bool :=
  c.toNat = 32 || (9 ≤ c.toNat && c.toNat ≤ 13)

/-- Modelled from the spec: `str_cmp_nocase` (declared in `platform_utils.h`, not part of the
sources) compares two strings "case-insensitively"; it returns 0 exactly when the strings agree
after folding letter case, and otherwise the difference at the first position that differs. -/
def str_cmp_nocase : List Char → List Char → Int
  | [], [] => 0
  | [], _ :: _ => -1
  | _ :: _, [] => 1
  | a :: as, b :: bs =>
    if a.toLower = b.toLower then str_cmp_nocase as bs
    else (a.toLower.toNat : Int) - (b.toLower.toNat : Int)

/-- Library function `strtok_s(str, ",", &saveptr)` on the text that starts at the scan
position: leading delimiters are skipped; at the end of the text there is no token (`NULL`);
otherwise the token is the longest run free of delimiters, and the saved position is just
behind the delimiter that ended it (or the end of the text). -/
def strtok_s (position : List Char) : Option (List Char × List Char) :=
  match position.dropWhile (fun c => c == ',') with
  | [] => none
  | c :: cs =>
    some ((c :: cs).takeWhile (fun d => d != ','),
          ((c :: cs).dropWhile (fun d => d != ',')).drop 1)

/-- Line 119 on the reversed text: `while (end > start && isspace(*end)) *end-- = 0`.  The
guard `end > start` keeps the first character of `start` in place. -/
def trim_trailing_rev : List Char → List Char
  | c :: d :: rest => if isspace c then trim_trailing_rev (d :: rest) else c :: d :: rest
  | short => short

/-- Lines 115-119: the token with its leading and trailing whitespace trimmed. -/
def trim_token (token : List Char) : List Char :=
  (trim_trailing_rev (token.dropWhile isspace).reverse).reverse

/-- The `while (token != NULL)` loop of `app_thread_is_suppressed` (lines 113-128), entered
with the result of the previous `strtok_s` call.  The first argument bounds the number of
`strtok_s` results examined; `none` means the bound was reached. -/
def app_thread_is_suppressed_loop (thread_label : List Char) :
    Nat → Option (List Char × List Char) → Option Bool
  | 0, _ => none
  | _ + 1, none => some false
  | fuel + 1, some (token, saveptr) =>
    if str_cmp_nocase (trim_token token) thread_label = 0 then some true
    else app_thread_is_suppressed_loop thread_label fuel (strtok_s saveptr)

/-- Source function `app_thread_is_suppressed` (lines 98-132).  A `NULL` argument is `none`;
`strdup_ok` tells whether `strdup` could allocate the copy of the list.  Every `strtok_s` call
consumes at least one character of the copy, so `length + 1` results are enough. -/
def app_thread_is_suppressed (strdup_ok : Bool) :
    Option (List Char) → Option (List Char) → Option Bool
  | none, _ => some false
  | some _, none => some false
  | some suppressed_list, some thread_label =>
    if strdup_ok = false then some false
    else app_thread_is_suppressed_loop thread_label (suppressed_list.length + 1)
      (strtok_s suppressed_list)

/-- The comma-separated tokens of a list as the spec words them: the pieces between commas
that are not empty. -/
def commaTokens (list : List Char) : List (List Char) :=
  (list.splitOn ',').filter (fun tok => tok ≠ [])

/-- A token with its leading and trailing whitespace removed. -/
def trimWhitespace (tok : List Char) : List Char :=
  ((tok.dropWhile isspace).reverse.dropWhile isspace).reverse

/-- Equality of two strings ignoring letter case. -/
def equalsIgnoringCase (a b : List Char) : Prop :=
  a.map Char.toLower = b.map Char.toLower

instance (a b : List Char) : Decidable (equalsIgnoringCase a b) :=
  inferInstanceAs (Decidable (a.map Char.toLower = b.map Char.toLower))

/-- The `WaitResult` enumeration (lines 160-164). -/
def APP_WAIT_SUCCESS : Int := 0

/-- Timeout sentinel of `WaitResult`. -/
def APP_WAIT_TIMEOUT : Int := 1

/-- Error sentinel of `WaitResult`. -/
def APP_WAIT_ERROR : Int := -1

/-- A function pointer of type `void* (*)(void*)` stored in a thread descriptor.  It is called
with the descriptor (of which the model passes the label) in a world `σ`, the state it may
read and change; it either returns the pointer value, read as an integer, and the new world,
or does not return (`none`). -/
abbrev Hook (σ : Type) := List Char → σ → Option (Int × σ)

/-- Thread descriptor `AppThread_T` (`app_thread.h`); a `NULL` hook is `none`. -/
structure AppThread_T (σ : Type) where
  label : List Char
  func : Hook σ
  thread_id : Nat
  data : Nat
  pre_create_func : Option (Hook σ)
  post_create_func : Option (Hook σ)
  init_func : Option (Hook σ)
  exit_func : Option (Hook σ)
  suppressed : Bool

/-- The calls `app_thread_x` makes. -/
inductive CallKind
  | init_func
  | printf
  | func
  | exit_func
  deriving DecidableEq, Repr

/-- A call made by `app_thread_x` together with the world in which it is made. -/
structure Call (σ : Type) where
  kind : CallKind
  world : σ

/-- Outcome of `app_thread_x`: the calls it made, in order, and the world in which it returns
(`none` when one of the called functions does not return). -/
structure ThreadRun (σ : Type) where
  calls : List (Call σ)
  final : Option σ

/-- Lines 173-177 of `app_thread_x`: run the main function, then the exit hook if there is
one. -/
def app_thread_x_main {σ : Type} (thread_args : AppThread_T σ) (w : σ) : ThreadRun σ :=
  match thread_args.func thread_args.label w with
  | none => { calls := [{ kind := CallKind.func, world := w }], final := none }
  | some (_, w1) =>
    match thread_args.exit_func with
    | none => { calls := [{ kind := CallKind.func, world := w }], final := some w1 }
    | some exit_func =>
      match exit_func thread_args.label w1 with
      | none =>
        { calls := [{ kind := CallKind.func, world := w },
                    { kind := CallKind.exit_func, world := w1 }],
          final := none }
      | some (_, w2) =>
        { calls := [{ kind := CallKind.func, world := w },
                    { kind := CallKind.exit_func, world := w1 }],
          final := some w2 }

/-- The conversion `(WaitResult)(uintptr_t)p` of line 168: the pointer value returned by a
hook is read as an unsigned 64-bit integer and then converted to the enumeration `WaitResult`,
a 32-bit `int`, which keeps the low 32 bits in two's complement. -/
def toWaitResult (p : Int) : Int :=
  wrapInt32 (p % 18446744073709551616)

/-- Source function `app_thread_x` (lines 166-178).  The value returned by the init hook is
compared with `APP_WAIT_SUCCESS` after the conversion `(WaitResult)(uintptr_t)`. -/
def app_thread_x {σ : Type} (thread_args : AppThread_T σ) (w : σ) : ThreadRun σ :=
  match thread_args.init_func with
  | none => app_thread_x_main thread_args w
  | some init_func =>
    match init_func thread_args.label w with
    | none => { calls := [{ kind := CallKind.init_func, world := w }], final := none }
    | some (r, w1) =>
      if toWaitResult r ≠ APP_WAIT_SUCCESS then
        { calls := [{ kind := CallKind.init_func, world := w },
                    { kind := CallKind.printf, world := w1 }],
          final := some w1 }
      else
        { calls := { kind := CallKind.init_func, world := w } ::
                   (app_thread_x_main thread_args w1).calls,
          final := (app_thread_x_main thread_args w1).final }

/-- Number of calls of one kind. -/
def countCalls {σ : Type} (k : CallKind) (calls : List (Call σ)) : Nat :=
  calls.countP (fun c => c.kind == k)

/-- What a worker thread does inside `init_wait_for_logger`. -/
inductive WorkerEvent
  | set_thread_label (label : List Char)
  | init_thread_timestamp_system
  | EnterCriticalSection
  | LeaveCriticalSection
  | read_logger_ready (value : Bool)
  | wait_for_condition_with_timeout (timeout_ms : Int) (result : Int)
  | set_thread_log_file_from_config (label : List Char)
  | logger_log (level : LogLevel)
  deriving DecidableEq, Repr

/-- Answers of the environment during one evaluation of `while (!logger_ready)` in
`init_wait_for_logger`: the value read from the volatile flag, whether
`SleepConditionVariableCS` succeeded, and, when it failed, whether `GetLastError()` is
`ERROR_TIMEOUT` (the last two are asked only when the flag reads false). -/
structure BarrierAnswers where
  logger_ready : Bool
  sleep_ok : Bool
  error_is_timeout : Bool
  deriving DecidableEq, Repr

/-- The world of a worker thread: its thread-local label, the answers the environment still
has to give, and what the thread did so far (latest last). -/
structure WorkerWorld where
  thread_label : Option (List Char)
  answers : List BarrierAnswers
  events : List WorkerEvent
  deriving DecidableEq, Repr

/-- Source function `wait_for_condition_with_timeout` (lines 218-234, the `_WIN32` branch), as
a function of what `SleepConditionVariableCS` and `GetLastError` report. -/
def wait_for_condition_with_timeout (sleep_ok error_is_timeout : Bool) : Int :=
  if sleep_ok = false then
    if error_is_timeout then APP_WAIT_TIMEOUT else APP_WAIT_ERROR
  else APP_WAIT_SUCCESS

/-- The `while (!logger_ready)` loop of `init_wait_for_logger` and what follows it (lines
264-279). -/
def init_wait_for_logger_loop (label : List Char) (thread_label : Option (List Char)) :
    List WorkerEvent → List BarrierAnswers → Option (Int × WorkerWorld)
  | _, [] => none
  | events, a :: rest =>
    if a.logger_ready then
      some (APP_WAIT_SUCCESS,
        { thread_label := thread_label, answers := rest,
          events := events ++
            [WorkerEvent.read_logger_ready true, WorkerEvent.LeaveCriticalSection,
             WorkerEvent.set_thread_log_file_from_config label,
             WorkerEvent.logger_log LogLevel.LOG_INFO,
             WorkerEvent.logger_log LogLevel.LOG_INFO] })
    else if wait_for_condition_with_timeout a.sleep_ok a.error_is_timeout
        = APP_WAIT_TIMEOUT then
      some (APP_WAIT_TIMEOUT,
        { thread_label := thread_label, answers := rest,
          events := events ++
            [WorkerEvent.read_logger_ready false,
             WorkerEvent.wait_for_condition_with_timeout 5000
               (wait_for_condition_with_timeout a.sleep_ok a.error_is_timeout),
             WorkerEvent.LeaveCriticalSection] })
    else if wait_for_condition_with_timeout a.sleep_ok a.error_is_timeout
        = APP_WAIT_ERROR then
      some (APP_WAIT_ERROR,
        { thread_label := thread_label, answers := rest,
          events := events ++
            [WorkerEvent.read_logger_ready false,
             WorkerEvent.wait_for_condition_with_timeout 5000
               (wait_for_condition_with_timeout a.sleep_ok a.error_is_timeout),
             WorkerEvent.LeaveCriticalSection] })
    else
      init_wait_for_logger_loop label thread_label
        (events ++
          [WorkerEvent.read_logger_ready false,
           WorkerEvent.wait_for_condition_with_timeout 5000
             (wait_for_condition_with_timeout a.sleep_ok a.error_is_timeout)])
        rest

/-- Source function `init_wait_for_logger` (lines 258-280). -/
def init_wait_for_logger : Hook WorkerWorld :=
  fun label w =>
    init_wait_for_logger_loop label (some label)
      (w.events ++
        [WorkerEvent.set_thread_label label, WorkerEvent.init_thread_timestamp_system,
         WorkerEvent.EnterCriticalSection])
      w.answers

/-- A wait that wakes up without a timeout or an error while `logger_ready` still reads
false. -/
def wokenNotReady (a : BarrierAnswers) : Bool :=
  !a.logger_ready && a.sleep_ok

/-- The event is a call of the wait primitive. -/
def isWait : WorkerEvent → Bool
  | WorkerEvent.wait_for_condition_with_timeout _ _ => true
  | _ => false

/-- Modelled from the spec: the states of a registry entry (`thread_registry.h` is not part of
the sources): CREATED, RUNNING, TERMINATED, UNKNOWN. -/
inductive ThreadState
  | THREAD_STATE_CREATED
  | THREAD_STATE_RUNNING
  | THREAD_STATE_TERMINATED
  | THREAD_STATE_UNKNOWN
  deriving DecidableEq, Repr

/-- Modelled from the spec: a registry entry (`ThreadRegistryEntry` of `thread_registry.h`):
the descriptor it tracks (by label), the OS handle and the state.  The list of entries is the
chain `head`, `next`, ... -/
structure ThreadRegistryEntry where
  label : List Char
  handle : Nat
  state : ThreadState
  deriving DecidableEq, Repr

/-- The globals `g_thread_registry` and `g_registry_initialized`. -/
structure GlobalRegistry where
  g_registry_initialized : Bool
  entries : List ThreadRegistryEntry
  deriving DecidableEq, Repr

/-- First pass of `app_thread_wait_all` (lines 49-56); `active_count` is a `DWORD`, its
increment wraps at `2^32`. -/
def count_active : Nat → List ThreadRegistryEntry → Nat
  | active_count, [] => active_count
  | active_count, entry :: next =>
    if entry.state ≠ ThreadState.THREAD_STATE_TERMINATED then
      count_active ((active_count + 1) % 4294967296) next
    else count_active active_count next

/-- Second pass of `app_thread_wait_all` (lines 72-79): `handles` is the allocated array, a
slot that was not written yet is `none`. -/
def collect_handles (active_count : Nat) :
    Nat → List (Option Nat) → List ThreadRegistryEntry → List (Option Nat)
  | _, handles, [] => handles
  | i, handles, entry :: next =>
    if i < active_count then
      if entry.state ≠ ThreadState.THREAD_STATE_TERMINATED then
        collect_handles active_count ((i + 1) % 4294967296) (handles.set i (some entry.handle))
          next
      else collect_handles active_count i handles next
    else handles

/-- Windows API constant. -/
def WAIT_OBJECT_0 : Nat := 0

/-- Outcome of `app_thread_wait_all`: the value returned and, when `WaitForMultipleObjects`
was called, the count and the handle array passed to it. -/
structure WaitAllRun where
  result : Bool
  waited : Option (Nat × List (Option Nat))
  deriving DecidableEq, Repr

/-- Source function `app_thread_wait_all` (lines 40-96).  `malloc_ok` tells whether the handle
array could be allocated and `wait_result` is the value `WaitForMultipleObjects` returns.  The
registry mutex is held during both passes, so both see the same entries. -/
def app_thread_wait_all (reg : GlobalRegistry) (malloc_ok : Bool) (wait_result : Nat) :
    WaitAllRun :=
  if reg.g_registry_initialized = false then { result := false, waited := none }
  else if count_active 0 reg.entries = 0 then { result := true, waited := none }
  else if malloc_ok = false then { result := false, waited := none }
  else
    { result := decide (wait_result = WAIT_OBJECT_0),
      waited := some (count_active 0 reg.entries,
        collect_handles (count_active 0 reg.entries) 0
          (List.replicate (count_active 0 reg.entries) none) reg.entries) }

/-- The handles of the entries that are not `TERMINATED`, in registry order. -/
def activeHandles (entries : List ThreadRegistryEntry) : List Nat :=
  (entries.filter (fun e => e.state ≠ ThreadState.THREAD_STATE_TERMINATED)).map
    (fun e => e.handle)

/-! ## Auxiliary definitions and concrete inputs -/

/-- Seven consecutive failed TCP dial attempts, socket setup failures and connect failures
mixed, with no shutdown. -/
def sevenFailedDials : List DialAnswers :=
  [{ shutdown := false, sock := SOCKET.INVALID_SOCKET, connected := false },
   { shutdown := false, sock := SOCKET.valid 3, connected := false },
   { shutdown := false, sock := SOCKET.INVALID_SOCKET, connected := false },
   { shutdown := false, sock := SOCKET.valid 4, connected := false },
   { shutdown := false, sock := SOCKET.valid 5, connected := false },
   { shutdown := false, sock := SOCKET.INVALID_SOCKET, connected := false },
   { shutdown := false, sock := SOCKET.valid 6, connected := false }]

/-- Lines 208-227 after a session that ended without shutdown: clean up the group, close the
socket, poll shutdown (not signalled), log, and sleep the fixed reconnect delay. -/
def reconnectEvents (sock : SOCKET) : List Event :=
  sessionTeardown sock ++
    [Event.shutdown_signalled false, Event.logger_log LogLevel.LOG_INFO, Event.sleep_ms 1000]

/-- What the supervisor does in one session up to the end of the monitoring loop: the shutdown
poll at the loop head, the dial, the creation of the comms group and the monitoring. -/
def sessionEvents (is_tcp : Bool) (conn_timeout thread_wait_timeout : Int)
    (s : SessionAnswers) : List Event :=
  Event.shutdown_signalled false ::
    (attempt_connection is_tcp conn_timeout s.backoff_max s.dial).trace ++
    [Event.comms_thread_group_init true, Event.comms_thread_group_create_threads true] ++
    (monitor_loop thread_wait_timeout freshSession s.monitor).trace

/-- A session over TCP whose first dial succeeds on socket 3 and whose comms group starts; the
first monitoring iteration sees activity and the next three are unhealthy, with retry limit 2
and no shutdown. -/
def forcedReconnectSession : SessionAnswers :=
  { shutdown_head := false, backoff_max := 32,
    dial := [{ shutdown := false, sock := SOCKET.valid 3, connected := true }],
    group_init := true, create_threads := true,
    monitor := [timedOut 2 true] ++ (List.replicate (2 + 1) (unhealthy ((2 : Nat) : Int)) ++ []),
    shutdown_after := false }

/-- The part of a trace that follows the first poll of `shutdown_signalled()` that returned
true (empty when there is no such poll). -/
def afterFirstShutdown : List Event → List Event
  | [] => []
  | e :: rest => if e = Event.shutdown_signalled true then rest else afterFirstShutdown rest

/-- The event is a socket setup, a connect attempt, a sleep, a comms-group initialisation or a
comms-thread creation. -/
def startsWork : Event → Bool
  | Event.setup_socket _ => true
  | Event.connect_with_timeout _ _ _ => true
  | Event.sleep_seconds _ => true
  | Event.sleep_ms _ => true
  | Event.comms_thread_group_init _ => true
  | Event.comms_thread_group_create_threads _ => true
  | _ => false

/-- The event is a comms-group initialisation or a comms-thread creation: a session is being
set up. -/
def createsSession : Event → Bool
  | Event.comms_thread_group_init _ => true
  | Event.comms_thread_group_create_threads _ => true
  | _ => false

/-- Two failed dial attempts followed by an iteration that finds shutdown signalled. -/
def dialsThenShutdown : List DialAnswers :=
  [{ shutdown := false, sock := SOCKET.INVALID_SOCKET, connected := false },
   { shutdown := false, sock := SOCKET.valid 3, connected := false },
   { shutdown := true, sock := SOCKET.valid 4, connected := true }]

/-- A session that is ended by shutdown during monitoring, after one healthy iteration. -/
def shutdownWhileMonitoring : SessionAnswers :=
  { shutdown_head := false, backoff_max := 32,
    dial := [{ shutdown := false, sock := SOCKET.valid 3, connected := true }],
    group_init := true, create_threads := true,
    monitor := [timedOut 10 true,
                { shutdown := true, is_closed := false, threads_completed := false,
                  retry_limit := 10, has_activity := false }],
    shutdown_after := true }

/-- The value of `backoff` after a failed dial attempt (lines 53 and 71). -/
def nextBackoff (backoff backoff_max : Int) : Int :=
  if backoff < backoff_max then wrapInt32 (backoff * 2) else backoff_max

/-- Shutdown is terminal in a run of the supervisor: if some poll of `shutdown_signalled()`
returned true and no later poll returned false, then nothing that follows the first such poll
is a socket setup, connect attempt, sleep, group initialisation or thread creation, and the
thread function returns. -/
def ShutdownTerminal (r : Run Unit) : Prop :=
  Event.shutdown_signalled true ∈ r.trace →
  Event.shutdown_signalled false ∉ afterFirstShutdown r.trace →
  (∀ e ∈ afterFirstShutdown r.trace, startsWork e = false) ∧ r.result = some ()

instance (r : Run Unit) : Decidable (ShutdownTerminal r) := by
  unfold ShutdownTerminal
  infer_instance

/-- A worker whose init hook is the readiness barrier; its main function and exit hook return
at once. -/
def barrierWorker : AppThread_T WorkerWorld :=
  { label := "CLIENT".toList, func := fun _ w => some (0, w), thread_id := 0, data := 0,
    pre_create_func := none, post_create_func := none,
    init_func := some init_wait_for_logger,
    exit_func := some (fun _ w => some (0, w)), suppressed := false }

/-- A fresh worker thread for which the logger never becomes ready: the first wait is woken
without the flag being set, the second wait times out. -/
def loggerNeverReady : WorkerWorld :=
  { thread_label := none,
    answers := [{ logger_ready := false, sleep_ok := true, error_is_timeout := false },
                { logger_ready := false, sleep_ok := false, error_is_timeout := true }],
    events := [] }

/-- An initialised registry with a running, a terminated and a created thread. -/
def sampleRegistry : GlobalRegistry :=
  { g_registry_initialized := true,
    entries :=
      [{ label := "LOGGER".toList, handle := 5, state := ThreadState.THREAD_STATE_RUNNING },
       { label := "SERVER".toList, handle := 6, state := ThreadState.THREAD_STATE_TERMINATED },
       { label := "CLIENT".toList, handle := 7, state := ThreadState.THREAD_STATE_CREATED }] }

/-- The event is a sleep of either kind. -/
def isSleep : Event → Bool
  | Event.sleep_seconds _ => true
  | Event.sleep_ms _ => true
  | _ => false

/-- The event is a call of `connect_with_timeout`. -/
def isConnect : Event → Bool
  | Event.connect_with_timeout _ _ _ => true
  | _ => false

/-- The sockets returned by the `setup_socket` calls of a trace, in order. -/
def setupResults : List Event → List SOCKET
  | [] => []
  | Event.setup_socket s :: rest => s :: setupResults rest
  | _ :: rest => setupResults rest

/-- Three failed TCP connects followed by a successful one. -/
def threeFailedConnects : List DialAnswers :=
  [{ shutdown := false, sock := SOCKET.valid 3, connected := false },
   { shutdown := false, sock := SOCKET.valid 4, connected := false },
   { shutdown := false, sock := SOCKET.valid 5, connected := false },
   { shutdown := false, sock := SOCKET.valid 6, connected := true }]

/-- What the supervisor holds at a point of its run: the socket it obtained from
`setup_socket` and has not closed yet, and whether the creation of the threads of the current
comms group was attempted and the group not cleaned up since. -/
structure Resources where
  open_socket : Option SOCKET
  group_pending : Bool
  deriving DecidableEq, Repr

/-- Effect of one call on the resources held, `none` when the call breaks the teardown
discipline: a `setup_socket` call while a socket is still open, or a `close_socket` call for a
socket other than the open one or while the comms group is not yet cleaned up. -/
def resourceStep (r : Resources) : Event → Option Resources
  | Event.setup_socket s =>
    if r.open_socket = none then
      some { open_socket := if s = SOCKET.INVALID_SOCKET then none else some s,
             group_pending := r.group_pending }
    else none
  | Event.close_socket s =>
    if r.open_socket = some s ∧ r.group_pending = false then
      some { open_socket := none, group_pending := false }
    else none
  | Event.comms_thread_group_create_threads _ =>
    some { open_socket := r.open_socket, group_pending := true }
  | Event.comms_thread_group_cleanup =>
    some { open_socket := r.open_socket, group_pending := false }
  | _ => some r

/-- The resources held after a trace, `none` when some call breaks the teardown discipline. -/
def resourceRun : Resources → List Event → Option Resources
  | r, [] => some r
  | r, e :: rest =>
    match resourceStep r e with
    | none => none
    | some r1 => resourceRun r1 rest

/-- Nothing held: no open socket, no comms group waiting for its cleanup. -/
def noResources : Resources :=
  { open_socket := none, group_pending := false }

/-- A session whose comms threads cannot be created, followed by a session that finds shutdown
signalled while dialling. -/
def spawnFailureThenShutdown : List SessionAnswers :=
  [{ shutdown_head := false, backoff_max := 32,
     dial := [{ shutdown := false, sock := SOCKET.valid 3, connected := true }],
     group_init := true, create_threads := false, monitor := [], shutdown_after := false },
   { shutdown_head := false, backoff_max := 32,
     dial := [{ shutdown := true, sock := SOCKET.INVALID_SOCKET, connected := false }],
     group_init := false, create_threads := false, monitor := [], shutdown_after := false }]

/-- What the supervisor holds when `attempt_connection` has produced the given result: the
returned socket when it is valid, nothing otherwise. -/
def heldAfterDial : Option SOCKET → Resources
  | some (SOCKET.valid fd) => { open_socket := some (SOCKET.valid fd), group_pending := false }
  | _ => noResources

/-- The call touches neither a socket nor the life cycle of the comms group. -/
def neutralEvent : Event → Bool
  | Event.setup_socket _ => false
  | Event.close_socket _ => false
  | Event.comms_thread_group_create_threads _ => false
  | Event.comms_thread_group_cleanup => false
  | _ => true

/-! ## Global registry and thread creation (`app_thread.c`) -/

/-- Modelled from the spec: `thread_registry_is_registered` (`thread_registry.c` is not part of
the sources): "true iff a live entry with that label exists", a live entry being one that is
not `TERMINATED`. -/
def thread_registry_is_registered (entries : List ThreadRegistryEntry) (label : List Char) :
    Bool :=
  entries.any (fun e =>
    decide (e.label = label) && decide (e.state ≠ ThreadState.THREAD_STATE_TERMINATED))

/-- Modelled from the spec: `thread_registry_register` (`thread_registry.c` is not part of the
sources): "adds a new entry with state CREATED. Fails if a live entry with the same label
already exists."  The new entry is put at the end of the collection.  `accepted` is the answer
of the environment for any other reason the function may have to report failure. -/
def thread_registry_register (accepted : Bool) (entries : List ThreadRegistryEntry)
    (label : List Char) (handle : Nat) : Option (List ThreadRegistryEntry) :=
  if accepted = false ∨ thread_registry_is_registered entries label = true then none
  else some (entries ++
    [{ label := label, handle := handle, state := ThreadState.THREAD_STATE_CREATED }])

/-- Modelled from the spec: `thread_registry_update_state` (`thread_registry.c` is not part of
the sources): "transitions the matching entry's state", the matching entry being the live
entry with the descriptor's label; without one the registry is left as it is. -/
def thread_registry_update_state (entries : List ThreadRegistryEntry) (label : List Char)
    (new_state : ThreadState) : List ThreadRegistryEntry :=
  entries.map (fun e =>
    if e.label = label ∧ e.state ≠ ThreadState.THREAD_STATE_TERMINATED then
      { label := e.label, handle := e.handle, state := new_state }
    else e)

/-- Calls into the registry module made by `app_thread_init` and `app_thread_cleanup`, with
the result of `thread_registry_init`. -/
inductive RegistryCall
  | thread_registry_init (ok : Bool)
  | thread_registry_cleanup
  deriving DecidableEq, Repr

/-- Outcome of `app_thread_init`: the value returned, the globals afterwards and the calls
into the registry module. -/
structure InitRun where
  result : Bool
  reg : GlobalRegistry
  calls : List RegistryCall
  deriving DecidableEq, Repr

/-- Source function `app_thread_init` (lines 26-38).  `thread_registry_init_ok` is what
`thread_registry_init` returns when it is called; on success it "prepares an empty
registry". -/
def app_thread_init (reg : GlobalRegistry) (thread_registry_init_ok : Bool) : InitRun :=
  if reg.g_registry_initialized then
    { result := true, reg := reg, calls := [] }
  else if thread_registry_init_ok = false then
    { result := false, reg := reg, calls := [RegistryCall.thread_registry_init false] }
  else
    { result := true, reg := { g_registry_initialized := true, entries := [] },
      calls := [RegistryCall.thread_registry_init true] }

/-- Source function `app_thread_cleanup` (lines 134-141): the globals afterwards and the calls
into the registry module; `thread_registry_cleanup` "releases all entries". -/
def app_thread_cleanup (reg : GlobalRegistry) : GlobalRegistry × List RegistryCall :=
  if reg.g_registry_initialized = false then (reg, [])
  else ({ g_registry_initialized := false, entries := [] },
        [RegistryCall.thread_registry_cleanup])

/-- A call of `app_thread_init` (with the answer `thread_registry_init` would give) or of
`app_thread_cleanup`. -/
inductive RegistryOp
  | app_thread_init (thread_registry_init_ok : Bool)
  | app_thread_cleanup
  deriving DecidableEq, Repr

/-- A sequence of `app_thread_init` and `app_thread_cleanup` calls: the globals afterwards and
all calls into the registry module, in order. -/
def runRegistryOps : GlobalRegistry → List RegistryOp → GlobalRegistry × List RegistryCall
  | reg, [] => (reg, [])
  | reg, RegistryOp.app_thread_init ok :: rest =>
    ((runRegistryOps (app_thread_init reg ok).reg rest).1,
     (app_thread_init reg ok).calls ++ (runRegistryOps (app_thread_init reg ok).reg rest).2)
  | reg, RegistryOp.app_thread_cleanup :: rest =>
    ((runRegistryOps (app_thread_cleanup reg).1 rest).1,
     (app_thread_cleanup reg).2 ++ (runRegistryOps (app_thread_cleanup reg).1 rest).2)

/-- The successful `thread_registry_init` calls and the `thread_registry_cleanup` calls of a
sequence of calls. -/
def effectiveCalls (calls : List RegistryCall) : List RegistryCall :=
  calls.filter (fun c => c ≠ RegistryCall.thread_registry_init false)

/-- The calls strictly alternate between a successful `thread_registry_init` and a
`thread_registry_cleanup`, starting with an init when `expect_init` is true and with a cleanup
otherwise. -/
def alternating : Bool → List RegistryCall → Bool
  | _, [] => true
  | true, RegistryCall.thread_registry_init true :: rest => alternating false rest
  | false, RegistryCall.thread_registry_cleanup :: rest => alternating true rest
  | _, _ => false

/-- The value the initialised flag should have after a sequence of effective calls: true
exactly when the most recent one is a successful `thread_registry_init`, and the initial value
when there is none. -/
def flagAfterCalls : Bool → List RegistryCall → Bool
  | flag, [] => flag
  | _, c :: rest => flagAfterCalls (decide (c = RegistryCall.thread_registry_init true)) rest

/-- Source function `get_thread_label` (lines 193-195): the thread-local label. -/
def get_thread_label (w : WorkerWorld) : Option (List Char) :=
  w.thread_label

/-- Source function `pre_create_stub` (lines 197-200). -/
def pre_create_stub {σ : Type} : Hook σ :=
  fun _ w => some (0, w)

/-- Source function `post_create_stub` (lines 202-205). -/
def post_create_stub {σ : Type} : Hook σ :=
  fun _ w => some (0, w)

/-- Source function `init_stub` (lines 207-211). -/
def init_stub : Hook WorkerWorld :=
  fun _ w =>
    some (0, { thread_label := w.thread_label, answers := w.answers,
               events := w.events ++ [WorkerEvent.init_thread_timestamp_system] })

/-- Source function `exit_stub` (lines 213-216). -/
def exit_stub {σ : Type} : Hook σ :=
  fun _ w => some (0, w)

/-- The entry point handed to `platform_thread_create`. -/
inductive ThreadEntry
  | app_thread_x
  deriving DecidableEq, Repr

/-- What `app_thread_create` does, in order. -/
inductive CreateStep
  | fprintf_stderr
  | logger_log (level : LogLevel)
  | pre_create_func
  | platform_thread_create (entry : ThreadEntry) (code : Int)
  | post_create_func
  | thread_registry_register (ok : Bool)
  | thread_registry_update_state (state : ThreadState)
  deriving DecidableEq, Repr

/-- Answers of the environment during one call of `app_thread_create`: the value
`platform_thread_create` returns (0 on success), the handle it stores into `thread_id` on
success, and whether `thread_registry_register` accepts the entry. -/
structure CreateAnswers where
  create_code : Int
  handle : Nat
  register_accepted : Bool
  deriving DecidableEq, Repr

/-- Outcome of `app_thread_create`: the value returned (`none` when a hook does not return),
the globals, the descriptor and the world of the calling thread afterwards, the steps
performed, and the handle of the OS thread the call started (it runs `app_thread_x` on the
descriptor from then on). -/
structure CreateRun where
  result : Option Bool
  reg : GlobalRegistry
  thread : Option (AppThread_T WorkerWorld)
  world : WorkerWorld
  steps : List CreateStep
  started : Option Nat

/-- Lines 299-302 of `app_thread_create`: every `NULL` hook is replaced by its default. -/
def fill_default_hooks (thread : AppThread_T WorkerWorld) : AppThread_T WorkerWorld :=
  { label := thread.label, func := thread.func, thread_id := thread.thread_id,
    data := thread.data,
    pre_create_func := some (thread.pre_create_func.getD pre_create_stub),
    post_create_func := some (thread.post_create_func.getD post_create_stub),
    init_func := some (thread.init_func.getD init_wait_for_logger),
    exit_func := some (thread.exit_func.getD exit_stub),
    suppressed := thread.suppressed }

/-- A guarded hook call `if (hook) hook(thread)`: the world afterwards and whether the call was
made; `none` when the hook does not return. -/
def call_if_set (hook : Option (Hook WorkerWorld)) (label : List Char) (w : WorkerWorld) :
    Option (WorkerWorld × Bool) :=
  match hook with
  | none => some (w, false)
  | some f =>
    match f label w with
    | none => none
    | some (_, w1) => some (w1, true)

/-- Lines 304-333 of `app_thread_create`, after the defaults are filled in. -/
def app_thread_create_body (reg : GlobalRegistry) (thread : AppThread_T WorkerWorld)
    (w : WorkerWorld) (a : CreateAnswers) : CreateRun :=
  match call_if_set thread.pre_create_func thread.label w with
  | none =>
    { result := none, reg := reg, thread := some thread, world := w,
      steps := [CreateStep.pre_create_func], started := none }
  | some (w1, pre_called) =>
    if a.create_code ≠ 0 then
      { result := some false, reg := reg, thread := some thread, world := w1,
        steps := (if pre_called then [CreateStep.pre_create_func] else []) ++
          [CreateStep.platform_thread_create ThreadEntry.app_thread_x a.create_code,
           CreateStep.logger_log LogLevel.LOG_ERROR],
        started := none }
    else
      match call_if_set thread.post_create_func thread.label w1 with
      | none =>
        { result := none, reg := reg,
          thread := some { thread with thread_id := a.handle }, world := w1,
          steps := (if pre_called then [CreateStep.pre_create_func] else []) ++
            [CreateStep.platform_thread_create ThreadEntry.app_thread_x a.create_code,
             CreateStep.post_create_func],
          started := some a.handle }
      | some (w2, post_called) =>
        match thread_registry_register a.register_accepted reg.entries thread.label
            a.handle with
        | none =>
          { result := some false, reg := reg,
            thread := some { thread with thread_id := a.handle }, world := w2,
            steps := (if pre_called then [CreateStep.pre_create_func] else []) ++
              [CreateStep.platform_thread_create ThreadEntry.app_thread_x a.create_code] ++
              (if post_called then [CreateStep.post_create_func] else []) ++
              [CreateStep.thread_registry_register false,
               CreateStep.logger_log LogLevel.LOG_ERROR],
            started := some a.handle }
        | some entries =>
          { result := some true,
            reg := { g_registry_initialized := reg.g_registry_initialized,
                     entries := thread_registry_update_state entries thread.label
                       ThreadState.THREAD_STATE_RUNNING },
            thread := some { thread with thread_id := a.handle }, world := w2,
            steps := (if pre_called then [CreateStep.pre_create_func] else []) ++
              [CreateStep.platform_thread_create ThreadEntry.app_thread_x a.create_code] ++
              (if post_called then [CreateStep.post_create_func] else []) ++
              [CreateStep.thread_registry_register true,
               CreateStep.thread_registry_update_state ThreadState.THREAD_STATE_RUNNING],
            started := some a.handle }

/-- Source function `app_thread_create` (lines 282-333); a `NULL` descriptor is `none`. -/
def app_thread_create (reg : GlobalRegistry) (thread : Option (AppThread_T WorkerWorld))
    (w : WorkerWorld) (a : CreateAnswers) : CreateRun :=
  if reg.g_registry_initialized = false then
    { result := some false, reg := reg, thread := thread, world := w,
      steps := [CreateStep.fprintf_stderr], started := none }
  else
    match thread with
    | none =>
      { result := some false, reg := reg, thread := none, world := w, steps := [],
        started := none }
    | some t =>
      if thread_registry_is_registered reg.entries t.label = true then
        { result := some false, reg := reg, thread := some t, world := w,
          steps := [CreateStep.logger_log LogLevel.LOG_WARN], started := none }
      else app_thread_create_body reg (fill_default_hooks t) w a

/-- The four threads `start_threads` may create, in the order of its four tests. -/
inductive WellKnownThread
  | LOGGER
  | CLIENT
  | SERVER
  | COMMAND_INTERFACE
  deriving DecidableEq, Repr

/-- The label literal `start_threads` passes to `app_thread_is_suppressed` for each thread
(lines 478-491). -/
def WellKnownThread.label : WellKnownThread → List Char
  | WellKnownThread.LOGGER => "LOGGER".toList
  | WellKnownThread.CLIENT => "CLIENT".toList
  | WellKnownThread.SERVER => "SERVER".toList
  | WellKnownThread.COMMAND_INTERFACE => "COMMAND_INTERFACE".toList

/-- Answers of the environment during `start_threads`: the result of `thread_registry_init`,
the value of `debug/suppress_threads`, and for each of the four threads whether `strdup`
succeeds in its `app_thread_is_suppressed` call and the answers for its
`app_thread_create` call. -/
structure StartAnswers where
  thread_registry_init_ok : Bool
  suppressed_list : List Char
  strdup_ok : WellKnownThread → Bool
  create : WellKnownThread → CreateAnswers

/-- Main functions that return at once. -/
def idleMains : WellKnownThread → Hook WorkerWorld :=
  fun _ _ w => some (0, w)

/-- An initialised global registry without entries. -/
def emptyRegistry : GlobalRegistry :=
  { g_registry_initialized := true, entries := [] }

/-- The world of a thread that has no label yet and did nothing so far, with no answers of
the environment left. -/
def freshWorld : WorkerWorld :=
  { thread_label := none, answers := [], events := [] }

/-- The OS creates the thread (handle 7) and `thread_registry_register` then reports
failure. -/
def registrationRefused : CreateAnswers :=
  { create_code := 0, handle := 7, register_accepted := false }

/-- The OS creates the thread (handle 7) and the registry accepts the entry. -/
def creationSucceeds : CreateAnswers :=
  { create_code := 0, handle := 7, register_accepted := true }

/-- The registry can be initialised, the suppression list is `"server, Client"`, every `strdup`
succeeds and every creation succeeds with handle 7. -/
def serverAndClientSuppressed : StartAnswers :=
  { thread_registry_init_ok := true, suppressed_list := "server, Client".toList,
    strdup_ok := fun _ => true, create := fun _ => creationSucceeds }

/-- A descriptor with label `CLIENT` all of whose hooks are unset. -/
def bareWorker : AppThread_T WorkerWorld :=
  { label := "CLIENT".toList, func := fun _ w => some (0, w), thread_id := 0, data := 0,
    pre_create_func := none, post_create_func := none, init_func := none, exit_func := none,
    suppressed := false }

/-- The thread-local label at the moment of each call of the given kind, in order. -/
def labelsAtCalls (k : CallKind) (calls : List (Call WorkerWorld)) :
    List (Option (List Char)) :=
  (calls.filter (fun c => c.kind == k)).map (fun c => get_thread_label c.world)

/-- A new thread (no label yet) for which `logger_ready` reads true at once. -/
def loggerReady : WorkerWorld :=
  { thread_label := none,
    answers := [{ logger_ready := true, sleep_ok := true, error_is_timeout := false }],
    events := [] }

/-- A descriptor set up like `logger_thread`: its init hook is `init_stub`. -/
def stubInitWorker : AppThread_T WorkerWorld :=
  { label := "LOGGER".toList, func := fun _ w => some (0, w), thread_id := 0, data := 0,
    pre_create_func := some pre_create_stub, post_create_func := some post_create_stub,
    init_func := some init_stub, exit_func := some exit_stub, suppressed := false }

/-- A descriptor whose init hook returns the pointer value `0x100000000`: not the success
sentinel, but a value whose low 32 bits are all zero.  Its hooks leave the world alone. -/
def highBitsInitWorker : AppThread_T Unit :=
  { label := "CLIENT".toList, func := fun _ w => some (0, w), thread_id := 0, data := 0,
    pre_create_func := none, post_create_func := none,
    init_func := some (fun _ w => some (4294967296, w)),
    exit_func := some (fun _ w => some (0, w)), suppressed := false }

/-! ## Theorems -/

/-- C1 (the code at the failing input): with `client.backoff_max_seconds = 60` and seven
consecutive failed dial attempts (setup and connect failures mixed, no shutdown) the sleeps
last 1, 2, 4, 8, 16, 32 and 64 seconds: the seventh sleep is 64 seconds long, not
`min (2^6) 60 = 60`. -/
theorem C1_seventh_sleep_exceeds_ceiling :
    (∀ a ∈ sevenFailedDials, dialFails true a = true) ∧
    sleepSeconds (attempt_connection true 5 60 sevenFailedDials).trace
      = [1, 2, 4, 8, 16, 32, 64] ∧
    (sleepSeconds (attempt_connection true 5 60 sevenFailedDials).trace)[6]?
      ≠ some (min (2 ^ 6) 60) := by
  decide

/-! ### Monitoring loop: helper lemmas -/

theorem monitor_loop_nil (t : Int) (s : MonitorState) :
    monitor_loop t s [] = { outcome := MonitorStep.next s, trace := [], iterations := 0 } :=
  rfl

theorem monitor_loop_cons_exit (t : Int) (s : MonitorState) (a : MonitorAnswers)
    (rest : List MonitorAnswers) (why : MonitorExit)
    (h : (monitor_iteration t s a).step = MonitorStep.exit why) :
    monitor_loop t s (a :: rest) =
      { outcome := MonitorStep.exit why, trace := (monitor_iteration t s a).events,
        iterations := 1 } := by
  simp [monitor_loop, h]

theorem monitor_loop_cons_next (t : Int) (s s1 : MonitorState) (a : MonitorAnswers)
    (rest : List MonitorAnswers)
    (h : (monitor_iteration t s a).step = MonitorStep.next s1) :
    monitor_loop t s (a :: rest) =
      { outcome := (monitor_loop t s1 rest).outcome,
        trace := (monitor_iteration t s a).events ++ (monitor_loop t s1 rest).trace,
        iterations := (monitor_loop t s1 rest).iterations + 1 } := by
  simp [monitor_loop, h]

/-- Running the loop on `xs ++ ys` when it is still running after `xs`. -/
theorem monitor_loop_append_next (t : Int) (xs ys : List MonitorAnswers) :
    ∀ (s s1 : MonitorState), (monitor_loop t s xs).outcome = MonitorStep.next s1 →
      monitor_loop t s (xs ++ ys) =
        { outcome := (monitor_loop t s1 ys).outcome,
          trace := (monitor_loop t s xs).trace ++ (monitor_loop t s1 ys).trace,
          iterations := (monitor_loop t s xs).iterations + (monitor_loop t s1 ys).iterations } := by
  induction xs with
  | nil =>
    intro s s1 h
    simp [monitor_loop_nil] at h
    subst h
    simp [monitor_loop_nil]
  | cons a xs ih =>
    intro s s1 h
    cases hstep : (monitor_iteration t s a).step with
    | exit why =>
      rw [monitor_loop_cons_exit t s a xs why hstep] at h
      simp at h
    | next s2 =>
      rw [monitor_loop_cons_next t s s2 a xs hstep] at h
      simp only at h
      rw [List.cons_append, monitor_loop_cons_next t s s2 a (xs ++ ys) hstep, ih s2 s1 h,
        monitor_loop_cons_next t s s2 a xs hstep]
      simp [List.append_assoc]
      omega

/-- Running the loop on `xs ++ ys` when it is left within `xs`. -/
theorem monitor_loop_append_exit (t : Int) (xs ys : List MonitorAnswers) :
    ∀ (s : MonitorState) (why : MonitorExit),
      (monitor_loop t s xs).outcome = MonitorStep.exit why →
      monitor_loop t s (xs ++ ys) = monitor_loop t s xs := by
  induction xs with
  | nil =>
    intro s why h
    simp [monitor_loop_nil] at h
  | cons a xs ih =>
    intro s why h
    cases hstep : (monitor_iteration t s a).step with
    | exit why1 =>
      rw [List.cons_append, monitor_loop_cons_exit t s a (xs ++ ys) why1 hstep,
        monitor_loop_cons_exit t s a xs why1 hstep]
    | next s2 =>
      rw [monitor_loop_cons_next t s s2 a xs hstep] at h
      simp only at h
      rw [List.cons_append, monitor_loop_cons_next t s s2 a (xs ++ ys) hstep, ih s2 why h,
        monitor_loop_cons_next t s s2 a xs hstep]

theorem countLogs_append (level : LogLevel) (xs ys : List Event) :
    countLogs level (xs ++ ys) = countLogs level xs + countLogs level ys := by
  simp [countLogs, List.countP_append]

/-- The first unhealthy iteration of a session that is not yet monitored carefully switches
careful monitoring on and leaves the counter alone. -/
theorem monitor_iteration_unhealthy_first (t L r : Int) :
    monitor_iteration t { health_check_retries := r, monitoring_connection_health := false }
        (unhealthy L) =
      { step := MonitorStep.next { health_check_retries := r,
                                   monitoring_connection_health := true },
        events := monitorPrefix t ++
          [Event.comms_thread_has_activity false, Event.logger_log LogLevel.LOG_WARN] } := by
  simp [monitor_iteration, unhealthy, timedOut]

/-- An unhealthy iteration under careful monitoring below the limit counts one retry. -/
theorem monitor_iteration_unhealthy_counted (t L r : Int) (h : ¬ (0 < L ∧ L ≤ r + 1)) :
    monitor_iteration t { health_check_retries := r, monitoring_connection_health := true }
        (unhealthy L) =
      { step := MonitorStep.next { health_check_retries := r + 1,
                                   monitoring_connection_health := true },
        events := monitorPrefix t ++
          [Event.get_config_int_retry_limit L, Event.comms_thread_has_activity false] } := by
  simp [monitor_iteration, unhealthy, timedOut, h]

/-- Under careful monitoring a timed-out wait that reaches the limit forces the reconnection,
whatever the activity. -/
theorem monitor_iteration_forced (t L r : Int) (act : Bool) (h : 0 < L ∧ L ≤ r + 1) :
    monitor_iteration t { health_check_retries := r, monitoring_connection_health := true }
        (timedOut L act) =
      { step := MonitorStep.exit MonitorExit.forced,
        events := monitorPrefix t ++
          [Event.get_config_int_retry_limit L, Event.logger_log LogLevel.LOG_ERROR] } := by
  simp [monitor_iteration, timedOut, h]

/-- Unhealthy iterations under careful monitoring that stay below the limit: the loop keeps
running, counts each of them and logs no error. -/
theorem monitor_loop_unhealthy_counted (t L : Int) :
    ∀ (n : Nat) (r : Int), r + n < L →
      (monitor_loop t { health_check_retries := r, monitoring_connection_health := true }
          (List.replicate n (unhealthy L))).outcome
        = MonitorStep.next { health_check_retries := r + n,
                             monitoring_connection_health := true } ∧
      (monitor_loop t { health_check_retries := r, monitoring_connection_health := true }
          (List.replicate n (unhealthy L))).iterations = n ∧
      countLogs LogLevel.LOG_ERROR
        (monitor_loop t { health_check_retries := r, monitoring_connection_health := true }
          (List.replicate n (unhealthy L))).trace = 0 := by
  intro n
  induction n with
  | zero =>
    intro r _
    simp [monitor_loop_nil, countLogs]
  | succ n ih =>
    intro r hr
    have hlt : ¬ (0 < L ∧ L ≤ r + 1) := by push_cast at hr; omega
    have hrec := ih (r + 1) (by push_cast at hr; omega)
    rw [List.replicate_succ,
      monitor_loop_cons_next t _ _ _ _
        (congrArg MonitorIter.step (monitor_iteration_unhealthy_counted t L r hlt))]
    rw [monitor_iteration_unhealthy_counted t L r hlt]
    refine ⟨?_, ?_, ?_⟩
    · simp only [hrec.1]
      push_cast
      congr 2
      omega
    · simp only [hrec.2.1]
    · simp only [countLogs_append, hrec.2.2]
      simp [countLogs, monitorPrefix]

/-- C2 (counterexample): with retry limit 3, after three consecutive unhealthy monitoring
iterations of a fresh session the monitoring loop is still running (counter 2, careful
monitoring on) and no ERROR-level log was emitted. -/
theorem C2_three_unhealthy_iterations_keep_session :
    (monitor_loop 5000 freshSession (List.replicate 3 (unhealthy 3))).outcome
      = MonitorStep.next { health_check_retries := 2, monitoring_connection_health := true } ∧
    (monitor_loop 5000 freshSession (List.replicate 3 (unhealthy 3))).iterations = 3 ∧
    countLogs LogLevel.LOG_ERROR
      (monitor_loop 5000 freshSession (List.replicate 3 (unhealthy 3))).trace = 0 := by
  decide

/-- C2 (amended): for every retry limit `L > 0`, in a fresh session (counter 0), after `L`
consecutive unhealthy monitoring iterations the monitoring loop is still running, with the
counter at `L - 1` and no ERROR-level log; the next iteration whose wait times out (no shutdown,
group not closed, limit `L`, any activity answer) ends the session by the forced-reconnection
branch, so the loop is left in iteration `L + 1` with exactly one ERROR-level log. -/
theorem C2_forced_end_in_iteration_after_limit (L : Nat) (hL : 0 < L) (t : Int) (act : Bool) :
    (monitor_loop t freshSession (List.replicate L (unhealthy L))).outcome
      = MonitorStep.next { health_check_retries := (L : Int) - 1,
                           monitoring_connection_health := true } ∧
    countLogs LogLevel.LOG_ERROR
      (monitor_loop t freshSession (List.replicate L (unhealthy L))).trace = 0 ∧
    (monitor_loop t freshSession
      (List.replicate L (unhealthy L) ++ [timedOut L act])).outcome
      = MonitorStep.exit MonitorExit.forced ∧
    (monitor_loop t freshSession
      (List.replicate L (unhealthy L) ++ [timedOut L act])).iterations = L + 1 ∧
    countLogs LogLevel.LOG_ERROR
      (monitor_loop t freshSession
        (List.replicate L (unhealthy L) ++ [timedOut L act])).trace = 1 := by
  obtain ⟨n, rfl⟩ : ∃ n, L = n + 1 := ⟨L - 1, by omega⟩
  have hcount := monitor_loop_unhealthy_counted t ((n + 1 : Nat) : Int) n 0 (by push_cast; omega)
  have hfirst : monitor_loop t freshSession (List.replicate (n + 1) (unhealthy ((n + 1 : Nat) : Int)))
      = { outcome := MonitorStep.next { health_check_retries := (n : Int),
                                        monitoring_connection_health := true },
          trace := monitorPrefix t ++
              [Event.comms_thread_has_activity false, Event.logger_log LogLevel.LOG_WARN] ++
            (monitor_loop t { health_check_retries := 0, monitoring_connection_health := true }
              (List.replicate n (unhealthy ((n + 1 : Nat) : Int)))).trace,
          iterations := n + 1 } := by
    rw [List.replicate_succ, freshSession,
      monitor_loop_cons_next t _ _ _ _
        (congrArg MonitorIter.step (monitor_iteration_unhealthy_first t _ 0)),
      monitor_iteration_unhealthy_first, hcount.1, hcount.2.1]
    simp
  have hlast : monitor_loop t { health_check_retries := (n : Int),
                                monitoring_connection_health := true }
      [timedOut ((n + 1 : Nat) : Int) act]
      = { outcome := MonitorStep.exit MonitorExit.forced,
          trace := monitorPrefix t ++
            [Event.get_config_int_retry_limit ((n + 1 : Nat) : Int),
             Event.logger_log LogLevel.LOG_ERROR],
          iterations := 1 } := by
    have hf := monitor_iteration_forced t ((n + 1 : Nat) : Int) n act (by push_cast; omega)
    rw [monitor_loop_cons_exit t _ _ _ MonitorExit.forced (congrArg MonitorIter.step hf), hf]
  have herr : countLogs LogLevel.LOG_ERROR
      (monitor_loop t freshSession
        (List.replicate (n + 1) (unhealthy ((n + 1 : Nat) : Int)))).trace = 0 := by
    rw [hfirst]
    simp only [countLogs_append, hcount.2.2]
    simp [countLogs, monitorPrefix]
  have hwhole := monitor_loop_append_next t
    (List.replicate (n + 1) (unhealthy ((n + 1 : Nat) : Int)))
    [timedOut ((n + 1 : Nat) : Int) act] freshSession
    { health_check_retries := (n : Int), monitoring_connection_health := true }
    (by rw [hfirst])
  refine ⟨?_, herr, ?_, ?_, ?_⟩
  · rw [hfirst]
    simp
  · rw [hwhole, hlast]
  · rw [hwhole, hlast, hfirst]
  · rw [hwhole]
    simp only [countLogs_append, herr, hlast]
    simp [countLogs, monitorPrefix]

/-- C2 (witness): the amended statement at `L = 3`, wait timeout 5000 ms. -/
theorem C2_forced_end_in_iteration_after_limit_witness :
    (monitor_loop 5000 freshSession (List.replicate 3 (unhealthy ((3 : Nat) : Int)))).outcome
      = MonitorStep.next { health_check_retries := ((3 : Nat) : Int) - 1,
                           monitoring_connection_health := true } ∧
    countLogs LogLevel.LOG_ERROR
      (monitor_loop 5000 freshSession (List.replicate 3 (unhealthy ((3 : Nat) : Int)))).trace
      = 0 ∧
    (monitor_loop 5000 freshSession
      (List.replicate 3 (unhealthy ((3 : Nat) : Int)) ++
        [timedOut ((3 : Nat) : Int) false])).outcome
      = MonitorStep.exit MonitorExit.forced ∧
    (monitor_loop 5000 freshSession
      (List.replicate 3 (unhealthy ((3 : Nat) : Int)) ++
        [timedOut ((3 : Nat) : Int) false])).iterations = 3 + 1 ∧
    countLogs LogLevel.LOG_ERROR
      (monitor_loop 5000 freshSession
        (List.replicate 3 (unhealthy ((3 : Nat) : Int)) ++
          [timedOut ((3 : Nat) : Int) false])).trace = 1 :=
  C2_forced_end_in_iteration_after_limit 3 (by decide) 5000 false

/-- C9 (counterexample): with retry limit 1, a fresh session has one unhealthy iteration and
then an iteration whose wait times out while the session has recent activity again; in that
iteration the session is forcibly ended (the counter is not reset, `comms_thread_has_activity`
is not even asked). -/
theorem C9_activity_does_not_prevent_forced_end :
    (timedOut 1 true).has_activity = true ∧
    (monitor_iteration 5000
      { health_check_retries := 0, monitoring_connection_health := true }
      (timedOut 1 true)).step = MonitorStep.exit MonitorExit.forced ∧
    (monitor_loop 5000 freshSession [unhealthy 1, timedOut 1 true]).outcome
      = MonitorStep.exit MonitorExit.forced ∧
    Event.comms_thread_has_activity true ∉
      (monitor_loop 5000 freshSession [unhealthy 1, timedOut 1 true]).trace := by
  decide

/-- C9 (amended): in a monitoring iteration in which the group wait does not complete (no
shutdown, group not closed) and the session has recent activity, the counter is reset to 0,
the careful-monitoring flag is cleared and monitoring continues, unless careful monitoring is
on and the retry limit is positive and at most the counter plus one: then the retry-limit
check, which precedes the activity check, forcibly ends the session in that iteration. -/
theorem C9_activity_resets_unless_limit_reached (t : Int) (s : MonitorState)
    (a : MonitorAnswers) (hs : a.shutdown = false) (hc : a.is_closed = false)
    (hw : a.threads_completed = false) (ha : a.has_activity = true) :
    (¬ (s.monitoring_connection_health = true ∧ 0 < a.retry_limit ∧
          a.retry_limit ≤ s.health_check_retries + 1) →
      (monitor_iteration t s a).step
        = MonitorStep.next { health_check_retries := 0,
                             monitoring_connection_health := false }) ∧
    ((s.monitoring_connection_health = true ∧ 0 < a.retry_limit ∧
          a.retry_limit ≤ s.health_check_retries + 1) →
      (monitor_iteration t s a).step = MonitorStep.exit MonitorExit.forced) := by
  constructor
  · intro h
    by_cases hm : s.monitoring_connection_health = true
    · have h2 : ¬ (0 < a.retry_limit ∧ a.retry_limit ≤ s.health_check_retries + 1) :=
        fun hh => h ⟨hm, hh⟩
      simp [monitor_iteration, hs, hc, hw, ha, hm, h2]
    · simp [monitor_iteration, hs, hc, hw, ha, hm]
  · intro h
    simp [monitor_iteration, hs, hc, hw, h.1, h.2]

/-- C9 (witness): counter 7, careful monitoring on, limit 10: the limit is not reached, so
activity resets the counter and clears the flag. -/
theorem C9_activity_resets_unless_limit_reached_witness :
    (monitor_iteration 5000 (MonitorState.mk 7 true) (timedOut 10 true)).step
      = MonitorStep.next { health_check_retries := 0,
                           monitoring_connection_health := false } :=
  (C9_activity_resets_unless_limit_reached 5000 (MonitorState.mk 7 true) (timedOut 10 true)
    rfl rfl rfl rfl).1 (by decide)

/-- With the retry limit read as zero or negative, an iteration never takes the
forced-reconnection branch and logs no error; when it leaves the loop, the answer that made it
do so is the shutdown poll, the closed test or the completed wait. -/
theorem monitor_iteration_limit_disabled (t : Int) (s : MonitorState) (a : MonitorAnswers)
    (h : a.retry_limit ≤ 0) :
    countLogs LogLevel.LOG_ERROR (monitor_iteration t s a).events = 0 ∧
    ((∃ s1, (monitor_iteration t s a).step = MonitorStep.next s1) ∨
     ((monitor_iteration t s a).step = MonitorStep.exit MonitorExit.shutdown ∧
        a.shutdown = true) ∨
     ((monitor_iteration t s a).step = MonitorStep.exit MonitorExit.closed ∧
        a.is_closed = true) ∨
     ((monitor_iteration t s a).step = MonitorStep.exit MonitorExit.completed ∧
        a.threads_completed = true)) := by
  have hlim : ¬ (0 < a.retry_limit ∧ a.retry_limit ≤ s.health_check_retries + 1) := by omega
  unfold monitor_iteration
  by_cases hs : a.shutdown = true
  · simp [hs, countLogs]
  · by_cases hc : a.is_closed = true
    · simp [hs, hc, countLogs]
    · by_cases hw : a.threads_completed = true
      · simp [hs, hc, hw, countLogs]
      · by_cases hm : s.monitoring_connection_health = true <;>
          by_cases ha : a.has_activity = true <;>
          simp [hs, hc, hw, hm, ha, hlim, countLogs, monitorPrefix]

/-- C10: if `client.retry_limit` is read as zero or negative in every monitoring iteration,
then from every loop state and for every sequence of answers the monitoring loop never leaves
by the forced-reconnection branch and logs no error; when it is left, it is because some
iteration saw shutdown signalled, the group closed, or the group wait report completion. -/
theorem C10_disabled_limit_never_forces (t : Int) (answers : List MonitorAnswers) :
    ∀ (s : MonitorState), (∀ a ∈ answers, a.retry_limit ≤ 0) →
      (monitor_loop t s answers).outcome ≠ MonitorStep.exit MonitorExit.forced ∧
      countLogs LogLevel.LOG_ERROR (monitor_loop t s answers).trace = 0 ∧
      (∀ why, (monitor_loop t s answers).outcome = MonitorStep.exit why →
        ∃ a ∈ answers,
          (why = MonitorExit.shutdown ∧ a.shutdown = true) ∨
          (why = MonitorExit.closed ∧ a.is_closed = true) ∨
          (why = MonitorExit.completed ∧ a.threads_completed = true)) := by
  induction answers with
  | nil =>
    intro s _
    simp [monitor_loop_nil, countLogs]
  | cons a rest ih =>
    intro s h
    have ha := monitor_iteration_limit_disabled t s a (h a (List.mem_cons_self a rest))
    have hrest : ∀ b ∈ rest, b.retry_limit ≤ 0 := fun b hb => h b (List.mem_cons_of_mem a hb)
    rcases ha with ⟨herr, ⟨s1, hstep⟩ | ⟨hstep, hq⟩ | ⟨hstep, hq⟩ | ⟨hstep, hq⟩⟩
    · have hr := ih s1 hrest
      rw [monitor_loop_cons_next t s s1 a rest hstep]
      refine ⟨hr.1, ?_, ?_⟩
      · simp only [countLogs_append, herr, hr.2.1]
      · intro why hwhy
        obtain ⟨b, hb, hbb⟩ := hr.2.2 why hwhy
        exact ⟨b, List.mem_cons_of_mem a hb, hbb⟩
    · rw [monitor_loop_cons_exit t s a rest _ hstep]
      refine ⟨by simp, herr, ?_⟩
      intro why hwhy
      refine ⟨a, List.mem_cons_self a rest, Or.inl ⟨?_, hq⟩⟩
      simpa using hwhy.symm
    · rw [monitor_loop_cons_exit t s a rest _ hstep]
      refine ⟨by simp, herr, ?_⟩
      intro why hwhy
      refine ⟨a, List.mem_cons_self a rest, Or.inr (Or.inl ⟨?_, hq⟩)⟩
      simpa using hwhy.symm
    · rw [monitor_loop_cons_exit t s a rest _ hstep]
      refine ⟨by simp, herr, ?_⟩
      intro why hwhy
      refine ⟨a, List.mem_cons_self a rest, Or.inr (Or.inr ⟨?_, hq⟩)⟩
      simpa using hwhy.symm

/-- C10 (witness): limit 0, a fresh session, forty unhealthy iterations and then shutdown. -/
theorem C10_disabled_limit_never_forces_witness :
    (monitor_loop 5000 freshSession
        (List.replicate 40 (unhealthy 0) ++
          [{ shutdown := true, is_closed := false, threads_completed := false,
             retry_limit := 0, has_activity := false }])).outcome
      ≠ MonitorStep.exit MonitorExit.forced ∧
    countLogs LogLevel.LOG_ERROR
      (monitor_loop 5000 freshSession
        (List.replicate 40 (unhealthy 0) ++
          [{ shutdown := true, is_closed := false, threads_completed := false,
             retry_limit := 0, has_activity := false }])).trace = 0 ∧
    (∀ why,
      (monitor_loop 5000 freshSession
        (List.replicate 40 (unhealthy 0) ++
          [{ shutdown := true, is_closed := false, threads_completed := false,
             retry_limit := 0, has_activity := false }])).outcome = MonitorStep.exit why →
      ∃ a ∈ List.replicate 40 (unhealthy 0) ++
          [{ shutdown := true, is_closed := false, threads_completed := false,
             retry_limit := 0, has_activity := false }],
        (why = MonitorExit.shutdown ∧ a.shutdown = true) ∨
        (why = MonitorExit.closed ∧ a.is_closed = true) ∨
        (why = MonitorExit.completed ∧ a.threads_completed = true)) :=
  C10_disabled_limit_never_forces 5000 _ freshSession (by decide)

/-- The counter never becomes negative. -/
theorem monitor_iteration_counter_nonneg (t : Int) (s s1 : MonitorState) (a : MonitorAnswers)
    (h0 : 0 ≤ s.health_check_retries)
    (h : (monitor_iteration t s a).step = MonitorStep.next s1) :
    0 ≤ s1.health_check_retries := by
  unfold monitor_iteration at h
  split_ifs at h <;> simp at h <;> subst h <;> simp <;> omega

theorem monitor_loop_counter_nonneg (t : Int) (xs : List MonitorAnswers) :
    ∀ (s s1 : MonitorState), 0 ≤ s.health_check_retries →
      (monitor_loop t s xs).outcome = MonitorStep.next s1 → 0 ≤ s1.health_check_retries := by
  induction xs with
  | nil =>
    intro s s1 h0 h
    simp [monitor_loop_nil] at h
    subst h
    exact h0
  | cons a xs ih =>
    intro s s1 h0 h
    cases hstep : (monitor_iteration t s a).step with
    | exit why =>
      rw [monitor_loop_cons_exit t s a xs why hstep] at h
      simp at h
    | next s2 =>
      rw [monitor_loop_cons_next t s s2 a xs hstep] at h
      exact ih s2 s1 (monitor_iteration_counter_nonneg t s s2 a h0 hstep) h

/-- A loop that is still running has consumed every answer. -/
theorem monitor_loop_running_iterations (t : Int) (xs : List MonitorAnswers) :
    ∀ (s s1 : MonitorState), (monitor_loop t s xs).outcome = MonitorStep.next s1 →
      (monitor_loop t s xs).iterations = xs.length := by
  induction xs with
  | nil =>
    intro s s1 _
    simp [monitor_loop_nil]
  | cons a xs ih =>
    intro s s1 h
    cases hstep : (monitor_iteration t s a).step with
    | exit why =>
      rw [monitor_loop_cons_exit t s a xs why hstep] at h
      simp at h
    | next s2 =>
      rw [monitor_loop_cons_next t s s2 a xs hstep] at h
      rw [monitor_loop_cons_next t s s2 a xs hstep]
      simp [ih s2 s1 h]

/-- Under careful monitoring, `n + 1` unhealthy iterations with `L ≤ counter + n + 1` end in
the forced-reconnection branch. -/
theorem monitor_loop_forced_monitoring (t L : Int) (hL : 0 < L) (rest : List MonitorAnswers) :
    ∀ (n : Nat) (r : Int), L ≤ r + (n + 1) →
      (monitor_loop t { health_check_retries := r, monitoring_connection_health := true }
          (List.replicate (n + 1) (unhealthy L) ++ rest)).outcome
        = MonitorStep.exit MonitorExit.forced ∧
      (monitor_loop t { health_check_retries := r, monitoring_connection_health := true }
          (List.replicate (n + 1) (unhealthy L) ++ rest)).iterations ≤ n + 1 := by
  intro n
  induction n with
  | zero =>
    intro r hr
    have hf := monitor_iteration_forced t L r false ⟨hL, by simpa using hr⟩
    rw [List.replicate_succ, List.cons_append, unhealthy,
      monitor_loop_cons_exit t _ _ _ MonitorExit.forced (congrArg MonitorIter.step hf)]
    simp
  | succ n ih =>
    intro r hr
    rw [List.replicate_succ, List.cons_append]
    by_cases hnow : L ≤ r + 1
    · have hf := monitor_iteration_forced t L r false ⟨hL, hnow⟩
      rw [unhealthy,
        monitor_loop_cons_exit t _ _ _ MonitorExit.forced (congrArg MonitorIter.step hf)]
      simp
    · have hc := monitor_iteration_unhealthy_counted t L r (fun hh => hnow hh.2)
      have hrec := ih (r + 1) (by push_cast at hr; omega)
      rw [monitor_loop_cons_next t _ _ _ _ (congrArg MonitorIter.step hc)]
      exact ⟨hrec.1, by simpa using hrec.2⟩

/-- From every loop state with a non-negative counter, `L + 1` unhealthy iterations end in the
forced-reconnection branch. -/
theorem monitor_loop_forced_within (t : Int) (L : Nat) (hL : 0 < L)
    (rest : List MonitorAnswers) (s : MonitorState) (h0 : 0 ≤ s.health_check_retries) :
    (monitor_loop t s (List.replicate (L + 1) (unhealthy L) ++ rest)).outcome
      = MonitorStep.exit MonitorExit.forced ∧
    (monitor_loop t s (List.replicate (L + 1) (unhealthy L) ++ rest)).iterations ≤ L + 1 := by
  obtain ⟨r, m⟩ := s
  simp only at h0
  cases m with
  | true =>
    exact monitor_loop_forced_monitoring t L (by exact_mod_cast hL) rest L r
      (by omega)
  | false =>
    obtain ⟨n, rfl⟩ : ∃ n, L = n + 1 := ⟨L - 1, by omega⟩
    have hfirst := monitor_iteration_unhealthy_first t ((n + 1 : Nat) : Int) r
    have hrec := monitor_loop_forced_monitoring t ((n + 1 : Nat) : Int)
      (by push_cast; omega) rest n r (by push_cast; omega)
    rw [List.replicate_succ, List.cons_append,
      monitor_loop_cons_next t _ _ _ _ (congrArg MonitorIter.step hfirst)]
    exact ⟨hrec.1, by simpa using hrec.2⟩

/-! ### Outer loop of the supervisor: one lemma per path -/

theorem clientMainThread_loop_shutdown_head (is_tcp : Bool) (conn_timeout t : Int)
    (s : SessionAnswers) (more : List SessionAnswers) (h : s.shutdown_head = true) :
    clientMainThread_loop is_tcp conn_timeout t (s :: more) =
      { result := some (),
        trace := [Event.shutdown_signalled true, Event.logger_log LogLevel.LOG_INFO] } := by
  simp [clientMainThread_loop, h]

theorem clientMainThread_loop_dial_running (is_tcp : Bool) (conn_timeout t : Int)
    (s : SessionAnswers) (more : List SessionAnswers) (h : s.shutdown_head = false)
    (hd : (attempt_connection is_tcp conn_timeout s.backoff_max s.dial).result = none) :
    clientMainThread_loop is_tcp conn_timeout t (s :: more) =
      { result := none,
        trace := Event.shutdown_signalled false ::
          (attempt_connection is_tcp conn_timeout s.backoff_max s.dial).trace } := by
  simp [clientMainThread_loop, h, hd]

theorem clientMainThread_loop_dial_shutdown (is_tcp : Bool) (conn_timeout t : Int)
    (s : SessionAnswers) (more : List SessionAnswers) (h : s.shutdown_head = false)
    (hd : (attempt_connection is_tcp conn_timeout s.backoff_max s.dial).result
      = some SOCKET.INVALID_SOCKET) :
    clientMainThread_loop is_tcp conn_timeout t (s :: more) =
      { result := some (),
        trace := Event.shutdown_signalled false ::
          (attempt_connection is_tcp conn_timeout s.backoff_max s.dial).trace ++
          [Event.logger_log LogLevel.LOG_INFO] } := by
  simp [clientMainThread_loop, h, hd]

theorem clientMainThread_loop_init_failed (is_tcp : Bool) (conn_timeout t : Int)
    (s : SessionAnswers) (more : List SessionAnswers) (fd : Nat) (h : s.shutdown_head = false)
    (hd : (attempt_connection is_tcp conn_timeout s.backoff_max s.dial).result
      = some (SOCKET.valid fd))
    (hi : s.group_init = false) :
    clientMainThread_loop is_tcp conn_timeout t (s :: more) =
      Run.after
        (Event.shutdown_signalled false ::
          (attempt_connection is_tcp conn_timeout s.backoff_max s.dial).trace ++
          [Event.comms_thread_group_init false, Event.logger_log LogLevel.LOG_ERROR,
           Event.close_socket (SOCKET.valid fd)])
        (clientMainThread_loop is_tcp conn_timeout t more) := by
  simp [clientMainThread_loop, h, hd, hi]

theorem clientMainThread_loop_create_failed (is_tcp : Bool) (conn_timeout t : Int)
    (s : SessionAnswers) (more : List SessionAnswers) (fd : Nat) (h : s.shutdown_head = false)
    (hd : (attempt_connection is_tcp conn_timeout s.backoff_max s.dial).result
      = some (SOCKET.valid fd))
    (hi : s.group_init = true) (hc : s.create_threads = false) :
    clientMainThread_loop is_tcp conn_timeout t (s :: more) =
      Run.after
        (Event.shutdown_signalled false ::
          (attempt_connection is_tcp conn_timeout s.backoff_max s.dial).trace ++
          [Event.comms_thread_group_init true, Event.comms_thread_group_create_threads false,
           Event.logger_log LogLevel.LOG_ERROR, Event.comms_thread_group_cleanup,
           Event.close_socket (SOCKET.valid fd)])
        (clientMainThread_loop is_tcp conn_timeout t more) := by
  simp [clientMainThread_loop, h, hd, hi, hc]

theorem clientMainThread_loop_monitor_running (is_tcp : Bool) (conn_timeout t : Int)
    (s : SessionAnswers) (more : List SessionAnswers) (fd : Nat) (s1 : MonitorState)
    (h : s.shutdown_head = false)
    (hd : (attempt_connection is_tcp conn_timeout s.backoff_max s.dial).result
      = some (SOCKET.valid fd))
    (hi : s.group_init = true) (hc : s.create_threads = true)
    (hm : (monitor_loop t freshSession s.monitor).outcome = MonitorStep.next s1) :
    clientMainThread_loop is_tcp conn_timeout t (s :: more) =
      { result := none, trace := sessionEvents is_tcp conn_timeout t s } := by
  simp [clientMainThread_loop, h, hd, hi, hc, hm, sessionEvents]

theorem clientMainThread_loop_session_shutdown (is_tcp : Bool) (conn_timeout t : Int)
    (s : SessionAnswers) (more : List SessionAnswers) (fd : Nat) (why : MonitorExit)
    (h : s.shutdown_head = false)
    (hd : (attempt_connection is_tcp conn_timeout s.backoff_max s.dial).result
      = some (SOCKET.valid fd))
    (hi : s.group_init = true) (hc : s.create_threads = true)
    (hm : (monitor_loop t freshSession s.monitor).outcome = MonitorStep.exit why)
    (ha : s.shutdown_after = true) :
    clientMainThread_loop is_tcp conn_timeout t (s :: more) =
      { result := some (),
        trace := sessionEvents is_tcp conn_timeout t s ++
          sessionTeardown (SOCKET.valid fd) ++
          [Event.shutdown_signalled true, Event.logger_log LogLevel.LOG_INFO,
           Event.logger_log LogLevel.LOG_INFO] } := by
  simp [clientMainThread_loop, h, hd, hi, hc, hm, ha, sessionEvents]

theorem clientMainThread_loop_session_reconnect (is_tcp : Bool) (conn_timeout t : Int)
    (s : SessionAnswers) (more : List SessionAnswers) (fd : Nat) (why : MonitorExit)
    (h : s.shutdown_head = false)
    (hd : (attempt_connection is_tcp conn_timeout s.backoff_max s.dial).result
      = some (SOCKET.valid fd))
    (hi : s.group_init = true) (hc : s.create_threads = true)
    (hm : (monitor_loop t freshSession s.monitor).outcome = MonitorStep.exit why)
    (ha : s.shutdown_after = false) :
    clientMainThread_loop is_tcp conn_timeout t (s :: more) =
      Run.after
        (sessionEvents is_tcp conn_timeout t s ++ reconnectEvents (SOCKET.valid fd))
        (clientMainThread_loop is_tcp conn_timeout t more) := by
  simp [clientMainThread_loop, h, hd, hi, hc, hm, ha, sessionEvents, reconnectEvents]

/-- Every iteration of the outer loop that starts without shutdown begins with the shutdown
poll and a dial attempt. -/
theorem clientMainThread_loop_starts_with_dial (is_tcp : Bool) (conn_timeout t : Int)
    (s : SessionAnswers) (more : List SessionAnswers) (h : s.shutdown_head = false) :
    ∃ tail, (clientMainThread_loop is_tcp conn_timeout t (s :: more)).trace
      = Event.shutdown_signalled false ::
          (attempt_connection is_tcp conn_timeout s.backoff_max s.dial).trace ++ tail := by
  cases hd : (attempt_connection is_tcp conn_timeout s.backoff_max s.dial).result with
  | none =>
    exact ⟨[], by rw [clientMainThread_loop_dial_running _ _ _ _ _ h hd, List.append_nil]⟩
  | some sock =>
    cases sock with
    | INVALID_SOCKET =>
      exact ⟨_, by rw [clientMainThread_loop_dial_shutdown _ _ _ _ _ h hd]⟩
    | valid fd =>
      cases hi : s.group_init with
      | false =>
        refine ⟨[Event.comms_thread_group_init false, Event.logger_log LogLevel.LOG_ERROR,
           Event.close_socket (SOCKET.valid fd)] ++
           (clientMainThread_loop is_tcp conn_timeout t more).trace, ?_⟩
        rw [clientMainThread_loop_init_failed _ _ _ _ _ fd h hd hi]
        simp only [Run.after, List.cons_append, List.append_assoc]
      | true =>
        cases hc : s.create_threads with
        | false =>
          refine ⟨[Event.comms_thread_group_init true,
             Event.comms_thread_group_create_threads false,
             Event.logger_log LogLevel.LOG_ERROR, Event.comms_thread_group_cleanup,
             Event.close_socket (SOCKET.valid fd)] ++
             (clientMainThread_loop is_tcp conn_timeout t more).trace, ?_⟩
          rw [clientMainThread_loop_create_failed _ _ _ _ _ fd h hd hi hc]
          simp only [Run.after, List.cons_append, List.append_assoc]
        | true =>
          cases hm : (monitor_loop t freshSession s.monitor).outcome with
          | next s1 =>
            refine ⟨[Event.comms_thread_group_init true,
               Event.comms_thread_group_create_threads true] ++
               (monitor_loop t freshSession s.monitor).trace, ?_⟩
            rw [clientMainThread_loop_monitor_running _ _ _ _ _ fd s1 h hd hi hc hm]
            simp only [sessionEvents, List.cons_append, List.append_assoc]
          | exit why =>
            cases ha : s.shutdown_after with
            | true =>
              refine ⟨[Event.comms_thread_group_init true,
                 Event.comms_thread_group_create_threads true] ++
                 (monitor_loop t freshSession s.monitor).trace ++
                 sessionTeardown (SOCKET.valid fd) ++
                 [Event.shutdown_signalled true, Event.logger_log LogLevel.LOG_INFO,
                  Event.logger_log LogLevel.LOG_INFO], ?_⟩
              rw [clientMainThread_loop_session_shutdown _ _ _ _ _ fd why h hd hi hc hm ha]
              simp only [sessionEvents, List.cons_append, List.append_assoc]
            | false =>
              refine ⟨[Event.comms_thread_group_init true,
                 Event.comms_thread_group_create_threads true] ++
                 (monitor_loop t freshSession s.monitor).trace ++
                 reconnectEvents (SOCKET.valid fd) ++
                 (clientMainThread_loop is_tcp conn_timeout t more).trace, ?_⟩
              rw [clientMainThread_loop_session_reconnect _ _ _ _ _ fd why h hd hi hc hm ha]
              simp only [sessionEvents, Run.after, List.cons_append, List.append_assoc]

/-- C8: for every positive retry limit `L`, if the monitoring loop of a session is still
running after some iterations and from then on every group wait times out with no activity
reported (no shutdown, group not closed, limit `L`), the loop does not run on: it leaves by the
forced-reconnection branch within at most `L + 1` of these iterations.  With no shutdown
signalled afterwards the supervisor then cleans up the group, closes the socket, sleeps the
fixed 1000 ms and goes on with the next iteration of its outer loop, which (no shutdown)
starts a new dial attempt. -/
theorem C8_forced_reconnect_terminates (L : Nat) (hL : 0 < L) (is_tcp : Bool)
    (conn_timeout t : Int) (s : SessionAnswers) (more : List SessionAnswers) (fd : Nat)
    (pre rest : List MonitorAnswers) (s1 : MonitorState)
    (hhead : s.shutdown_head = false)
    (hdial : (attempt_connection is_tcp conn_timeout s.backoff_max s.dial).result
      = some (SOCKET.valid fd))
    (hinit : s.group_init = true) (hcreate : s.create_threads = true)
    (hmon : s.monitor = pre ++ (List.replicate (L + 1) (unhealthy L) ++ rest))
    (hpre : (monitor_loop t freshSession pre).outcome = MonitorStep.next s1)
    (hafter : s.shutdown_after = false) :
    (monitor_loop t freshSession s.monitor).outcome = MonitorStep.exit MonitorExit.forced ∧
    (monitor_loop t freshSession s.monitor).iterations ≤ pre.length + (L + 1) ∧
    clientMainThread_loop is_tcp conn_timeout t (s :: more) =
      Run.after
        (sessionEvents is_tcp conn_timeout t s ++ reconnectEvents (SOCKET.valid fd))
        (clientMainThread_loop is_tcp conn_timeout t more) ∧
    reconnectEvents (SOCKET.valid fd) =
      [Event.comms_thread_group_cleanup, Event.logger_log LogLevel.LOG_INFO,
       Event.close_socket (SOCKET.valid fd), Event.shutdown_signalled false,
       Event.logger_log LogLevel.LOG_INFO, Event.sleep_ms 1000] ∧
    (∀ s2 more2, more = s2 :: more2 → s2.shutdown_head = false →
      ∃ tail, (clientMainThread_loop is_tcp conn_timeout t more).trace
        = Event.shutdown_signalled false ::
            (attempt_connection is_tcp conn_timeout s2.backoff_max s2.dial).trace ++ tail) := by
  have h1 : 0 ≤ s1.health_check_retries :=
    monitor_loop_counter_nonneg t pre freshSession s1 (by simp [freshSession]) hpre
  have hforced := monitor_loop_forced_within t L hL rest s1 h1
  have happ := monitor_loop_append_next t pre (List.replicate (L + 1) (unhealthy L) ++ rest)
    freshSession s1 hpre
  have hout : (monitor_loop t freshSession s.monitor).outcome
      = MonitorStep.exit MonitorExit.forced := by
    rw [hmon, happ]
    exact hforced.1
  refine ⟨hout, ?_, ?_, ?_, ?_⟩
  · rw [hmon, happ]
    simp only [monitor_loop_running_iterations t pre freshSession s1 hpre]
    have := hforced.2
    omega
  · exact clientMainThread_loop_session_reconnect is_tcp conn_timeout t s more fd
      MonitorExit.forced hhead hdial hinit hcreate hout hafter
  · simp [reconnectEvents, sessionTeardown]
  · intro s2 more2 hm h2
    subst hm
    exact clientMainThread_loop_starts_with_dial is_tcp conn_timeout t s2 more2 h2

/-- C8 (witness): retry limit 2, one healthy iteration followed by three unhealthy ones. -/
theorem C8_forced_reconnect_terminates_witness :
    (monitor_loop 5000 freshSession forcedReconnectSession.monitor).outcome
      = MonitorStep.exit MonitorExit.forced ∧
    (monitor_loop 5000 freshSession forcedReconnectSession.monitor).iterations
      ≤ [timedOut 2 true].length + (2 + 1) ∧
    clientMainThread_loop true 5 5000 [forcedReconnectSession] =
      Run.after
        (sessionEvents true 5 5000 forcedReconnectSession ++ reconnectEvents (SOCKET.valid 3))
        (clientMainThread_loop true 5 5000 []) :=
  have h := C8_forced_reconnect_terminates 2 (by decide) true 5 5000 forcedReconnectSession []
    3 [timedOut 2 true] [] freshSession rfl (by decide) rfl rfl rfl (by decide) rfl
  ⟨h.1, h.2.1, h.2.2.1⟩

/-! ### Shutdown polls in the traces -/

theorem afterFirstShutdown_append_of_not_mem (pre post : List Event)
    (h : Event.shutdown_signalled true ∉ pre) :
    afterFirstShutdown (pre ++ post) = afterFirstShutdown post := by
  induction pre with
  | nil => rfl
  | cons e pre ih =>
    simp only [List.mem_cons, not_or] at h
    have hne : e ≠ Event.shutdown_signalled true := fun he => h.1 he.symm
    simp [afterFirstShutdown, hne, ih h.2]

theorem afterFirstShutdown_at (pre post : List Event)
    (h : Event.shutdown_signalled true ∉ pre) :
    afterFirstShutdown (pre ++ Event.shutdown_signalled true :: post) = post := by
  rw [afterFirstShutdown_append_of_not_mem pre _ h]
  simp [afterFirstShutdown]

/-! ### Dial loop: one lemma per path -/

theorem attempt_connection_loop_nil (is_tcp : Bool) (conn_timeout backoff_max backoff : Int) :
    attempt_connection_loop is_tcp conn_timeout backoff_max backoff []
      = { result := none, trace := [] } := by
  simp [attempt_connection_loop]

theorem attempt_connection_loop_at_shutdown (is_tcp : Bool)
    (conn_timeout backoff_max backoff : Int) (a : DialAnswers) (rest : List DialAnswers)
    (hs : a.shutdown = true) :
    attempt_connection_loop is_tcp conn_timeout backoff_max backoff (a :: rest)
      = { result := some SOCKET.INVALID_SOCKET,
          trace := [Event.shutdown_signalled true, Event.logger_log LogLevel.LOG_INFO] } := by
  simp [attempt_connection_loop, hs]

theorem attempt_connection_loop_setup_failed (is_tcp : Bool)
    (conn_timeout backoff_max backoff : Int) (a : DialAnswers) (rest : List DialAnswers)
    (hs : a.shutdown = false) (hi : a.sock = SOCKET.INVALID_SOCKET) :
    attempt_connection_loop is_tcp conn_timeout backoff_max backoff (a :: rest)
      = Run.after
          [Event.shutdown_signalled false, Event.logger_log LogLevel.LOG_DEBUG,
           Event.setup_socket a.sock, Event.get_socket_error_message,
           Event.logger_log LogLevel.LOG_ERROR, Event.sleep_seconds backoff]
          (attempt_connection_loop is_tcp conn_timeout backoff_max
            (nextBackoff backoff backoff_max) rest) := by
  simp [attempt_connection_loop, hs, hi, nextBackoff]

theorem attempt_connection_loop_connect_failed (conn_timeout backoff_max backoff : Int)
    (a : DialAnswers) (rest : List DialAnswers)
    (hs : a.shutdown = false) (hi : a.sock ≠ SOCKET.INVALID_SOCKET)
    (hc : a.connected = false) :
    attempt_connection_loop true conn_timeout backoff_max backoff (a :: rest)
      = Run.after
          [Event.shutdown_signalled false, Event.logger_log LogLevel.LOG_DEBUG,
           Event.setup_socket a.sock,
           Event.connect_with_timeout a.sock conn_timeout false,
           Event.get_socket_error_message, Event.logger_log LogLevel.LOG_ERROR,
           Event.close_socket a.sock, Event.sleep_seconds backoff]
          (attempt_connection_loop true conn_timeout backoff_max
            (nextBackoff backoff backoff_max) rest) := by
  simp [attempt_connection_loop, hs, hi, hc, nextBackoff]

theorem attempt_connection_loop_connected (conn_timeout backoff_max backoff : Int)
    (a : DialAnswers) (rest : List DialAnswers)
    (hs : a.shutdown = false) (hi : a.sock ≠ SOCKET.INVALID_SOCKET)
    (hc : a.connected = true) :
    attempt_connection_loop true conn_timeout backoff_max backoff (a :: rest)
      = { result := some a.sock,
          trace := [Event.shutdown_signalled false, Event.logger_log LogLevel.LOG_DEBUG,
                    Event.setup_socket a.sock,
                    Event.connect_with_timeout a.sock conn_timeout true,
                    Event.logger_log LogLevel.LOG_INFO] } := by
  simp [attempt_connection_loop, hs, hi, hc]

theorem attempt_connection_loop_datagram (conn_timeout backoff_max backoff : Int)
    (a : DialAnswers) (rest : List DialAnswers)
    (hs : a.shutdown = false) (hi : a.sock ≠ SOCKET.INVALID_SOCKET) :
    attempt_connection_loop false conn_timeout backoff_max backoff (a :: rest)
      = { result := some a.sock,
          trace := [Event.shutdown_signalled false, Event.logger_log LogLevel.LOG_DEBUG,
                    Event.setup_socket a.sock, Event.logger_log LogLevel.LOG_INFO] } := by
  simp [attempt_connection_loop, hs, hi]

/-- A failed dial attempt followed by the rest of the loop keeps the shape of the rest's
trace with respect to shutdown polls and session set-up. -/
theorem shutdown_shape_after (α : Type) (pre0 : List Event) (r : Run α) (bad : α)
    (hpre0 : Event.shutdown_signalled true ∉ pre0)
    (hquiet : ∀ e ∈ pre0, createsSession e = false)
    (h : ((r.result = some bad ∧
            ∃ pre, r.trace
                = pre ++ [Event.shutdown_signalled true, Event.logger_log LogLevel.LOG_INFO] ∧
              Event.shutdown_signalled true ∉ pre) ∨
          (r.result ≠ some bad ∧ Event.shutdown_signalled true ∉ r.trace)) ∧
         (∀ e ∈ r.trace, createsSession e = false)) :
    (((Run.after pre0 r).result = some bad ∧
        ∃ pre, (Run.after pre0 r).trace
            = pre ++ [Event.shutdown_signalled true, Event.logger_log LogLevel.LOG_INFO] ∧
          Event.shutdown_signalled true ∉ pre) ∨
      ((Run.after pre0 r).result ≠ some bad ∧
        Event.shutdown_signalled true ∉ (Run.after pre0 r).trace)) ∧
    (∀ e ∈ (Run.after pre0 r).trace, createsSession e = false) := by
  obtain ⟨hshape, hq⟩ := h
  refine ⟨?_, ?_⟩
  · rcases hshape with ⟨hr, pre, htr, hpre⟩ | ⟨hr, hno⟩
    · refine Or.inl ⟨hr, pre0 ++ pre, ?_, ?_⟩
      · simp only [Run.after, htr, List.append_assoc]
      · simp [hpre0, hpre]
    · exact Or.inr ⟨hr, by simp [Run.after, hpre0, hno]⟩
  · intro e he
    simp only [Run.after, List.mem_append] at he
    rcases he with he | he
    · exact hquiet e he
    · exact hq e he

/-- The dial loop polls a signalled shutdown exactly when it returns `INVALID_SOCKET`, and
that poll is followed by one log call only; its trace sets up no session. -/
theorem attempt_connection_loop_shutdown (is_tcp : Bool) (conn_timeout backoff_max : Int)
    (answers : List DialAnswers) :
    ∀ backoff : Int,
      (((attempt_connection_loop is_tcp conn_timeout backoff_max backoff answers).result
            = some SOCKET.INVALID_SOCKET ∧
          ∃ pre, (attempt_connection_loop is_tcp conn_timeout backoff_max backoff answers).trace
              = pre ++ [Event.shutdown_signalled true, Event.logger_log LogLevel.LOG_INFO] ∧
            Event.shutdown_signalled true ∉ pre) ∨
       ((attempt_connection_loop is_tcp conn_timeout backoff_max backoff answers).result
            ≠ some SOCKET.INVALID_SOCKET ∧
          Event.shutdown_signalled true ∉
            (attempt_connection_loop is_tcp conn_timeout backoff_max backoff answers).trace)) ∧
      (∀ e ∈ (attempt_connection_loop is_tcp conn_timeout backoff_max backoff answers).trace,
        createsSession e = false) := by
  induction answers with
  | nil =>
    intro backoff
    simp [attempt_connection_loop_nil]
  | cons a rest ih =>
    intro backoff
    cases hs : a.shutdown with
    | true =>
      rw [attempt_connection_loop_at_shutdown _ _ _ _ _ _ hs]
      refine ⟨Or.inl ⟨rfl, [], rfl, by simp⟩, ?_⟩
      intro e he
      simp at he
      rcases he with rfl | rfl <;> rfl
    | false =>
      by_cases hi : a.sock = SOCKET.INVALID_SOCKET
      · rw [attempt_connection_loop_setup_failed _ _ _ _ _ _ hs hi]
        refine shutdown_shape_after _ _ _ _ (by simp) ?_ (ih _)
        intro e he
        simp at he
        rcases he with rfl | rfl | rfl | rfl | rfl | rfl <;> rfl
      · cases is_tcp with
        | true =>
          cases hc : a.connected with
          | true =>
            rw [attempt_connection_loop_connected _ _ _ _ _ hs hi hc]
            refine ⟨Or.inr ⟨by simpa using hi, by simp⟩, ?_⟩
            intro e he
            simp at he
            rcases he with rfl | rfl | rfl | rfl | rfl <;> rfl
          | false =>
            rw [attempt_connection_loop_connect_failed _ _ _ _ _ hs hi hc]
            refine shutdown_shape_after _ _ _ _ (by simp) ?_ (ih _)
            intro e he
            simp at he
            rcases he with rfl | rfl | rfl | rfl | rfl | rfl | rfl | rfl <;> rfl
        | false =>
          rw [attempt_connection_loop_datagram _ _ _ _ _ hs hi]
          refine ⟨Or.inr ⟨by simpa using hi, by simp⟩, ?_⟩
          intro e he
          simp at he
          rcases he with rfl | rfl | rfl | rfl <;> rfl

/-- An iteration of the monitoring loop polls a signalled shutdown exactly when it leaves by
the shutdown exit; the poll is then its only call. -/
theorem monitor_iteration_shutdown (t : Int) (s : MonitorState) (a : MonitorAnswers) :
    ((monitor_iteration t s a).step = MonitorStep.exit MonitorExit.shutdown ∧
        (monitor_iteration t s a).events = [Event.shutdown_signalled true]) ∨
    ((monitor_iteration t s a).step ≠ MonitorStep.exit MonitorExit.shutdown ∧
        Event.shutdown_signalled true ∉ (monitor_iteration t s a).events) := by
  unfold monitor_iteration
  by_cases hs : a.shutdown = true
  · simp [hs]
  · by_cases hc : a.is_closed = true
    · simp [hs, hc]
    · by_cases hw : a.threads_completed = true
      · simp [hs, hc, hw]
      · by_cases hm : s.monitoring_connection_health = true <;>
          by_cases ha : a.has_activity = true <;>
          by_cases hl : (0 < a.retry_limit ∧ a.retry_limit ≤ s.health_check_retries + 1) <;>
          simp [hs, hc, hw, hm, ha, hl, monitorPrefix]

/-- The monitoring loop polls a signalled shutdown exactly when it leaves by the shutdown exit,
and that poll is its last call. -/
theorem monitor_loop_shutdown (t : Int) (answers : List MonitorAnswers) :
    ∀ s : MonitorState,
      ((monitor_loop t s answers).outcome = MonitorStep.exit MonitorExit.shutdown ∧
        ∃ pre, (monitor_loop t s answers).trace = pre ++ [Event.shutdown_signalled true] ∧
          Event.shutdown_signalled true ∉ pre) ∨
      ((monitor_loop t s answers).outcome ≠ MonitorStep.exit MonitorExit.shutdown ∧
        Event.shutdown_signalled true ∉ (monitor_loop t s answers).trace) := by
  induction answers with
  | nil =>
    intro s
    simp [monitor_loop_nil]
  | cons a rest ih =>
    intro s
    cases hstep : (monitor_iteration t s a).step with
    | exit why =>
      rw [monitor_loop_cons_exit t s a rest why hstep]
      rcases monitor_iteration_shutdown t s a with ⟨h1, h2⟩ | ⟨h1, h2⟩
      · rw [hstep] at h1
        exact Or.inl ⟨h1, [], by simpa using h2, by simp⟩
      · rw [hstep] at h1
        exact Or.inr ⟨h1, h2⟩
    | next s1 =>
      rw [monitor_loop_cons_next t s s1 a rest hstep]
      have hno : Event.shutdown_signalled true ∉ (monitor_iteration t s a).events := by
        rcases monitor_iteration_shutdown t s a with ⟨h1, _⟩ | ⟨_, h2⟩
        · rw [hstep] at h1
          simp at h1
        · exact h2
      rcases ih s1 with ⟨h1, pre, htr, hpre⟩ | ⟨h1, h2⟩
      · refine Or.inl ⟨h1, (monitor_iteration t s a).events ++ pre, ?_, ?_⟩
        · simp only [htr, List.append_assoc]
        · simp [hno, hpre]
      · exact Or.inr ⟨h1, by simp [hno, h2]⟩

theorem attempt_connection_shutdown (is_tcp : Bool) (conn_timeout backoff_max : Int)
    (answers : List DialAnswers) :
    (((attempt_connection is_tcp conn_timeout backoff_max answers).result
          = some SOCKET.INVALID_SOCKET ∧
        ∃ pre, (attempt_connection is_tcp conn_timeout backoff_max answers).trace
            = pre ++ [Event.shutdown_signalled true, Event.logger_log LogLevel.LOG_INFO] ∧
          Event.shutdown_signalled true ∉ pre) ∨
     ((attempt_connection is_tcp conn_timeout backoff_max answers).result
          ≠ some SOCKET.INVALID_SOCKET ∧
        Event.shutdown_signalled true ∉
          (attempt_connection is_tcp conn_timeout backoff_max answers).trace)) ∧
    (∀ e ∈ (attempt_connection is_tcp conn_timeout backoff_max answers).trace,
      createsSession e = false) :=
  attempt_connection_loop_shutdown is_tcp conn_timeout backoff_max answers 1

theorem shutdownTerminal_after (pre : List Event) (r : Run Unit)
    (hpre : Event.shutdown_signalled true ∉ pre) (h : ShutdownTerminal r) :
    ShutdownTerminal (Run.after pre r) := by
  intro hmem hmono
  simp only [Run.after] at hmem hmono ⊢
  rw [afterFirstShutdown_append_of_not_mem pre _ hpre] at hmono ⊢
  rw [List.mem_append] at hmem
  rcases hmem with hmem | hmem
  · exact absurd hmem hpre
  · exact h hmem hmono

theorem sessionTeardown_quiet (sock : SOCKET) :
    Event.shutdown_signalled true ∉ sessionTeardown sock ∧
    (∀ e ∈ sessionTeardown sock, startsWork e = false) := by
  unfold sessionTeardown
  by_cases h : sock = SOCKET.INVALID_SOCKET
  · simp [h, startsWork]
  · simp [h, startsWork]

/-- With respect to shutdown polls, the events of a session up to the end of monitoring have
the shape of the monitoring trace, provided the dial saw no shutdown. -/
theorem sessionEvents_shutdown (is_tcp : Bool) (conn_timeout t : Int) (s : SessionAnswers)
    (hdial : Event.shutdown_signalled true ∉
      (attempt_connection is_tcp conn_timeout s.backoff_max s.dial).trace) :
    ((monitor_loop t freshSession s.monitor).outcome = MonitorStep.exit MonitorExit.shutdown ∧
      ∃ pre, sessionEvents is_tcp conn_timeout t s = pre ++ [Event.shutdown_signalled true] ∧
        Event.shutdown_signalled true ∉ pre) ∨
    ((monitor_loop t freshSession s.monitor).outcome ≠ MonitorStep.exit MonitorExit.shutdown ∧
      Event.shutdown_signalled true ∉ sessionEvents is_tcp conn_timeout t s) := by
  rcases monitor_loop_shutdown t s.monitor freshSession with ⟨h1, pre, htr, hpre⟩ | ⟨h1, h2⟩
  · refine Or.inl ⟨h1, Event.shutdown_signalled false ::
        (attempt_connection is_tcp conn_timeout s.backoff_max s.dial).trace ++
        [Event.comms_thread_group_init true, Event.comms_thread_group_create_threads true] ++
        pre, ?_, ?_⟩
    · simp only [sessionEvents, htr, List.append_assoc, List.cons_append]
    · simp [hdial, hpre]
  · exact Or.inr ⟨h1, by simp [sessionEvents, hdial, h2]⟩

/-- Shutdown is terminal in the outer loop of the supervisor. -/
theorem clientMainThread_loop_shutdownTerminal (is_tcp : Bool) (conn_timeout t : Int)
    (answers : List SessionAnswers) :
    ShutdownTerminal (clientMainThread_loop is_tcp conn_timeout t answers) := by
  induction answers with
  | nil =>
    intro hmem
    simp [clientMainThread_loop] at hmem
  | cons s more ih =>
    cases hh : s.shutdown_head with
    | true =>
      rw [clientMainThread_loop_shutdown_head _ _ _ _ _ hh]
      intro _ _
      simp [afterFirstShutdown, startsWork]
    | false =>
      have hD := attempt_connection_shutdown is_tcp conn_timeout s.backoff_max s.dial
      cases hd : (attempt_connection is_tcp conn_timeout s.backoff_max s.dial).result with
      | none =>
        rw [clientMainThread_loop_dial_running _ _ _ _ _ hh hd]
        intro hmem
        rcases hD.1 with ⟨hr, _⟩ | ⟨_, hno⟩
        · rw [hd] at hr
          simp at hr
        · simp [hno] at hmem
      | some sock =>
        cases sock with
        | INVALID_SOCKET =>
          rw [clientMainThread_loop_dial_shutdown _ _ _ _ _ hh hd]
          intro _ _
          rcases hD.1 with ⟨_, pre, htr, hpre⟩ | ⟨hr, _⟩
          · have hsplit : Event.shutdown_signalled false ::
                (attempt_connection is_tcp conn_timeout s.backoff_max s.dial).trace ++
                [Event.logger_log LogLevel.LOG_INFO]
                = (Event.shutdown_signalled false :: pre) ++
                  Event.shutdown_signalled true ::
                    [Event.logger_log LogLevel.LOG_INFO, Event.logger_log LogLevel.LOG_INFO] := by
              simp [htr]
            simp only [hsplit]
            rw [afterFirstShutdown_at _ _ (by simp [hpre])]
            simp [startsWork]
          · exact absurd hd hr
        | valid fd =>
          have hno : Event.shutdown_signalled true ∉
              (attempt_connection is_tcp conn_timeout s.backoff_max s.dial).trace := by
            rcases hD.1 with ⟨hr, _⟩ | ⟨_, hno⟩
            · rw [hd] at hr
              simp at hr
            · exact hno
          cases hi : s.group_init with
          | false =>
            rw [clientMainThread_loop_init_failed _ _ _ _ _ fd hh hd hi]
            exact shutdownTerminal_after _ _ (by simp [hno]) ih
          | true =>
            cases hc : s.create_threads with
            | false =>
              rw [clientMainThread_loop_create_failed _ _ _ _ _ fd hh hd hi hc]
              exact shutdownTerminal_after _ _ (by simp [hno]) ih
            | true =>
              have hS := sessionEvents_shutdown is_tcp conn_timeout t s hno
              have hT := sessionTeardown_quiet (SOCKET.valid fd)
              cases hm : (monitor_loop t freshSession s.monitor).outcome with
              | next s1 =>
                rw [clientMainThread_loop_monitor_running _ _ _ _ _ fd s1 hh hd hi hc hm]
                intro hmem
                rcases hS with ⟨h1, _⟩ | ⟨_, h2⟩
                · rw [hm] at h1
                  simp at h1
                · exact absurd hmem h2
              | exit why =>
                cases ha : s.shutdown_after with
                | true =>
                  rw [clientMainThread_loop_session_shutdown _ _ _ _ _ fd why hh hd hi hc hm ha]
                  intro _ _
                  rcases hS with ⟨_, pre, htr, hpre⟩ | ⟨_, h2⟩
                  · have hsplit : sessionEvents is_tcp conn_timeout t s ++
                        sessionTeardown (SOCKET.valid fd) ++
                        [Event.shutdown_signalled true, Event.logger_log LogLevel.LOG_INFO,
                         Event.logger_log LogLevel.LOG_INFO]
                        = pre ++ Event.shutdown_signalled true ::
                          (sessionTeardown (SOCKET.valid fd) ++
                            [Event.shutdown_signalled true, Event.logger_log LogLevel.LOG_INFO,
                             Event.logger_log LogLevel.LOG_INFO]) := by
                      simp [htr]
                    simp only [hsplit]
                    rw [afterFirstShutdown_at _ _ hpre]
                    refine ⟨?_, trivial⟩
                    intro e he
                    rw [List.mem_append] at he
                    rcases he with he | he
                    · exact hT.2 e he
                    · simp at he
                      rcases he with rfl | rfl | rfl <;> rfl
                  · have hsplit : sessionEvents is_tcp conn_timeout t s ++
                        sessionTeardown (SOCKET.valid fd) ++
                        [Event.shutdown_signalled true, Event.logger_log LogLevel.LOG_INFO,
                         Event.logger_log LogLevel.LOG_INFO]
                        = (sessionEvents is_tcp conn_timeout t s ++
                            sessionTeardown (SOCKET.valid fd)) ++
                          Event.shutdown_signalled true ::
                            [Event.logger_log LogLevel.LOG_INFO,
                             Event.logger_log LogLevel.LOG_INFO] := by
                      simp
                    simp only [hsplit]
                    rw [afterFirstShutdown_at _ _ (by simp [h2, hT.1])]
                    simp [startsWork]
                | false =>
                  rw [clientMainThread_loop_session_reconnect _ _ _ _ _ fd why hh hd hi hc hm ha]
                  rcases hS with ⟨_, pre, htr, hpre⟩ | ⟨_, h2⟩
                  · intro _ hmono
                    exfalso
                    apply hmono
                    have hsplit : (Run.after
                        (sessionEvents is_tcp conn_timeout t s ++
                          reconnectEvents (SOCKET.valid fd))
                        (clientMainThread_loop is_tcp conn_timeout t more)).trace
                        = pre ++ Event.shutdown_signalled true ::
                          (reconnectEvents (SOCKET.valid fd) ++
                            (clientMainThread_loop is_tcp conn_timeout t more).trace) := by
                      simp [Run.after, htr]
                    rw [hsplit, afterFirstShutdown_at _ _ hpre]
                    simp [reconnectEvents]
                  · refine shutdownTerminal_after _ _ ?_ ih
                    simp [h2, reconnectEvents, hT.1]

/-- Failed dial attempts followed by an iteration that finds shutdown signalled: the dial loop
returns `INVALID_SOCKET`. -/
theorem attempt_connection_loop_shutdown_after_failures (is_tcp : Bool)
    (conn_timeout backoff_max : Int) (a : DialAnswers) (rest : List DialAnswers)
    (ha : a.shutdown = true) (fails : List DialAnswers) :
    ∀ backoff : Int, (∀ x ∈ fails, dialFails is_tcp x = true) →
      (attempt_connection_loop is_tcp conn_timeout backoff_max backoff
        (fails ++ a :: rest)).result = some SOCKET.INVALID_SOCKET := by
  induction fails with
  | nil =>
    intro backoff _
    rw [List.nil_append, attempt_connection_loop_at_shutdown _ _ _ _ _ _ ha]
  | cons x fails ih =>
    intro backoff h
    have hx := h x (List.mem_cons_self x fails)
    have hrest : ∀ y ∈ fails, dialFails is_tcp y = true :=
      fun y hy => h y (List.mem_cons_of_mem x hy)
    simp only [dialFails, Bool.and_eq_true, Bool.not_eq_true', Bool.or_eq_true,
      beq_iff_eq] at hx
    obtain ⟨hs, hfail⟩ := hx
    rw [List.cons_append]
    by_cases hi : x.sock = SOCKET.INVALID_SOCKET
    · rw [attempt_connection_loop_setup_failed _ _ _ _ _ _ hs hi]
      exact ih _ hrest
    · rcases hfail with hfail | ⟨ht, hc⟩
      · exact absurd hfail hi
      · subst ht
        rw [attempt_connection_loop_connect_failed _ _ _ _ _ hs hi hc]
        exact ih _ hrest

/-- C7: in every run of `clientMainThread` in which some poll of `shutdown_signalled()`
returned true and no later poll returned false (the signal is monotone), nothing that follows
the first such poll is a socket setup, a connect attempt, a sleep, a comms-group
initialisation or a comms-thread creation, and the thread function returns.  In particular,
when shutdown is signalled before any dial succeeds (at the head of the outer loop, or at the
head of the dial loop after failed attempts only), `attempt_connection` returns
`INVALID_SOCKET` and `clientMainThread` returns without any comms-group initialisation or
comms-thread creation. -/
theorem C7_shutdown_is_terminal (is_tcp : Bool) (conn_timeout t : Int)
    (answers : List SessionAnswers)
    (hpoll : Event.shutdown_signalled true ∈
      (clientMainThread is_tcp conn_timeout t answers).trace)
    (hmono : Event.shutdown_signalled false ∉
      afterFirstShutdown (clientMainThread is_tcp conn_timeout t answers).trace) :
    (∀ e ∈ afterFirstShutdown (clientMainThread is_tcp conn_timeout t answers).trace,
      startsWork e = false) ∧
    (clientMainThread is_tcp conn_timeout t answers).result = some () ∧
    (∀ (backoff_max : Int) (fails : List DialAnswers) (a : DialAnswers)
        (rest : List DialAnswers),
      (∀ x ∈ fails, dialFails is_tcp x = true) → a.shutdown = true →
      (attempt_connection is_tcp conn_timeout backoff_max (fails ++ a :: rest)).result
        = some SOCKET.INVALID_SOCKET) ∧
    (∀ (s : SessionAnswers) (more : List SessionAnswers),
      answers = s :: more →
      (s.shutdown_head = true ∨
        (attempt_connection is_tcp conn_timeout s.backoff_max s.dial).result
          = some SOCKET.INVALID_SOCKET) →
      ∀ e ∈ (clientMainThread is_tcp conn_timeout t answers).trace,
        createsSession e = false) := by
  have hterm : ShutdownTerminal (clientMainThread is_tcp conn_timeout t answers) :=
    shutdownTerminal_after _ _ (by simp)
      (clientMainThread_loop_shutdownTerminal is_tcp conn_timeout t answers)
  obtain ⟨h1, h2⟩ := hterm hpoll hmono
  refine ⟨h1, h2, ?_, ?_⟩
  · intro backoff_max fails a rest hfails ha
    exact attempt_connection_loop_shutdown_after_failures is_tcp conn_timeout backoff_max a
      rest ha fails 1 hfails
  · intro s more hans hcase e he
    subst hans
    simp only [clientMainThread, Run.after, List.mem_append] at he
    rcases he with he | he
    · simp at he
      subst he
      rfl
    · cases hh : s.shutdown_head with
      | true =>
        rw [clientMainThread_loop_shutdown_head _ _ _ _ _ hh] at he
        simp at he
        rcases he with rfl | rfl <;> rfl
      | false =>
        have hd : (attempt_connection is_tcp conn_timeout s.backoff_max s.dial).result
            = some SOCKET.INVALID_SOCKET := by
          rcases hcase with hc | hc
          · rw [hh] at hc
            simp at hc
          · exact hc
        rw [clientMainThread_loop_dial_shutdown _ _ _ _ _ hh hd] at he
        simp only [List.mem_cons, List.mem_append, List.mem_singleton] at he
        rcases he with (rfl | he) | he
        · rfl
        · exact (attempt_connection_shutdown is_tcp conn_timeout s.backoff_max s.dial).2 e he
        · simp at he
          subst he
          rfl

/-- C7 (witness): a session over TCP that is monitored for one healthy iteration and then
finds shutdown signalled; every later poll returns true. -/
theorem C7_shutdown_is_terminal_witness :
    (∀ e ∈ afterFirstShutdown (clientMainThread true 5 5000 [shutdownWhileMonitoring]).trace,
      startsWork e = false) ∧
    (clientMainThread true 5 5000 [shutdownWhileMonitoring]).result = some () ∧
    (attempt_connection true 5 32 dialsThenShutdown).result = some SOCKET.INVALID_SOCKET :=
  have h := C7_shutdown_is_terminal true 5 5000 [shutdownWhileMonitoring] (by decide)
    (by decide)
  ⟨h.1, h.2.1,
    h.2.2.1 32 (dialsThenShutdown.take 2) (dialsThenShutdown.get ⟨2, by decide⟩) []
      (by decide) (by decide)⟩

/-! ### Lifecycle envelope -/

/-- Calls and final world of the main-function part of the envelope. -/
theorem app_thread_x_main_calls {σ : Type} (t : AppThread_T σ) (w : σ) :
    countCalls CallKind.func (app_thread_x_main t w).calls = 1 ∧
    countCalls CallKind.init_func (app_thread_x_main t w).calls = 0 ∧
    countCalls CallKind.exit_func (app_thread_x_main t w).calls ≤ 1 ∧
    (∀ wm, (Call.mk CallKind.func wm) ∈ (app_thread_x_main t w).calls → wm = w) ∧
    (∀ r w1, t.func t.label w = some (r, w1) →
      (t.exit_func = none →
        (app_thread_x_main t w).calls = [Call.mk CallKind.func w] ∧
        (app_thread_x_main t w).final = some w1) ∧
      (∀ exit_func, t.exit_func = some exit_func →
        (app_thread_x_main t w).calls
          = [Call.mk CallKind.func w, Call.mk CallKind.exit_func w1] ∧
        (app_thread_x_main t w).final = (exit_func t.label w1).map Prod.snd)) ∧
    (t.func t.label w = none →
      (app_thread_x_main t w).calls = [Call.mk CallKind.func w] ∧
      (app_thread_x_main t w).final = none) := by
  unfold app_thread_x_main
  cases hf : t.func t.label w with
  | none => simp [countCalls]
  | some p =>
    obtain ⟨r, w1⟩ := p
    cases he : t.exit_func with
    | none => simp [countCalls]
    | some exit_func =>
      cases hx : exit_func t.label w1 with
      | none => simp [countCalls, hx]
      | some q =>
        obtain ⟨r2, w2⟩ := q
        simp [countCalls, hx]

theorem app_thread_x_no_init {σ : Type} (t : AppThread_T σ) (w : σ)
    (hi : t.init_func = none) : app_thread_x t w = app_thread_x_main t w := by
  simp [app_thread_x, hi]

theorem app_thread_x_init_hangs {σ : Type} (t : AppThread_T σ) (w : σ) (init_func : Hook σ)
    (hi : t.init_func = some init_func) (hr : init_func t.label w = none) :
    app_thread_x t w = { calls := [Call.mk CallKind.init_func w], final := none } := by
  simp [app_thread_x, hi, hr]

theorem app_thread_x_init_failed {σ : Type} (t : AppThread_T σ) (w w1 : σ) (r : Int)
    (init_func : Hook σ) (hi : t.init_func = some init_func)
    (hr : init_func t.label w = some (r, w1)) (h0 : toWaitResult r ≠ APP_WAIT_SUCCESS) :
    app_thread_x t w =
      { calls := [Call.mk CallKind.init_func w, Call.mk CallKind.printf w1],
        final := some w1 } := by
  simp [app_thread_x, hi, hr, h0]

theorem app_thread_x_init_ok {σ : Type} (t : AppThread_T σ) (w w1 : σ) (r : Int)
    (init_func : Hook σ) (hi : t.init_func = some init_func)
    (hr : init_func t.label w = some (r, w1)) (h0 : toWaitResult r = APP_WAIT_SUCCESS) :
    app_thread_x t w =
      { calls := Call.mk CallKind.init_func w :: (app_thread_x_main t w1).calls,
        final := (app_thread_x_main t w1).final } := by
  simp [app_thread_x, hi, hr, h0]

theorem toWaitResult_success : toWaitResult APP_WAIT_SUCCESS = APP_WAIT_SUCCESS := by decide

theorem toWaitResult_timeout : toWaitResult APP_WAIT_TIMEOUT = APP_WAIT_TIMEOUT := by decide

theorem toWaitResult_error : toWaitResult APP_WAIT_ERROR = APP_WAIT_ERROR := by decide

theorem toWaitResult_of_range (r : Int) (h0 : -2147483648 ≤ r) (h1 : r < 2147483648) :
    toWaitResult r = r := by
  unfold toWaitResult wrapInt32
  omega

theorem countCalls_init_cons {σ : Type} (k : CallKind) (w : σ) (calls : List (Call σ))
    (hk : k ≠ CallKind.init_func) :
    countCalls k (Call.mk CallKind.init_func w :: calls) = countCalls k calls := by
  cases k <;> simp [countCalls, List.countP_cons] at hk ⊢

/-- C4 (counterexample to the claim as worded): the init hook of `highBitsInitWorker` returns
the pointer value `0x100000000`, which is not the success sentinel 0, and yet `app_thread_x`
calls the main function once and the exit hook once, because the conversion to `WaitResult`
keeps only the low 32 bits of the value. -/
theorem C4_truncated_init_result_runs_main :
    (∃ init_func, highBitsInitWorker.init_func = some init_func ∧
      init_func highBitsInitWorker.label () = some (4294967296, ())) ∧
    (4294967296 : Int) ≠ APP_WAIT_SUCCESS ∧
    toWaitResult 4294967296 = APP_WAIT_SUCCESS ∧
    countCalls CallKind.func (app_thread_x highBitsInitWorker ()).calls = 1 ∧
    countCalls CallKind.exit_func (app_thread_x highBitsInitWorker ()).calls = 1 ∧
    (app_thread_x highBitsInitWorker ()).final = some () := by
  refine ⟨⟨_, rfl, rfl⟩, by decide, by decide, ?_, ?_, ?_⟩
  · rw [app_thread_x_init_ok highBitsInitWorker () () 4294967296 _ rfl rfl (by decide)]
    rfl
  · rw [app_thread_x_init_ok highBitsInitWorker () () 4294967296 _ rfl rfl (by decide)]
    rfl
  · rw [app_thread_x_init_ok highBitsInitWorker () () 4294967296 _ rfl rfl (by decide)]
    rfl

/-- C4 (amended): for every thread descriptor and every world, `app_thread_x` calls the main
function at most once, and exactly once if and only if the init hook is absent or returns a
value that the conversion `(WaitResult)(uintptr_t)` maps to the success sentinel 0; when the
init hook returns a value that the conversion maps to anything else, `app_thread_x` returns
(in the world the hook left) having called neither the main function nor the exit hook; the
conversion keeps every value in the range of a 32-bit `int`, so for such values the test is
on the returned value itself; and whenever the main function was called and has returned, the
exit hook, if present, is called exactly once, directly after it, in the world the main
function left (and is never called otherwise). -/
theorem C4_lifecycle_envelope {σ : Type} (t : AppThread_T σ) (w : σ) :
    countCalls CallKind.func (app_thread_x t w).calls ≤ 1 ∧
    (countCalls CallKind.func (app_thread_x t w).calls = 1 ↔
      (t.init_func = none ∨
        ∃ init_func r w1, t.init_func = some init_func ∧
          init_func t.label w = some (r, w1) ∧ toWaitResult r = APP_WAIT_SUCCESS)) ∧
    (∀ init_func r w1, t.init_func = some init_func → init_func t.label w = some (r, w1) →
      toWaitResult r ≠ APP_WAIT_SUCCESS →
      countCalls CallKind.func (app_thread_x t w).calls = 0 ∧
      countCalls CallKind.exit_func (app_thread_x t w).calls = 0 ∧
      (app_thread_x t w).final = some w1) ∧
    (∀ r : Int, -2147483648 ≤ r → r < 2147483648 → toWaitResult r = r) ∧
    (∀ exit_func wm r w1, t.exit_func = some exit_func →
      (Call.mk CallKind.func wm) ∈ (app_thread_x t w).calls →
      t.func t.label wm = some (r, w1) →
      countCalls CallKind.exit_func (app_thread_x t w).calls = 1 ∧
      ∃ pre, (app_thread_x t w).calls
        = pre ++ [Call.mk CallKind.func wm, Call.mk CallKind.exit_func w1]) ∧
    countCalls CallKind.exit_func (app_thread_x t w).calls
      ≤ countCalls CallKind.func (app_thread_x t w).calls := by
  cases hi : t.init_func with
  | none =>
    rw [app_thread_x_no_init t w hi]
    have hm := app_thread_x_main_calls t w
    refine ⟨by omega, ⟨fun _ => Or.inl rfl, fun _ => hm.1⟩, ?_, toWaitResult_of_range, ?_,
      by omega⟩
    · intro init_func r w1 h
      simp at h
    · intro exit_func wm r w1 he hmem hf
      have hw := hm.2.2.2.1 wm hmem
      subst hw
      have hcalls := ((hm.2.2.2.2.1 r w1 hf).2 exit_func he).1
      rw [hcalls]
      exact ⟨by simp [countCalls], [], rfl⟩
  | some init_func =>
    cases hr : init_func t.label w with
    | none =>
      rw [app_thread_x_init_hangs t w init_func hi hr]
      refine ⟨by simp [countCalls], ⟨?_, ?_⟩, ?_, toWaitResult_of_range, ?_,
        by simp [countCalls]⟩
      · intro h
        simp [countCalls] at h
      · intro h
        rcases h with h | ⟨f, r, w1, hf, hw, _⟩
        · simp at h
        · simp only [Option.some.injEq] at hf
          subst hf
          rw [hr] at hw
          simp at hw
      · intro f r w1 hf hw
        simp only [Option.some.injEq] at hf
        subst hf
        rw [hr] at hw
        simp at hw
      · intro exit_func wm r w1 _ hmem
        simp at hmem
    | some p =>
      obtain ⟨r0, w0⟩ := p
      by_cases h0 : toWaitResult r0 = APP_WAIT_SUCCESS
      · rw [app_thread_x_init_ok t w w0 r0 init_func hi hr h0]
        have hm := app_thread_x_main_calls t w0
        simp only [countCalls_init_cons CallKind.func w _ (by decide),
          countCalls_init_cons CallKind.exit_func w _ (by decide)]
        refine ⟨by omega, ⟨fun _ => Or.inr ⟨init_func, r0, w0, rfl, hr, h0⟩, fun _ => hm.1⟩, ?_,
          toWaitResult_of_range, ?_, by omega⟩
        · intro f r w1 hf hw hne
          simp only [Option.some.injEq] at hf
          subst hf
          rw [hr] at hw
          simp only [Option.some.injEq, Prod.mk.injEq] at hw
          obtain ⟨hr0, _⟩ := hw
          subst hr0
          exact absurd h0 hne
        · intro exit_func wm r w1 he hmem hf
          simp only [List.mem_cons, Call.mk.injEq, false_and, false_or, reduceCtorEq] at hmem
          have hw := hm.2.2.2.1 wm hmem
          subst hw
          have hcalls := ((hm.2.2.2.2.1 r w1 hf).2 exit_func he).1
          rw [hcalls]
          exact ⟨by simp [countCalls], [Call.mk CallKind.init_func w], rfl⟩
      · rw [app_thread_x_init_failed t w w0 r0 init_func hi hr h0]
        refine ⟨by simp [countCalls], ⟨?_, ?_⟩, ?_, toWaitResult_of_range, ?_,
          by simp [countCalls]⟩
        · intro h
          simp [countCalls] at h
        · intro h
          rcases h with h | ⟨f, r, w1, hf, hw, hs⟩
          · simp at h
          · simp only [Option.some.injEq] at hf
            subst hf
            rw [hr] at hw
            simp only [Option.some.injEq, Prod.mk.injEq] at hw
            obtain ⟨hr0, _⟩ := hw
            subst hr0
            exact absurd hs h0
        · intro f r w1 hf hw _
          simp only [Option.some.injEq] at hf
          subst hf
          rw [hr] at hw
          simp only [Option.some.injEq, Prod.mk.injEq] at hw
          obtain ⟨_, hw1⟩ := hw
          subst hw1
          simp [countCalls]
        · intro exit_func wm r w1 _ hmem
          simp at hmem

/-! ### Readiness barrier -/

/-- When the barrier loop returns, it returns one of the three sentinels, it only appended
to what the thread did, and it returns success only after reading `logger_ready` as true. -/
theorem init_wait_for_logger_loop_returns (label : List Char) (tl : Option (List Char))
    (answers : List BarrierAnswers) :
    ∀ (events : List WorkerEvent) (r : Int) (w1 : WorkerWorld),
      init_wait_for_logger_loop label tl events answers = some (r, w1) →
      ∃ new, w1.events = events ++ new ∧
        (r = APP_WAIT_SUCCESS → WorkerEvent.read_logger_ready true ∈ new) ∧
        (r = APP_WAIT_SUCCESS ∨ r = APP_WAIT_TIMEOUT ∨ r = APP_WAIT_ERROR) := by
  induction answers with
  | nil =>
    intro events r w1 h
    simp [init_wait_for_logger_loop] at h
  | cons a rest ih =>
    intro events r w1 h
    unfold init_wait_for_logger_loop at h
    by_cases hready : a.logger_ready = true
    · simp only [hready, if_true, Option.some.injEq, Prod.mk.injEq] at h
      obtain ⟨hr, hw⟩ := h
      subst hr hw
      exact ⟨_, rfl, fun _ => by simp, Or.inl rfl⟩
    · simp only [hready, Bool.false_eq_true, if_false] at h
      by_cases h1 : wait_for_condition_with_timeout a.sleep_ok a.error_is_timeout
          = APP_WAIT_TIMEOUT
      · simp only [h1, if_true, Option.some.injEq, Prod.mk.injEq] at h
        obtain ⟨hr, hw⟩ := h
        subst hr hw
        exact ⟨_, rfl, fun h => by simp [APP_WAIT_TIMEOUT, APP_WAIT_SUCCESS] at h,
          Or.inr (Or.inl rfl)⟩
      · simp only [h1, if_false] at h
        by_cases h2 : wait_for_condition_with_timeout a.sleep_ok a.error_is_timeout
            = APP_WAIT_ERROR
        · simp only [h2, if_true, Option.some.injEq, Prod.mk.injEq] at h
          obtain ⟨hr, hw⟩ := h
          subst hr hw
          exact ⟨_, rfl, fun h => by simp [APP_WAIT_ERROR, APP_WAIT_SUCCESS] at h,
            Or.inr (Or.inr rfl)⟩
        · simp only [h2, if_false] at h
          obtain ⟨new, hnew, hread, hsent⟩ := ih _ r w1 h
          refine ⟨[WorkerEvent.read_logger_ready false,
            WorkerEvent.wait_for_condition_with_timeout 5000
              (wait_for_condition_with_timeout a.sleep_ok a.error_is_timeout)] ++ new,
            ?_, ?_, hsent⟩
          · rw [hnew, List.append_assoc]
          · intro hr
            exact List.mem_append_right _ (hread hr)

/-- Waits that are woken while the flag still reads false, followed by a wait that fails: the
barrier loop returns the timeout sentinel or the error sentinel right after that wait. -/
theorem init_wait_for_logger_loop_wait_fails (label : List Char) (tl : Option (List Char))
    (a : BarrierAnswers) (rest : List BarrierAnswers)
    (hready : a.logger_ready = false) (hsleep : a.sleep_ok = false)
    (woken : List BarrierAnswers) :
    ∀ (events : List WorkerEvent), (∀ x ∈ woken, wokenNotReady x = true) →
      ∃ pre, init_wait_for_logger_loop label tl events (woken ++ a :: rest)
        = some (if a.error_is_timeout then APP_WAIT_TIMEOUT else APP_WAIT_ERROR,
            { thread_label := tl, answers := rest,
              events := pre ++
                [WorkerEvent.read_logger_ready false,
                 WorkerEvent.wait_for_condition_with_timeout 5000
                   (if a.error_is_timeout then APP_WAIT_TIMEOUT else APP_WAIT_ERROR),
                 WorkerEvent.LeaveCriticalSection] }) := by
  induction woken with
  | nil =>
    intro events _
    refine ⟨events, ?_⟩
    cases ht : a.error_is_timeout <;>
      simp [init_wait_for_logger_loop, hready, hsleep, ht, wait_for_condition_with_timeout,
        APP_WAIT_TIMEOUT, APP_WAIT_ERROR]
  | cons x woken ih =>
    intro events h
    have hx := h x (List.mem_cons_self x woken)
    simp only [wokenNotReady, Bool.and_eq_true, Bool.not_eq_true'] at hx
    obtain ⟨pre, hpre⟩ := ih
      (events ++ [WorkerEvent.read_logger_ready false,
        WorkerEvent.wait_for_condition_with_timeout 5000
          (wait_for_condition_with_timeout x.sleep_ok x.error_is_timeout)])
      (fun y hy => h y (List.mem_cons_of_mem x hy))
    refine ⟨pre, ?_⟩
    rw [← hpre, List.cons_append]
    simp [init_wait_for_logger_loop, hx.1, hx.2, wait_for_condition_with_timeout,
      APP_WAIT_SUCCESS, APP_WAIT_TIMEOUT, APP_WAIT_ERROR]

/-- C5: for a worker whose init hook is `init_wait_for_logger`: (1) whenever `app_thread_x`
calls the main function, the hook has before that read `logger_ready` as true; (2) if, after
waits that were woken with `logger_ready` still false, a wait on the condition variable
(bounded by 5000 ms) fails while `logger_ready` is false, the hook returns the timeout
sentinel 1 when the failure is a timeout and the error sentinel -1 otherwise, right after that
wait, and the main function is not called; (3) if `logger_ready` is true on entry the hook
returns the success sentinel 0 without calling the wait primitive. -/
theorem C5_barrier_correctness (t : AppThread_T WorkerWorld) (w : WorkerWorld)
    (hinit : t.init_func = some init_wait_for_logger) :
    (∀ wm, (Call.mk CallKind.func wm) ∈ (app_thread_x t w).calls →
      ∃ new, wm.events = w.events ++ new ∧ WorkerEvent.read_logger_ready true ∈ new) ∧
    (∀ woken a rest, w.answers = woken ++ a :: rest →
      (∀ x ∈ woken, wokenNotReady x = true) → a.logger_ready = false → a.sleep_ok = false →
      (∃ pre, init_wait_for_logger t.label w
        = some (if a.error_is_timeout then APP_WAIT_TIMEOUT else APP_WAIT_ERROR,
            { thread_label := some t.label, answers := rest,
              events := pre ++
                [WorkerEvent.read_logger_ready false,
                 WorkerEvent.wait_for_condition_with_timeout 5000
                   (if a.error_is_timeout then APP_WAIT_TIMEOUT else APP_WAIT_ERROR),
                 WorkerEvent.LeaveCriticalSection] })) ∧
      countCalls CallKind.func (app_thread_x t w).calls = 0) ∧
    (∀ a rest, w.answers = a :: rest → a.logger_ready = true →
      init_wait_for_logger t.label w
        = some (APP_WAIT_SUCCESS,
            { thread_label := some t.label, answers := rest,
              events := w.events ++
                [WorkerEvent.set_thread_label t.label,
                 WorkerEvent.init_thread_timestamp_system,
                 WorkerEvent.EnterCriticalSection,
                 WorkerEvent.read_logger_ready true,
                 WorkerEvent.LeaveCriticalSection,
                 WorkerEvent.set_thread_log_file_from_config t.label,
                 WorkerEvent.logger_log LogLevel.LOG_INFO,
                 WorkerEvent.logger_log LogLevel.LOG_INFO] })) := by
  refine ⟨?_, ?_, ?_⟩
  · intro wm hmem
    cases hr : init_wait_for_logger t.label w with
    | none =>
      rw [app_thread_x_init_hangs t w _ hinit hr] at hmem
      simp at hmem
    | some p =>
      obtain ⟨r, w1⟩ := p
      obtain ⟨new, hnew, hread, hrange⟩ :=
        init_wait_for_logger_loop_returns t.label (some t.label) w.answers _ _ _ hr
      have hcast : toWaitResult r = r := by
        rcases hrange with h | h | h <;> subst h <;> decide
      by_cases h0 : r = APP_WAIT_SUCCESS
      · rw [app_thread_x_init_ok t w w1 r _ hinit hr (hcast.trans h0)] at hmem
        simp only [List.mem_cons, Call.mk.injEq, false_and, false_or, reduceCtorEq] at hmem
        have hwm := (app_thread_x_main_calls t w1).2.2.2.1 wm hmem
        subst hwm
        refine ⟨[WorkerEvent.set_thread_label t.label,
          WorkerEvent.init_thread_timestamp_system, WorkerEvent.EnterCriticalSection] ++ new,
          ?_, List.mem_append_right _ (hread h0)⟩
        rw [hnew, List.append_assoc]
      · rw [app_thread_x_init_failed t w w1 r _ hinit hr (by rw [hcast]; exact h0)] at hmem
        simp at hmem
  · intro woken a rest hans hwoken hready hsleep
    obtain ⟨pre, hpre⟩ := init_wait_for_logger_loop_wait_fails t.label (some t.label) a rest
      hready hsleep woken
      (w.events ++ [WorkerEvent.set_thread_label t.label,
        WorkerEvent.init_thread_timestamp_system, WorkerEvent.EnterCriticalSection]) hwoken
    have hhook : init_wait_for_logger t.label w
        = some (if a.error_is_timeout then APP_WAIT_TIMEOUT else APP_WAIT_ERROR,
            { thread_label := some t.label, answers := rest,
              events := pre ++
                [WorkerEvent.read_logger_ready false,
                 WorkerEvent.wait_for_condition_with_timeout 5000
                   (if a.error_is_timeout then APP_WAIT_TIMEOUT else APP_WAIT_ERROR),
                 WorkerEvent.LeaveCriticalSection] }) := by
      rw [← hpre, init_wait_for_logger, hans]
    refine ⟨⟨pre, hhook⟩, ?_⟩
    have hne : toWaitResult (if a.error_is_timeout then APP_WAIT_TIMEOUT else APP_WAIT_ERROR)
        ≠ APP_WAIT_SUCCESS := by
      cases a.error_is_timeout <;> decide
    rw [app_thread_x_init_failed t w _ _ _ hinit hhook hne]
    simp [countCalls]
  · intro a rest hans hready
    simp [init_wait_for_logger, init_wait_for_logger_loop, hans, hready]

/-- C5 (witness): the logger never signals readiness; the second wait times out. -/
theorem C5_barrier_correctness_witness :
    (∃ pre, init_wait_for_logger barrierWorker.label loggerNeverReady
      = some (APP_WAIT_TIMEOUT,
          { thread_label := some barrierWorker.label, answers := [],
            events := pre ++
              [WorkerEvent.read_logger_ready false,
               WorkerEvent.wait_for_condition_with_timeout 5000 APP_WAIT_TIMEOUT,
               WorkerEvent.LeaveCriticalSection] })) ∧
    countCalls CallKind.func (app_thread_x barrierWorker loggerNeverReady).calls = 0 :=
  (C5_barrier_correctness barrierWorker loggerNeverReady rfl).2.1
    [{ logger_ready := false, sleep_ok := true, error_is_timeout := false }]
    { logger_ready := false, sleep_ok := false, error_is_timeout := true } []
    rfl (by decide) rfl rfl

/-! ### Bulk wait on the global registry -/

theorem activeHandles_cons (e : ThreadRegistryEntry) (rest : List ThreadRegistryEntry) :
    activeHandles (e :: rest) =
      if e.state ≠ ThreadState.THREAD_STATE_TERMINATED then e.handle :: activeHandles rest
      else activeHandles rest := by
  by_cases h : e.state = ThreadState.THREAD_STATE_TERMINATED <;>
    simp [activeHandles, List.filter_cons, h]

/-- The first pass counts the entries that are not `TERMINATED`. -/
theorem count_active_eq (entries : List ThreadRegistryEntry) :
    ∀ active_count : Nat, active_count + (activeHandles entries).length < 4294967296 →
      count_active active_count entries = active_count + (activeHandles entries).length := by
  induction entries with
  | nil =>
    intro active_count _
    simp [count_active, activeHandles]
  | cons e rest ih =>
    intro active_count h
    rw [activeHandles_cons] at h ⊢
    unfold count_active
    by_cases hs : e.state = ThreadState.THREAD_STATE_TERMINATED
    · simp only [hs, ne_eq, not_true_eq_false, if_false] at h ⊢
      exact ih active_count h
    · simp only [hs, ne_eq, not_false_eq_true, if_true, List.length_cons] at h ⊢
      rw [Nat.mod_eq_of_lt (by omega), ih (active_count + 1) (by omega)]
      omega

theorem set_at_length {α : Type} (done rest : List α) (x y : α) :
    (done ++ y :: rest).set done.length x = done ++ x :: rest := by
  induction done with
  | nil => rfl
  | cons d done ih => simp [List.set, ih]

/-- The second pass fills the free slots of the array, from slot `i` on, with the handles of the
entries that are not `TERMINATED`, in registry order. -/
theorem collect_handles_eq (active_count : Nat) (hac : active_count < 4294967296)
    (entries : List ThreadRegistryEntry) :
    ∀ (k : Nat) (done : List (Option Nat)),
      done.length + k = active_count → (activeHandles entries).length ≤ k →
      collect_handles active_count done.length (done ++ List.replicate k none) entries
        = done ++ (activeHandles entries).map some ++
            List.replicate (k - (activeHandles entries).length) none := by
  induction entries with
  | nil =>
    intro k done _ _
    simp [collect_handles, activeHandles]
  | cons e rest ih =>
    intro k done hlen hk
    rw [activeHandles_cons] at hk ⊢
    unfold collect_handles
    by_cases hs : e.state = ThreadState.THREAD_STATE_TERMINATED
    · simp only [hs, ne_eq, not_true_eq_false, if_false] at hk ⊢
      by_cases hi : done.length < active_count
      · simp only [hi, if_true]
        exact ih k done hlen hk
      · simp only [hi, if_false]
        have hk0 : k = 0 := by omega
        subst hk0
        have hnil : activeHandles rest = [] := by
          apply List.eq_nil_of_length_eq_zero
          omega
        simp [hnil]
    · simp only [hs, ne_eq, not_false_eq_true, if_true, List.length_cons] at hk ⊢
      obtain ⟨k1, rfl⟩ : ∃ k1, k = k1 + 1 := ⟨k - 1, by omega⟩
      have hi : done.length < active_count := by omega
      simp only [hi, if_true]
      rw [List.replicate_succ, set_at_length, Nat.mod_eq_of_lt (by omega)]
      have hrec := ih k1 (done ++ [some e.handle]) (by simp; omega) (by omega)
      simp only [List.length_append, List.length_singleton, List.append_assoc,
        List.singleton_append] at hrec
      rw [hrec]
      simp

/-- C6: on an initialised registry (with fewer than `2^32` entries, the range of the `DWORD`
counters): when no entry is in a state other than `TERMINATED`, `app_thread_wait_all` returns
true without calling the bulk wait; whenever it calls the bulk wait, the count passed is the
number of entries that are not `TERMINATED` and the array passed holds exactly their handles,
each once, in registry order, every slot written; and it does call the bulk wait whenever
there is such an entry and the array could be allocated. -/
theorem C6_snapshot_completeness (reg : GlobalRegistry) (malloc_ok : Bool) (wait_result : Nat)
    (hinit : reg.g_registry_initialized = true)
    (hsize : reg.entries.length < 4294967296) :
    (activeHandles reg.entries = [] →
      app_thread_wait_all reg malloc_ok wait_result = { result := true, waited := none }) ∧
    (∀ n handles, (app_thread_wait_all reg malloc_ok wait_result).waited = some (n, handles) →
      n = (activeHandles reg.entries).length ∧
      handles = (activeHandles reg.entries).map some) ∧
    (activeHandles reg.entries ≠ [] → malloc_ok = true →
      (app_thread_wait_all reg malloc_ok wait_result).waited
        = some ((activeHandles reg.entries).length, (activeHandles reg.entries).map some)) := by
  have hle : (activeHandles reg.entries).length ≤ reg.entries.length := by
    simp only [activeHandles, List.length_map]
    exact List.length_filter_le _ _
  have hcount : count_active 0 reg.entries = (activeHandles reg.entries).length := by
    rw [count_active_eq reg.entries 0 (by omega)]
    omega
  have hcollect : collect_handles (activeHandles reg.entries).length 0
      (List.replicate (activeHandles reg.entries).length none) reg.entries
      = (activeHandles reg.entries).map some := by
    have h := collect_handles_eq (activeHandles reg.entries).length (by omega) reg.entries
      (activeHandles reg.entries).length [] (by simp) (le_refl _)
    simpa using h
  unfold app_thread_wait_all
  simp only [hinit, hcount, hcollect, Bool.true_eq_false, if_false]
  refine ⟨?_, ?_, ?_⟩
  · intro hnil
    simp [hnil]
  · intro n handles h
    by_cases h0 : (activeHandles reg.entries).length = 0
    · simp [h0] at h
    · cases malloc_ok <;> simp [h0] at h
      exact ⟨h.1.symm, h.2.symm⟩
  · intro hne hm
    have h0 : (activeHandles reg.entries).length ≠ 0 := by
      intro h
      exact hne (List.eq_nil_of_length_eq_zero h)
    simp [h0, hm]

/-- C6 (witness): a registry with a running, a terminated and a created thread. -/
theorem C6_snapshot_completeness_witness :
    (app_thread_wait_all sampleRegistry true WAIT_OBJECT_0).waited
      = some (2, [some 5, some 7]) :=
  (C6_snapshot_completeness sampleRegistry true WAIT_OBJECT_0 rfl (by decide)).2.2
    (by decide) rfl

/-! ### Suppression list -/

theorem char_eq_of_toNat_sub_eq_zero (a b : Char)
    (h : (a.toNat : Int) - (b.toNat : Int) = 0) : a = b := by
  have h1 : a.toNat = b.toNat := by omega
  have h2 : Char.ofNat a.toNat = Char.ofNat b.toNat := by rw [h1]
  simpa [Char.ofNat_toNat] using h2

/-- The comparison returns 0 exactly for strings that are equal ignoring letter case. -/
theorem str_cmp_nocase_eq_zero (a : List Char) :
    ∀ b : List Char, str_cmp_nocase a b = 0 ↔ equalsIgnoringCase a b := by
  induction a with
  | nil =>
    intro b
    cases b <;> simp [str_cmp_nocase, equalsIgnoringCase]
  | cons x xs ih =>
    intro b
    cases b with
    | nil => simp [str_cmp_nocase, equalsIgnoringCase]
    | cons y ys =>
      unfold str_cmp_nocase
      by_cases hxy : x.toLower = y.toLower
      · simp only [hxy, if_true, ih ys]
        simp [equalsIgnoringCase, hxy]
      · simp only [hxy, if_false]
        constructor
        · intro h
          exact absurd (char_eq_of_toNat_sub_eq_zero _ _ h) hxy
        · intro h
          simp only [equalsIgnoringCase, List.map_cons, List.cons.injEq] at h
          exact absurd h.1 hxy

/-- The trailing-whitespace loop removes all trailing whitespace when the text does not start
with whitespace (which the leading-whitespace loop ensures). -/
theorem trim_trailing_rev_eq (r : List Char) :
    (∀ c, r.getLast? = some c → isspace c = false) →
    trim_trailing_rev r = r.dropWhile isspace := by
  induction r with
  | nil =>
    intro _
    simp [trim_trailing_rev]
  | cons c rest ih =>
    intro h
    cases rest with
    | nil =>
      have hc := h c (by simp)
      simp [trim_trailing_rev, List.dropWhile, hc]
    | cons d rest =>
      have hrest : ∀ x, (d :: rest).getLast? = some x → isspace x = false := by
        intro x hx
        apply h x
        rw [List.getLast?_cons_cons]
        exact hx
      unfold trim_trailing_rev
      by_cases hc : isspace c = true
      · simp only [hc, if_true, List.dropWhile]
        exact ih hrest
      · simp [hc, List.dropWhile]

theorem head_dropWhile_not (p : Char → Bool) (l : List Char) :
    ∀ c, (l.dropWhile p).head? = some c → p c = false := by
  induction l with
  | nil =>
    intro c h
    simp at h
  | cons x xs ih =>
    intro c h
    by_cases hx : p x = true
    · simp only [List.dropWhile, hx] at h
      exact ih c h
    · simp only [List.dropWhile, hx] at h
      simp at h
      subst h
      simpa using hx

/-- The trimming done by the code removes the leading and the trailing whitespace. -/
theorem trim_token_eq (token : List Char) : trim_token token = trimWhitespace token := by
  unfold trim_token trimWhitespace
  rw [trim_trailing_rev_eq]
  intro c hc
  rw [List.getLast?_reverse] at hc
  exact head_dropWhile_not isspace token c hc

theorem dropWhile_length_le (p : Char → Bool) (l : List Char) :
    (l.dropWhile p).length ≤ l.length := by
  induction l with
  | nil => simp
  | cons x xs ih =>
    by_cases hx : p x = true
    · simp only [List.dropWhile, hx, List.length_cons]
      omega
    · simp [List.dropWhile, hx]

/-- A piece-wise description of splitting at commas. -/
theorem splitOnP_comma (cs : List Char) :
    cs.splitOnP (fun c => c == ',') =
      cs.takeWhile (fun d => d != ',') ::
        (match cs.dropWhile (fun d => d != ',') with
         | [] => []
         | _ :: r => r.splitOnP (fun c => c == ',')) := by
  induction cs with
  | nil => simp [List.splitOnP_nil]
  | cons c cs ih =>
    rw [List.splitOnP_cons]
    by_cases hc : c = ','
    · subst hc
      simp [List.takeWhile, List.dropWhile]
    · have hb : (c == ',') = false := by simpa using hc
      have hn : (c != ',') = true := by simpa using hc
      simp only [hb, Bool.false_eq_true, if_false, List.takeWhile, hn, List.dropWhile]
      rw [ih]
      rfl

theorem commaTokens_comma (cs : List Char) : commaTokens (',' :: cs) = commaTokens cs := by
  simp [commaTokens, List.splitOn, List.splitOnP_cons]

theorem strtok_s_comma (cs : List Char) : strtok_s (',' :: cs) = strtok_s cs := by
  simp [strtok_s, List.dropWhile]

/-- What one `strtok_s` call returns, in terms of the comma-separated tokens of the text. -/
theorem strtok_s_spec (s : List Char) :
    (strtok_s s = none ∧ commaTokens s = []) ∨
    (∃ tok rest, strtok_s s = some (tok, rest) ∧ commaTokens s = tok :: commaTokens rest ∧
      rest.length < s.length) := by
  induction s with
  | nil =>
    left
    simp [strtok_s, commaTokens, List.splitOn, List.splitOnP_nil]
  | cons c cs ih =>
    by_cases hc : c = ','
    · subst hc
      rw [strtok_s_comma, commaTokens_comma]
      rcases ih with h | ⟨tok, rest, h1, h2, h3⟩
      · exact Or.inl h
      · exact Or.inr ⟨tok, rest, h1, h2, by simp; omega⟩
    · right
      have hb : (c == ',') = false := by simpa using hc
      have hn : (c != ',') = true := by simpa using hc
      refine ⟨c :: cs.takeWhile (fun d => d != ','),
        (cs.dropWhile (fun d => d != ',')).drop 1, ?_, ?_, ?_⟩
      · simp [strtok_s, List.dropWhile, List.takeWhile, hb, hn]
      · simp only [commaTokens, List.splitOn]
        rw [splitOnP_comma (c :: cs)]
        simp only [List.takeWhile, hn, List.dropWhile]
        cases hd : cs.dropWhile (fun d => d != ',') with
        | nil => simp [List.splitOnP_nil]
        | cons d r => simp
      · have := dropWhile_length_le (fun d => d != ',') cs
        simp only [List.length_drop, List.length_cons]
        omega

/-- The token loop examines the comma-separated tokens in order and stops at the first one
that matches the label. -/
theorem app_thread_is_suppressed_loop_eq (thread_label : List Char) :
    ∀ (fuel : Nat) (s : List Char), s.length < fuel →
      app_thread_is_suppressed_loop thread_label fuel (strtok_s s)
        = some ((commaTokens s).any
            (fun tok => decide (str_cmp_nocase (trim_token tok) thread_label = 0))) := by
  intro fuel
  induction fuel with
  | zero =>
    intro s h
    omega
  | succ fuel ih =>
    intro s h
    rcases strtok_s_spec s with ⟨h1, h2⟩ | ⟨tok, rest, h1, h2, h3⟩
    · rw [h1, h2]
      simp [app_thread_is_suppressed_loop]
    · rw [h1, h2]
      unfold app_thread_is_suppressed_loop
      by_cases hm : str_cmp_nocase (trim_token tok) thread_label = 0
      · simp [hm]
      · simp only [hm, if_false, List.any_cons, decide_False, Bool.false_or]
        exact ih rest (by omega)

/-- C3 (counterexample to the claim as worded): the list `CLIENT` has a token that equals the
label `CLIENT`, and neither string is `NULL`, yet `app_thread_is_suppressed` returns false
when `strdup` cannot allocate the copy of the list (lines 104-107). -/
theorem C3_strdup_failure_hides_match :
    (∃ tok ∈ commaTokens "CLIENT".toList,
      equalsIgnoringCase (trimWhitespace tok) "CLIENT".toList) ∧
    app_thread_is_suppressed false (some "CLIENT".toList) (some "CLIENT".toList)
      = some false := by
  refine ⟨⟨"CLIENT".toList, by decide, by decide⟩, by decide⟩

/-- C3 (amended): for every non-null list and label, and whether or not `strdup` can allocate
the copy of the list, `app_thread_is_suppressed(list, label)` always returns; it returns true
if and only if the copy was allocated and some non-empty comma-separated token of the list,
with its leading and trailing whitespace removed, equals the label ignoring letter case; it
returns false when the copy cannot be allocated and when the list or the label is `NULL`;
with the copy allocated, the list `" client "` suppresses the label `CLIENT`. -/
theorem C3_suppression_matching (strdup_ok : Bool) (list label : List Char) :
    (app_thread_is_suppressed strdup_ok (some list) (some label) = some true ↔
      strdup_ok = true ∧
        ∃ tok ∈ commaTokens list, equalsIgnoringCase (trimWhitespace tok) label) ∧
    (app_thread_is_suppressed strdup_ok (some list) (some label) = some false ↔
      ¬ (strdup_ok = true ∧
        ∃ tok ∈ commaTokens list, equalsIgnoringCase (trimWhitespace tok) label)) ∧
    app_thread_is_suppressed false (some list) (some label) = some false ∧
    (∀ x, app_thread_is_suppressed strdup_ok none x = some false) ∧
    (∀ x, app_thread_is_suppressed strdup_ok x none = some false) ∧
    app_thread_is_suppressed true (some " client ".toList) (some "CLIENT".toList)
      = some true := by
  have hfail : app_thread_is_suppressed false (some list) (some label) = some false := by
    simp [app_thread_is_suppressed]
  have hrun : app_thread_is_suppressed true (some list) (some label)
      = some ((commaTokens list).any
          (fun tok => decide (str_cmp_nocase (trim_token tok) label = 0))) := by
    simp only [app_thread_is_suppressed, Bool.true_eq_false, if_false]
    exact app_thread_is_suppressed_loop_eq label (list.length + 1) list (by omega)
  have hany : (commaTokens list).any
        (fun tok => decide (str_cmp_nocase (trim_token tok) label = 0)) = true ↔
      ∃ tok ∈ commaTokens list, equalsIgnoringCase (trimWhitespace tok) label := by
    simp only [List.any_eq_true, decide_eq_true_eq, str_cmp_nocase_eq_zero, trim_token_eq]
  refine ⟨?_, ?_, hfail, ?_, ?_, by decide⟩
  · cases strdup_ok with
    | false => simp [hfail]
    | true =>
      rw [hrun, ← hany]
      simp
  · cases strdup_ok with
    | false => simp [hfail]
    | true =>
      rw [hrun, ← hany]
      simp
  · intro x
    simp [app_thread_is_suppressed]
  · intro x
    cases x <;> simp [app_thread_is_suppressed]

/-! ### Session-spawn failure -/

/-- C14: whenever `comms_thread_group_init` or `comms_thread_group_create_threads` fails after
a successful dial, the supervisor only logs, cleans up the group (when the creation of the
threads was attempted) and closes the session's socket, and then goes on with the rest of the
outer loop: none of these calls is a sleep, and the next iteration (no shutdown) starts with
the shutdown poll followed directly by the next call of `attempt_connection`. -/
theorem C14_spawn_failure_retries_immediately (is_tcp : Bool) (conn_timeout t : Int)
    (s : SessionAnswers) (more : List SessionAnswers) (fd : Nat)
    (hhead : s.shutdown_head = false)
    (hdial : (attempt_connection is_tcp conn_timeout s.backoff_max s.dial).result
      = some (SOCKET.valid fd))
    (hfail : s.group_init = false ∨ s.create_threads = false) :
    ∃ failure,
      clientMainThread_loop is_tcp conn_timeout t (s :: more) =
        Run.after
          (Event.shutdown_signalled false ::
            (attempt_connection is_tcp conn_timeout s.backoff_max s.dial).trace ++ failure)
          (clientMainThread_loop is_tcp conn_timeout t more) ∧
      (failure = [Event.comms_thread_group_init false, Event.logger_log LogLevel.LOG_ERROR,
                  Event.close_socket (SOCKET.valid fd)] ∨
       failure = [Event.comms_thread_group_init true,
                  Event.comms_thread_group_create_threads false,
                  Event.logger_log LogLevel.LOG_ERROR, Event.comms_thread_group_cleanup,
                  Event.close_socket (SOCKET.valid fd)]) ∧
      (∀ e ∈ failure, isSleep e = false) ∧
      (∀ s2 more2, more = s2 :: more2 → s2.shutdown_head = false →
        ∃ tail, (clientMainThread_loop is_tcp conn_timeout t more).trace
          = Event.shutdown_signalled false ::
              (attempt_connection is_tcp conn_timeout s2.backoff_max s2.dial).trace ++ tail) := by
  have hnext : ∀ s2 more2, more = s2 :: more2 → s2.shutdown_head = false →
      ∃ tail, (clientMainThread_loop is_tcp conn_timeout t more).trace
        = Event.shutdown_signalled false ::
            (attempt_connection is_tcp conn_timeout s2.backoff_max s2.dial).trace ++ tail := by
    intro s2 more2 hm h2
    subst hm
    exact clientMainThread_loop_starts_with_dial is_tcp conn_timeout t s2 more2 h2
  cases hi : s.group_init with
  | false =>
    refine ⟨_, clientMainThread_loop_init_failed _ _ _ _ _ fd hhead hdial hi, Or.inl rfl,
      ?_, hnext⟩
    intro e he
    simp at he
    rcases he with rfl | rfl | rfl <;> rfl
  | true =>
    have hc : s.create_threads = false := by
      rcases hfail with h | h
      · rw [hi] at h
        simp at h
      · exact h
    refine ⟨_, clientMainThread_loop_create_failed _ _ _ _ _ fd hhead hdial hi hc,
      Or.inr rfl, ?_, hnext⟩
    intro e he
    simp at he
    rcases he with rfl | rfl | rfl | rfl | rfl <;> rfl

/-- C14 (witness): the comms threads of the first session cannot be created; the second
session finds shutdown signalled while dialling. -/
theorem C14_spawn_failure_retries_immediately_witness :
    ∃ failure,
      clientMainThread_loop true 5 5000 spawnFailureThenShutdown =
        Run.after
          (Event.shutdown_signalled false ::
            (attempt_connection true 5 32
              [{ shutdown := false, sock := SOCKET.valid 3, connected := true }]).trace ++
            failure)
          (clientMainThread_loop true 5 5000 (spawnFailureThenShutdown.drop 1)) ∧
      (∀ e ∈ failure, isSleep e = false) :=
  have h := C14_spawn_failure_retries_immediately true 5 5000
    { shutdown_head := false, backoff_max := 32,
      dial := [{ shutdown := false, sock := SOCKET.valid 3, connected := true }],
      group_init := true, create_threads := false, monitor := [], shutdown_after := false }
    (spawnFailureThenShutdown.drop 1) 3 rfl (by decide) (Or.inr rfl)
  h.elim fun failure hf => ⟨failure, hf.1, hf.2.2.1⟩

/-! ### Backoff sequence -/

theorem sleepSeconds_append (xs ys : List Event) :
    sleepSeconds (xs ++ ys) = sleepSeconds xs ++ sleepSeconds ys := by
  induction xs with
  | nil => rfl
  | cons e xs ih =>
    cases e <;> simp [sleepSeconds, ih]

/-- While dial attempts fail, the sleeps are the successive values of `backoff`. -/
theorem sleepSeconds_of_failures (is_tcp : Bool) (conn_timeout backoff_max : Int)
    (rest : List DialAnswers) (fails : List DialAnswers) :
    ∀ (backoff : Int) (n : Nat), (∀ a ∈ fails, dialFails is_tcp a = true) →
      n < fails.length →
      (sleepSeconds (attempt_connection_loop is_tcp conn_timeout backoff_max backoff
        (fails ++ rest)).trace)[n]?
        = some ((fun b => nextBackoff b backoff_max)^[n] backoff) := by
  induction fails with
  | nil =>
    intro backoff n _ hn
    simp at hn
  | cons x fails ih =>
    intro backoff n h hn
    have hx := h x (List.mem_cons_self x fails)
    have hrest : ∀ y ∈ fails, dialFails is_tcp y = true :=
      fun y hy => h y (List.mem_cons_of_mem x hy)
    simp only [dialFails, Bool.and_eq_true, Bool.not_eq_true', Bool.or_eq_true,
      beq_iff_eq] at hx
    obtain ⟨hs, hfail⟩ := hx
    have hshape : sleepSeconds (attempt_connection_loop is_tcp conn_timeout backoff_max
        backoff (x :: fails ++ rest)).trace
        = backoff :: sleepSeconds (attempt_connection_loop is_tcp conn_timeout backoff_max
            (nextBackoff backoff backoff_max) (fails ++ rest)).trace := by
      by_cases hi : x.sock = SOCKET.INVALID_SOCKET
      · rw [List.cons_append, attempt_connection_loop_setup_failed _ _ _ _ _ _ hs hi]
        simp [Run.after, sleepSeconds_append, sleepSeconds]
      · rcases hfail with hfail | ⟨ht, hc⟩
        · exact absurd hfail hi
        · subst ht
          rw [List.cons_append, attempt_connection_loop_connect_failed _ _ _ _ _ hs hi hc]
          simp [Run.after, sleepSeconds_append, sleepSeconds]
    rw [hshape]
    cases n with
    | zero => simp
    | succ n =>
      simp only [List.length_cons, Nat.add_lt_add_iff_right] at hn
      simp only [List.getElem?_cons_succ, Function.iterate_succ, Function.comp_apply]
      exact ih (nextBackoff backoff backoff_max) n hrest hn

theorem wrapInt32_of_range (x : Int) (h0 : 0 ≤ x) (h1 : x < 2147483648) : wrapInt32 x = x := by
  unfold wrapInt32
  omega

/-- Closed form of the value of `backoff` after `n` failed attempts. -/
theorem backoff_after_failures (C : Int) (k : Nat) (hC2 : C ≤ 2 ^ 30)
    (hk : C ≤ 2 ^ k) (hkmin : ∀ j, j < k → (2 : Int) ^ j < C) :
    ∀ n : Nat, (fun b => nextBackoff b C)^[n] 1 = if n ≤ k then 2 ^ n else C := by
  intro n
  induction n with
  | zero => simp
  | succ n ih =>
    rw [Function.iterate_succ_apply', ih]
    by_cases hn : n < k
    · have hlt := hkmin n hn
      have hpos : (0 : Int) < 2 ^ n := by positivity
      have h1 : n ≤ k := by omega
      have h2 : n + 1 ≤ k := by omega
      simp only [h1, h2, if_true, nextBackoff, hlt]
      rw [wrapInt32_of_range _ (by omega) (by norm_num at hC2; omega), pow_succ]
    · by_cases hnk : n = k
      · subst hnk
        have h2 : ¬ (n + 1 ≤ n) := by omega
        simp only [le_refl, if_true, h2, if_false, nextBackoff]
        have : ¬ ((2 : Int) ^ n < C) := by omega
        simp [this]
      · have h1 : ¬ (n ≤ k) := by omega
        have h2 : ¬ (n + 1 ≤ k) := by omega
        simp [h1, h2, nextBackoff]

/-- C15: for every ceiling `C` with `1 ≤ C ≤ 2^30` and `k` the least natural number with
`2^k ≥ C`, in one call of `attempt_connection` whose first dial attempts fail, the `N`-th
sleep lasts `2^(N-1)` seconds for every `N ≤ k+1` and `C` seconds for every `N ≥ k+2`; in
particular the first sleep of every call lasts 1 second.  With `C = 32`, three failed TCP
connects followed by a successful one give sleeps of exactly 1, 2 and 4 seconds, and the
connected socket is returned right after the successful connect. -/
theorem C15_exact_backoff_sequence (C : Int) (k : Nat) (_hC1 : 1 ≤ C) (hC2 : C ≤ 2 ^ 30)
    (hk : C ≤ 2 ^ k) (hkmin : ∀ j, j < k → (2 : Int) ^ j < C)
    (is_tcp : Bool) (conn_timeout : Int) (fails rest : List DialAnswers)
    (hfails : ∀ a ∈ fails, dialFails is_tcp a = true) :
    (∀ N : Nat, 1 ≤ N → N ≤ fails.length →
      (sleepSeconds (attempt_connection is_tcp conn_timeout C (fails ++ rest)).trace)[N - 1]?
        = some (if N ≤ k + 1 then 2 ^ (N - 1) else C)) ∧
    (1 ≤ fails.length →
      (sleepSeconds (attempt_connection is_tcp conn_timeout C (fails ++ rest)).trace)[0]?
        = some 1) ∧
    sleepSeconds (attempt_connection true conn_timeout 32 threeFailedConnects).trace
      = [1, 2, 4] ∧
    (attempt_connection true conn_timeout 32 threeFailedConnects).result
      = some (SOCKET.valid 6) ∧
    (attempt_connection true conn_timeout 32 threeFailedConnects).trace.drop 27
      = [Event.connect_with_timeout (SOCKET.valid 6) conn_timeout true,
         Event.logger_log LogLevel.LOG_INFO] := by
  have hsleep : ∀ n : Nat, n < fails.length →
      (sleepSeconds (attempt_connection is_tcp conn_timeout C (fails ++ rest)).trace)[n]?
        = some (if n ≤ k then 2 ^ n else C) := by
    intro n hn
    rw [← backoff_after_failures C k hC2 hk hkmin n]
    exact sleepSeconds_of_failures is_tcp conn_timeout C rest fails 1 n hfails hn
  refine ⟨?_, ?_, ?_, ?_, ?_⟩
  · intro N h1 hN
    obtain ⟨n, rfl⟩ : ∃ n, N = n + 1 := ⟨N - 1, by omega⟩
    rw [Nat.add_sub_cancel, hsleep n (by omega)]
    by_cases hn : n ≤ k
    · simp [hn]
    · simp [hn]
  · intro h1
    rw [hsleep 0 (by omega)]
    simp
  · simp [attempt_connection, attempt_connection_loop, threeFailedConnects, Run.after,
      sleepSeconds, wrapInt32]
  · simp [attempt_connection, attempt_connection_loop, threeFailedConnects, Run.after]
  · simp [attempt_connection, attempt_connection_loop, threeFailedConnects, Run.after]

/-- C15 (witness): ceiling 5 (so `k = 3`) and six failed attempts: the sleeps are 1, 2, 4, 8
and then 5 seconds. -/
theorem C15_exact_backoff_sequence_witness :
    (sleepSeconds (attempt_connection true 5 5
      (sevenFailedDials.take 6 ++ [])).trace)[4 - 1]? = some (if 4 ≤ 3 + 1 then 2 ^ (4 - 1) else 5)
    ∧ (sleepSeconds (attempt_connection true 5 5
      (sevenFailedDials.take 6 ++ [])).trace)[5 - 1]? = some (if 5 ≤ 3 + 1 then 2 ^ (5 - 1) else 5) :=
  have h := (C15_exact_backoff_sequence 5 3 (by decide) (by decide) (by decide) (by decide)
    true 5 (sevenFailedDials.take 6) [] (by decide)).1
  ⟨h 4 (by decide) (by decide), h 5 (by decide) (by decide)⟩

/-! ### Datagram and stream dial -/

/-- Without TCP the dial loop never calls `connect_with_timeout`; the sockets returned by its
`setup_socket` calls are all invalid except the last one, which is the socket it returns. -/
theorem attempt_connection_loop_datagram_trace (conn_timeout backoff_max : Int)
    (answers : List DialAnswers) :
    ∀ backoff : Int,
      (∀ e ∈ (attempt_connection_loop false conn_timeout backoff_max backoff answers).trace,
        isConnect e = false) ∧
      (∀ s, (attempt_connection_loop false conn_timeout backoff_max backoff answers).result
            = some s → s ≠ SOCKET.INVALID_SOCKET →
        ∃ n, setupResults
            (attempt_connection_loop false conn_timeout backoff_max backoff answers).trace
          = List.replicate n SOCKET.INVALID_SOCKET ++ [s]) := by
  induction answers with
  | nil =>
    intro backoff
    simp [attempt_connection_loop_nil]
  | cons a rest ih =>
    intro backoff
    cases hs : a.shutdown with
    | true =>
      rw [attempt_connection_loop_at_shutdown _ _ _ _ _ _ hs]
      refine ⟨?_, ?_⟩
      · intro e he
        simp at he
        rcases he with rfl | rfl <;> rfl
      · intro s h hne
        simp only [Option.some.injEq] at h
        exact absurd h.symm hne
    | false =>
      by_cases hi : a.sock = SOCKET.INVALID_SOCKET
      · rw [attempt_connection_loop_setup_failed _ _ _ _ _ _ hs hi]
        obtain ⟨h1, h2⟩ := ih (nextBackoff backoff backoff_max)
        refine ⟨?_, ?_⟩
        · intro e he
          simp only [Run.after, List.mem_append] at he
          rcases he with he | he
          · simp at he
            rcases he with rfl | rfl | rfl | rfl | rfl | rfl <;> rfl
          · exact h1 e he
        · intro s h hne
          obtain ⟨n, hn⟩ := h2 s h hne
          refine ⟨n + 1, ?_⟩
          have hpre : setupResults
              (Run.after
                [Event.shutdown_signalled false, Event.logger_log LogLevel.LOG_DEBUG,
                 Event.setup_socket a.sock, Event.get_socket_error_message,
                 Event.logger_log LogLevel.LOG_ERROR, Event.sleep_seconds backoff]
                (attempt_connection_loop false conn_timeout backoff_max
                  (nextBackoff backoff backoff_max) rest)).trace
              = a.sock :: setupResults
                  (attempt_connection_loop false conn_timeout backoff_max
                    (nextBackoff backoff backoff_max) rest).trace := rfl
          rw [hpre, hn, hi, List.replicate_succ, List.cons_append]
      · rw [attempt_connection_loop_datagram _ _ _ _ _ hs hi]
        refine ⟨?_, ?_⟩
        · intro e he
          simp at he
          rcases he with rfl | rfl | rfl | rfl <;> rfl
        · intro s h _
          simp only [Option.some.injEq] at h
          subst h
          exact ⟨0, by simp [setupResults]⟩

/-- With TCP the dial loop returns a valid socket only after `connect_with_timeout` succeeded
on it. -/
theorem attempt_connection_loop_stream_connected (conn_timeout backoff_max : Int)
    (answers : List DialAnswers) :
    ∀ (backoff : Int) (s : SOCKET),
      (attempt_connection_loop true conn_timeout backoff_max backoff answers).result = some s →
      s ≠ SOCKET.INVALID_SOCKET →
      Event.connect_with_timeout s conn_timeout true ∈
        (attempt_connection_loop true conn_timeout backoff_max backoff answers).trace := by
  induction answers with
  | nil =>
    intro backoff s h
    simp [attempt_connection_loop_nil] at h
  | cons a rest ih =>
    intro backoff s h hne
    cases hs : a.shutdown with
    | true =>
      rw [attempt_connection_loop_at_shutdown _ _ _ _ _ _ hs] at h
      simp only [Option.some.injEq] at h
      exact absurd h.symm hne
    | false =>
      by_cases hi : a.sock = SOCKET.INVALID_SOCKET
      · rw [attempt_connection_loop_setup_failed _ _ _ _ _ _ hs hi] at h ⊢
        exact List.mem_append_right _ (ih _ s h hne)
      · cases hc : a.connected with
        | true =>
          rw [attempt_connection_loop_connected _ _ _ _ _ hs hi hc] at h ⊢
          simp only [Option.some.injEq] at h
          subst h
          simp
        | false =>
          rw [attempt_connection_loop_connect_failed _ _ _ _ _ hs hi hc] at h ⊢
          exact List.mem_append_right _ (ih _ s h hne)

/-- Without TCP, after any number of failed socket set-ups the first successful one ends the
dial loop, which returns its socket. -/
theorem attempt_connection_loop_datagram_returns (conn_timeout backoff_max : Int)
    (a : DialAnswers) (rest : List DialAnswers)
    (hs : a.shutdown = false) (hi : a.sock ≠ SOCKET.INVALID_SOCKET) (fails : List DialAnswers) :
    ∀ backoff : Int, (∀ x ∈ fails, dialFails false x = true) →
      (attempt_connection_loop false conn_timeout backoff_max backoff
        (fails ++ a :: rest)).result = some a.sock ∧
      setupResults (attempt_connection_loop false conn_timeout backoff_max backoff
        (fails ++ a :: rest)).trace
        = List.replicate fails.length SOCKET.INVALID_SOCKET ++ [a.sock] := by
  induction fails with
  | nil =>
    intro backoff _
    rw [List.nil_append, attempt_connection_loop_datagram _ _ _ _ _ hs hi]
    exact ⟨rfl, rfl⟩
  | cons x fails ih =>
    intro backoff h
    have hx := h x (List.mem_cons_self x fails)
    simp only [dialFails, Bool.false_and, Bool.or_false, Bool.and_eq_true, Bool.not_eq_true',
      beq_iff_eq] at hx
    obtain ⟨hxs, hxi⟩ := hx
    obtain ⟨h1, h2⟩ := ih (nextBackoff backoff backoff_max)
      (fun y hy => h y (List.mem_cons_of_mem x hy))
    rw [List.cons_append, attempt_connection_loop_setup_failed _ _ _ _ _ _ hxs hxi]
    refine ⟨h1, ?_⟩
    have hpre : setupResults
        (Run.after
          [Event.shutdown_signalled false, Event.logger_log LogLevel.LOG_DEBUG,
           Event.setup_socket x.sock, Event.get_socket_error_message,
           Event.logger_log LogLevel.LOG_ERROR, Event.sleep_seconds backoff]
          (attempt_connection_loop false conn_timeout backoff_max
            (nextBackoff backoff backoff_max) (fails ++ a :: rest))).trace
        = x.sock :: setupResults
            (attempt_connection_loop false conn_timeout backoff_max
              (nextBackoff backoff backoff_max) (fails ++ a :: rest)).trace := rfl
    rw [hpre, h2, hxi, List.length_cons, List.replicate_succ, List.cons_append]

/-- With TCP, after any number of failed dial attempts the first attempt whose socket is set
up and connected ends the dial loop, which returns its socket. -/
theorem attempt_connection_loop_stream_returns (conn_timeout backoff_max : Int)
    (a : DialAnswers) (rest : List DialAnswers)
    (hs : a.shutdown = false) (hi : a.sock ≠ SOCKET.INVALID_SOCKET) (hc : a.connected = true)
    (fails : List DialAnswers) :
    ∀ backoff : Int, (∀ x ∈ fails, dialFails true x = true) →
      (attempt_connection_loop true conn_timeout backoff_max backoff
        (fails ++ a :: rest)).result = some a.sock := by
  induction fails with
  | nil =>
    intro backoff _
    rw [List.nil_append, attempt_connection_loop_connected _ _ _ _ _ hs hi hc]
  | cons x fails ih =>
    intro backoff h
    have hx := h x (List.mem_cons_self x fails)
    simp only [dialFails, Bool.true_and, Bool.and_eq_true, Bool.not_eq_true',
      Bool.or_eq_true, beq_iff_eq] at hx
    obtain ⟨hxs, hxf⟩ := hx
    have hrest := ih (nextBackoff backoff backoff_max)
      (fun y hy => h y (List.mem_cons_of_mem x hy))
    rw [List.cons_append]
    by_cases hxi : x.sock = SOCKET.INVALID_SOCKET
    · rw [attempt_connection_loop_setup_failed _ _ _ _ _ _ hxs hxi]
      exact hrest
    · have hxc : x.connected = false := by
        rcases hxf with hxf | hxf
        · exact absurd hxf hxi
        · exact hxf
      rw [attempt_connection_loop_connect_failed _ _ _ _ _ hxs hxi hxc]
      exact hrest

/-- C16: when `is_tcp` is false, `attempt_connection` never calls `connect_with_timeout`, and
it returns the socket produced by the first successful `setup_socket` call: whenever, after
any number of failed set-ups and with shutdown not signalled, a `setup_socket` call succeeds,
the function returns that socket, every earlier `setup_socket` call having returned
`INVALID_SOCKET` and there being no later one (for instance, one failed set-up followed by a
set-up producing socket 9 returns socket 9); conversely a valid socket it returns is that
one; if the first `setup_socket` call of all succeeds, that socket is returned without any
sleep.  When `is_tcp` is true, a valid socket is returned only if `connect_with_timeout`
succeeded on it, and the first attempt whose socket is set up and connected returns its
socket. -/
theorem C16_datagram_dial (conn_timeout backoff_max : Int) (answers : List DialAnswers) :
    (∀ e ∈ (attempt_connection false conn_timeout backoff_max answers).trace,
      isConnect e = false) ∧
    (∀ fails a rest, answers = fails ++ a :: rest →
      (∀ x ∈ fails, x.shutdown = false ∧ x.sock = SOCKET.INVALID_SOCKET) →
      a.shutdown = false → a.sock ≠ SOCKET.INVALID_SOCKET →
      (attempt_connection false conn_timeout backoff_max answers).result = some a.sock ∧
      setupResults (attempt_connection false conn_timeout backoff_max answers).trace
        = List.replicate fails.length SOCKET.INVALID_SOCKET ++ [a.sock]) ∧
    (attempt_connection false conn_timeout backoff_max
        [{ shutdown := false, sock := SOCKET.INVALID_SOCKET, connected := false },
         { shutdown := false, sock := SOCKET.valid 9, connected := false }]).result
      = some (SOCKET.valid 9) ∧
    (∀ s, (attempt_connection false conn_timeout backoff_max answers).result = some s →
      s ≠ SOCKET.INVALID_SOCKET →
      ∃ n, setupResults (attempt_connection false conn_timeout backoff_max answers).trace
        = List.replicate n SOCKET.INVALID_SOCKET ++ [s]) ∧
    (∀ a rest, answers = a :: rest → a.shutdown = false → a.sock ≠ SOCKET.INVALID_SOCKET →
      (attempt_connection false conn_timeout backoff_max answers).result = some a.sock ∧
      ∀ e ∈ (attempt_connection false conn_timeout backoff_max answers).trace,
        isSleep e = false) ∧
    (∀ s, (attempt_connection true conn_timeout backoff_max answers).result = some s →
      s ≠ SOCKET.INVALID_SOCKET →
      Event.connect_with_timeout s conn_timeout true ∈
        (attempt_connection true conn_timeout backoff_max answers).trace) ∧
    (∀ fails a rest, answers = fails ++ a :: rest →
      (∀ x ∈ fails, dialFails true x = true) →
      a.shutdown = false → a.sock ≠ SOCKET.INVALID_SOCKET → a.connected = true →
      (attempt_connection true conn_timeout backoff_max answers).result = some a.sock) := by
  have hd := attempt_connection_loop_datagram_trace conn_timeout backoff_max answers 1
  refine ⟨hd.1, ?_, ?_, hd.2, ?_, ?_, ?_⟩
  · intro fails a rest hans hfails hs hi
    subst hans
    refine attempt_connection_loop_datagram_returns conn_timeout backoff_max a rest hs hi
      fails 1 ?_
    intro x hx
    obtain ⟨hxs, hxi⟩ := hfails x hx
    simp [dialFails, hxs, hxi]
  · exact (attempt_connection_loop_datagram_returns conn_timeout backoff_max
      { shutdown := false, sock := SOCKET.valid 9, connected := false } [] rfl (by decide)
      [{ shutdown := false, sock := SOCKET.INVALID_SOCKET, connected := false }] 1
      (by decide)).1
  · intro a rest hans hs hi
    subst hans
    unfold attempt_connection
    rw [attempt_connection_loop_datagram _ _ _ _ _ hs hi]
    refine ⟨rfl, ?_⟩
    intro e he
    simp at he
    rcases he with rfl | rfl | rfl | rfl <;> rfl
  · intro s h hne
    exact attempt_connection_loop_stream_connected conn_timeout backoff_max answers 1 s h hne
  · intro fails a rest hans hfails hs hi hc
    subst hans
    exact attempt_connection_loop_stream_returns conn_timeout backoff_max a rest hs hi hc
      fails 1 hfails

/-! ### Sockets and comms groups held by the supervisor -/

theorem resourceRun_append (xs ys : List Event) :
    ∀ r : Resources,
      resourceRun r (xs ++ ys) = (resourceRun r xs).bind (fun r1 => resourceRun r1 ys) := by
  induction xs with
  | nil =>
    intro r
    simp [resourceRun]
  | cons e xs ih =>
    intro r
    simp only [List.cons_append, resourceRun]
    cases resourceStep r e with
    | none => simp
    | some r1 => simpa using ih r1

/-- A trace of calls that touch neither sockets nor the comms group's life cycle leaves the
resources as they are. -/
theorem resourceRun_neutral (tr : List Event)
    (h : ∀ e ∈ tr, ∀ r : Resources, resourceStep r e = some r) :
    ∀ r : Resources, resourceRun r tr = some r := by
  induction tr with
  | nil =>
    intro r
    rfl
  | cons e tr ih =>
    intro r
    simp only [resourceRun, h e (List.mem_cons_self e tr) r]
    exact ih (fun x hx => h x (List.mem_cons_of_mem e hx)) r

/-- The dial loop, entered with nothing held, keeps the teardown discipline and ends holding
exactly the socket it returns. -/
theorem attempt_connection_loop_resources (is_tcp : Bool) (conn_timeout backoff_max : Int)
    (answers : List DialAnswers) :
    ∀ backoff : Int,
      resourceRun noResources
          (attempt_connection_loop is_tcp conn_timeout backoff_max backoff answers).trace
        = some (heldAfterDial
            (attempt_connection_loop is_tcp conn_timeout backoff_max backoff answers).result) := by
  induction answers with
  | nil =>
    intro backoff
    simp [attempt_connection_loop_nil, resourceRun, heldAfterDial]
  | cons a rest ih =>
    intro backoff
    cases hs : a.shutdown with
    | true =>
      rw [attempt_connection_loop_at_shutdown _ _ _ _ _ _ hs]
      simp [resourceRun, resourceStep, heldAfterDial]
    | false =>
      by_cases hi : a.sock = SOCKET.INVALID_SOCKET
      · rw [attempt_connection_loop_setup_failed _ _ _ _ _ _ hs hi]
        simp only [Run.after, resourceRun_append]
        rw [← ih (nextBackoff backoff backoff_max)]
        simp [resourceRun, resourceStep, noResources, hi]
      · obtain ⟨fd, hfd⟩ : ∃ fd, a.sock = SOCKET.valid fd := by
          cases hsock : a.sock with
          | INVALID_SOCKET => exact absurd hsock hi
          | valid fd => exact ⟨fd, rfl⟩
        cases is_tcp with
        | true =>
          cases hc : a.connected with
          | true =>
            rw [attempt_connection_loop_connected _ _ _ _ _ hs hi hc]
            simp [resourceRun, resourceStep, noResources, heldAfterDial, hfd]
          | false =>
            rw [attempt_connection_loop_connect_failed _ _ _ _ _ hs hi hc]
            simp only [Run.after, resourceRun_append]
            rw [← ih (nextBackoff backoff backoff_max)]
            simp [resourceRun, resourceStep, noResources, hfd]
        | false =>
          rw [attempt_connection_loop_datagram _ _ _ _ _ hs hi]
          simp [resourceRun, resourceStep, noResources, heldAfterDial, hfd]

theorem resourceRun_cons_neutral (e : Event) (tr : List Event) (h : neutralEvent e = true) :
    ∀ r : Resources, resourceRun r (e :: tr) = resourceRun r tr := by
  intro r
  cases e <;> simp [neutralEvent] at h <;> rfl

theorem resourceStep_of_neutral (e : Event) (h : neutralEvent e = true) :
    ∀ r : Resources, resourceStep r e = some r := by
  intro r
  cases e <;> simp [neutralEvent] at h <;> rfl

theorem monitor_iteration_neutral (t : Int) (s : MonitorState) (a : MonitorAnswers) :
    ∀ e ∈ (monitor_iteration t s a).events, neutralEvent e = true := by
  unfold monitor_iteration
  split_ifs <;> simp [monitorPrefix, neutralEvent]

theorem monitor_loop_neutral (t : Int) (answers : List MonitorAnswers) :
    ∀ s : MonitorState, ∀ e ∈ (monitor_loop t s answers).trace,
      ∀ r : Resources, resourceStep r e = some r := by
  induction answers with
  | nil =>
    intro s e he
    simp [monitor_loop_nil] at he
  | cons a rest ih =>
    intro s e he r
    cases hstep : (monitor_iteration t s a).step with
    | exit why =>
      rw [monitor_loop_cons_exit t s a rest why hstep] at he
      exact resourceStep_of_neutral e (monitor_iteration_neutral t s a e he) r
    | next s1 =>
      rw [monitor_loop_cons_next t s s1 a rest hstep] at he
      rcases List.mem_append.mp he with h | h
      · exact resourceStep_of_neutral e (monitor_iteration_neutral t s a e h) r
      · exact ih s1 e h r

/-- After the shutdown poll and a dial that returned a valid socket, the supervisor holds
exactly that socket. -/
theorem resourceRun_after_dial (is_tcp : Bool) (conn_timeout : Int) (s : SessionAnswers)
    (fd : Nat) (tail : List Event)
    (hd : (attempt_connection is_tcp conn_timeout s.backoff_max s.dial).result
      = some (SOCKET.valid fd)) :
    resourceRun noResources
        (Event.shutdown_signalled false ::
          (attempt_connection is_tcp conn_timeout s.backoff_max s.dial).trace ++ tail)
      = resourceRun { open_socket := some (SOCKET.valid fd), group_pending := false } tail := by
  have hdial := attempt_connection_loop_resources is_tcp conn_timeout s.backoff_max s.dial 1
  have hd1 : (attempt_connection_loop is_tcp conn_timeout s.backoff_max 1 s.dial).result
      = some (SOCKET.valid fd) := hd
  rw [hd1] at hdial
  have htr : (attempt_connection is_tcp conn_timeout s.backoff_max s.dial).trace
      = (attempt_connection_loop is_tcp conn_timeout s.backoff_max 1 s.dial).trace := rfl
  rw [List.cons_append, resourceRun_cons_neutral (Event.shutdown_signalled false) _ rfl, resourceRun_append, htr, hdial]
  rfl

/-- At the end of the monitoring loop of a session the supervisor holds the session's socket
and a comms group that still has to be cleaned up. -/
theorem resourceRun_after_session (is_tcp : Bool) (conn_timeout t : Int) (s : SessionAnswers)
    (fd : Nat) (tail : List Event)
    (hd : (attempt_connection is_tcp conn_timeout s.backoff_max s.dial).result
      = some (SOCKET.valid fd)) :
    resourceRun noResources (sessionEvents is_tcp conn_timeout t s ++ tail)
      = resourceRun { open_socket := some (SOCKET.valid fd), group_pending := true } tail := by
  have hsplit : sessionEvents is_tcp conn_timeout t s ++ tail
      = Event.shutdown_signalled false ::
          (attempt_connection is_tcp conn_timeout s.backoff_max s.dial).trace ++
          ([Event.comms_thread_group_init true,
            Event.comms_thread_group_create_threads true] ++
            ((monitor_loop t freshSession s.monitor).trace ++ tail)) := by
    simp [sessionEvents]
  have h2 : resourceRun { open_socket := some (SOCKET.valid fd), group_pending := false }
      [Event.comms_thread_group_init true, Event.comms_thread_group_create_threads true]
      = some { open_socket := some (SOCKET.valid fd), group_pending := true } := rfl
  rw [hsplit, resourceRun_after_dial is_tcp conn_timeout s fd _ hd, resourceRun_append, h2,
    Option.some_bind, resourceRun_append,
    resourceRun_neutral _ (monitor_loop_neutral t s.monitor freshSession), Option.some_bind]

/-- The outer loop of the supervisor keeps the teardown discipline and holds nothing when the
thread function returns. -/
theorem clientMainThread_loop_resources (is_tcp : Bool) (conn_timeout t : Int)
    (answers : List SessionAnswers) :
    ∃ r, resourceRun noResources (clientMainThread_loop is_tcp conn_timeout t answers).trace
        = some r ∧
      ((clientMainThread_loop is_tcp conn_timeout t answers).result = some () →
        r = noResources) := by
  induction answers with
  | nil =>
    exact ⟨noResources, by simp [clientMainThread_loop, resourceRun], fun _ => rfl⟩
  | cons s more ih =>
    obtain ⟨r0, hr0, hret0⟩ := ih
    cases hh : s.shutdown_head with
    | true =>
      rw [clientMainThread_loop_shutdown_head _ _ _ _ _ hh]
      exact ⟨noResources, by simp [resourceRun, resourceStep], fun _ => rfl⟩
    | false =>
      have hdial := attempt_connection_loop_resources is_tcp conn_timeout s.backoff_max s.dial 1
      have htr : (attempt_connection is_tcp conn_timeout s.backoff_max s.dial).trace
          = (attempt_connection_loop is_tcp conn_timeout s.backoff_max 1 s.dial).trace := rfl
      cases hd : (attempt_connection is_tcp conn_timeout s.backoff_max s.dial).result with
      | none =>
        have hd1 : (attempt_connection_loop is_tcp conn_timeout s.backoff_max 1 s.dial).result
            = none := hd
        rw [clientMainThread_loop_dial_running _ _ _ _ _ hh hd]
        refine ⟨noResources, ?_, fun _ => rfl⟩
        rw [resourceRun_cons_neutral (Event.shutdown_signalled false) _ rfl, htr, hdial, hd1]
        rfl
      | some sock =>
        cases sock with
        | INVALID_SOCKET =>
          have hd1 : (attempt_connection_loop is_tcp conn_timeout s.backoff_max 1 s.dial).result
              = some SOCKET.INVALID_SOCKET := hd
          rw [clientMainThread_loop_dial_shutdown _ _ _ _ _ hh hd]
          refine ⟨noResources, ?_, fun _ => rfl⟩
          rw [List.cons_append, resourceRun_cons_neutral (Event.shutdown_signalled false) _ rfl, resourceRun_append, htr,
            hdial, hd1]
          rfl
        | valid fd =>
          cases hi : s.group_init with
          | false =>
            rw [clientMainThread_loop_init_failed _ _ _ _ _ fd hh hd hi]
            refine ⟨r0, ?_, hret0⟩
            simp only [Run.after]
            rw [List.append_assoc, resourceRun_after_dial is_tcp conn_timeout s fd _ hd]
            simpa [resourceRun, resourceStep, noResources] using hr0
          | true =>
            cases hc : s.create_threads with
            | false =>
              rw [clientMainThread_loop_create_failed _ _ _ _ _ fd hh hd hi hc]
              refine ⟨r0, ?_, hret0⟩
              simp only [Run.after]
              rw [List.append_assoc, resourceRun_after_dial is_tcp conn_timeout s fd _ hd]
              simpa [resourceRun, resourceStep, noResources] using hr0
            | true =>
              cases hm : (monitor_loop t freshSession s.monitor).outcome with
              | next s1 =>
                rw [clientMainThread_loop_monitor_running _ _ _ _ _ fd s1 hh hd hi hc hm]
                refine ⟨{ open_socket := some (SOCKET.valid fd), group_pending := true }, ?_,
                  fun h => by simp at h⟩
                have := resourceRun_after_session is_tcp conn_timeout t s fd [] hd
                simpa [resourceRun] using this
              | exit why =>
                cases ha : s.shutdown_after with
                | true =>
                  rw [clientMainThread_loop_session_shutdown _ _ _ _ _ fd why hh hd hi hc hm ha]
                  refine ⟨noResources, ?_, fun _ => rfl⟩
                  simp only [List.append_assoc]
                  rw [resourceRun_after_session is_tcp conn_timeout t s fd _ hd]
                  simp [sessionTeardown, resourceRun, resourceStep, noResources]
                | false =>
                  rw [clientMainThread_loop_session_reconnect _ _ _ _ _ fd why hh hd hi hc hm ha]
                  refine ⟨r0, ?_, hret0⟩
                  simp only [Run.after, List.append_assoc]
                  rw [resourceRun_after_session is_tcp conn_timeout t s fd _ hd]
                  simpa [reconnectEvents, sessionTeardown, resourceRun, resourceStep,
                    noResources] using hr0

/-- C19: in every run of `clientMainThread` (and of `attempt_connection`), started with no
socket held, no `setup_socket` call is made while a socket obtained earlier is still open, a
`close_socket` call always closes the one open socket and is made only when no comms group
whose thread creation was attempted still waits for its `comms_thread_group_cleanup`; so at
most one socket is open at any time.  `attempt_connection` ends holding exactly the socket it
returns, and when `clientMainThread` returns no socket is open and no group is left to clean
up, however the sessions ended. -/
theorem C19_session_teardown (is_tcp : Bool) (conn_timeout t : Int)
    (answers : List SessionAnswers) (backoff_max : Int) (dial : List DialAnswers) :
    (∃ r, resourceRun noResources (clientMainThread is_tcp conn_timeout t answers).trace
        = some r ∧
      ((clientMainThread is_tcp conn_timeout t answers).result = some () →
        r = noResources)) ∧
    resourceRun noResources (attempt_connection is_tcp conn_timeout backoff_max dial).trace
      = some (heldAfterDial (attempt_connection is_tcp conn_timeout backoff_max dial).result) := by
  refine ⟨?_, attempt_connection_loop_resources is_tcp conn_timeout backoff_max dial 1⟩
  obtain ⟨r, hr, hret⟩ := clientMainThread_loop_resources is_tcp conn_timeout t answers
  refine ⟨r, ?_, hret⟩
  simpa [clientMainThread, Run.after, resourceRun, resourceStep] using hr

/-! ### Initialisation and cleanup of the global registry -/

theorem effectiveCalls_cons_failed (cs : List RegistryCall) :
    effectiveCalls (RegistryCall.thread_registry_init false :: cs) = effectiveCalls cs := by
  simp [effectiveCalls]

theorem effectiveCalls_cons_init (cs : List RegistryCall) :
    effectiveCalls (RegistryCall.thread_registry_init true :: cs)
      = RegistryCall.thread_registry_init true :: effectiveCalls cs := by
  simp [effectiveCalls]

theorem effectiveCalls_cons_cleanup (cs : List RegistryCall) :
    effectiveCalls (RegistryCall.thread_registry_cleanup :: cs)
      = RegistryCall.thread_registry_cleanup :: effectiveCalls cs := by
  simp [effectiveCalls]

/-- From every state of the globals, the successful `thread_registry_init` calls and the
`thread_registry_cleanup` calls alternate, starting with the one the flag allows, and the
flag follows the most recent of them. -/
theorem runRegistryOps_alternating (ops : List RegistryOp) :
    ∀ reg : GlobalRegistry,
      alternating (!reg.g_registry_initialized) (effectiveCalls (runRegistryOps reg ops).2)
        = true ∧
      (runRegistryOps reg ops).1.g_registry_initialized
        = flagAfterCalls reg.g_registry_initialized
            (effectiveCalls (runRegistryOps reg ops).2) := by
  induction ops with
  | nil =>
    intro reg
    simp [runRegistryOps, effectiveCalls, alternating, flagAfterCalls]
  | cons op ops ih =>
    intro reg
    cases op with
    | app_thread_init ok =>
      cases hf : reg.g_registry_initialized with
      | true =>
        have hinit : app_thread_init reg ok = { result := true, reg := reg, calls := [] } := by
          simp [app_thread_init, hf]
        have h := ih reg
        rw [hf] at h
        simpa [runRegistryOps, hinit] using h
      | false =>
        cases ok with
        | false =>
          have hinit : app_thread_init reg false
              = { result := false, reg := reg,
                  calls := [RegistryCall.thread_registry_init false] } := by
            simp [app_thread_init, hf]
          have h := ih reg
          rw [hf] at h
          simpa [runRegistryOps, hinit, effectiveCalls_cons_failed] using h
        | true =>
          have hinit : app_thread_init reg true
              = { result := true, reg := { g_registry_initialized := true, entries := [] },
                  calls := [RegistryCall.thread_registry_init true] } := by
            simp [app_thread_init, hf]
          have h := ih { g_registry_initialized := true, entries := [] }
          simp only [runRegistryOps, hinit, List.singleton_append, effectiveCalls_cons_init,
            Bool.not_false, alternating, flagAfterCalls, decide_True]
          exact h
    | app_thread_cleanup =>
      cases hf : reg.g_registry_initialized with
      | false =>
        have hclean : app_thread_cleanup reg = (reg, []) := by
          simp [app_thread_cleanup, hf]
        have h := ih reg
        rw [hf] at h
        simpa [runRegistryOps, hclean] using h
      | true =>
        have hclean : app_thread_cleanup reg
            = ({ g_registry_initialized := false, entries := [] },
               [RegistryCall.thread_registry_cleanup]) := by
          simp [app_thread_cleanup, hf]
        have h := ih { g_registry_initialized := false, entries := [] }
        simp only [runRegistryOps, hclean, List.singleton_append, effectiveCalls_cons_cleanup,
          Bool.not_true, alternating, flagAfterCalls]
        simpa using h

/-- C17: `app_thread_init` on an initialised registry returns true and calls nothing in the
registry module; `app_thread_cleanup` on a registry that is not initialised does nothing; a
failed `thread_registry_init` leaves the registry marked uninitialised; and over every
sequence of `app_thread_init` and `app_thread_cleanup` calls that starts with the registry
uninitialised, the successful `thread_registry_init` calls and the `thread_registry_cleanup`
calls strictly alternate, starting with an init, and the flag is true exactly when the most
recent of them is an init. -/
theorem C17_idempotent_init_cleanup (reg : GlobalRegistry) (ops : List RegistryOp) :
    (reg.g_registry_initialized = true →
      ∀ ok, app_thread_init reg ok = { result := true, reg := reg, calls := [] }) ∧
    (reg.g_registry_initialized = false → app_thread_cleanup reg = (reg, [])) ∧
    (reg.g_registry_initialized = false →
      (app_thread_init reg false).result = false ∧
      (app_thread_init reg false).reg.g_registry_initialized = false) ∧
    (reg.g_registry_initialized = false →
      alternating true (effectiveCalls (runRegistryOps reg ops).2) = true ∧
      (runRegistryOps reg ops).1.g_registry_initialized
        = flagAfterCalls false (effectiveCalls (runRegistryOps reg ops).2) ∧
      ∀ n, (runRegistryOps reg (ops.take n)).1.g_registry_initialized
        = flagAfterCalls false (effectiveCalls (runRegistryOps reg (ops.take n)).2)) := by
  refine ⟨?_, ?_, ?_, ?_⟩
  · intro h ok
    simp [app_thread_init, h]
  · intro h
    simp [app_thread_cleanup, h]
  · intro h
    simp [app_thread_init, h]
  · intro h
    have hall := runRegistryOps_alternating ops reg
    rw [h] at hall
    refine ⟨hall.1, hall.2, ?_⟩
    intro n
    have hn := runRegistryOps_alternating (ops.take n) reg
    rw [h] at hn
    exact hn.2

/-! ### Thread creation -/

/-- Updating the state of a freshly registered entry touches that entry only. -/
theorem update_state_of_new_entry (entries : List ThreadRegistryEntry) (label : List Char)
    (handle : Nat) (st : ThreadState)
    (hnew : thread_registry_is_registered entries label = false) :
    thread_registry_update_state
        (entries ++ [{ label := label, handle := handle,
                       state := ThreadState.THREAD_STATE_CREATED }]) label st
      = entries ++ [{ label := label, handle := handle, state := st }] := by
  unfold thread_registry_update_state
  rw [List.map_append]
  congr 1
  · have hall : ∀ e ∈ entries,
        ¬ (e.label = label ∧ e.state ≠ ThreadState.THREAD_STATE_TERMINATED) := by
      intro e he hcontra
      have : thread_registry_is_registered entries label = true := by
        unfold thread_registry_is_registered
        rw [List.any_eq_true]
        exact ⟨e, he, by simp [hcontra.1, hcontra.2]⟩
      rw [hnew] at this
      simp at this
    have hmap : ∀ e ∈ entries,
        (if e.label = label ∧ e.state ≠ ThreadState.THREAD_STATE_TERMINATED then
          ({ label := e.label, handle := e.handle, state := st } : ThreadRegistryEntry)
        else e) = id e := by
      intro e he
      simp only [hall e he, if_false, id]
    rw [List.map_congr_left hmap, List.map_id]
  · simp

/-- C11 (counterexample to the claim as worded): the registry is initialised and empty, the
descriptor `stubInitWorker` (label `LOGGER`) is not registered, and the OS creates the thread,
yet `app_thread_create` does not set the state to `RUNNING` and does not return true: when
`thread_registry_register` reports failure (lines 324-327) the steps end with the failed
registration and an error log, the registry is left without an entry, and false is
returned. -/
theorem C11_registration_failure_returns_false :
    emptyRegistry.g_registry_initialized = true ∧
    thread_registry_is_registered emptyRegistry.entries stubInitWorker.label = false ∧
    registrationRefused.create_code = 0 ∧
    (app_thread_create emptyRegistry (some stubInitWorker) freshWorld registrationRefused).steps
      = [CreateStep.pre_create_func,
         CreateStep.platform_thread_create ThreadEntry.app_thread_x 0,
         CreateStep.post_create_func,
         CreateStep.thread_registry_register false,
         CreateStep.logger_log LogLevel.LOG_ERROR] ∧
    (app_thread_create emptyRegistry (some stubInitWorker) freshWorld registrationRefused).result
      = some false ∧
    (app_thread_create emptyRegistry (some stubInitWorker) freshWorld registrationRefused).reg
      = emptyRegistry := by
  decide

/-- C11 (amended): when `app_thread_create` is called with an initialised registry and a
descriptor whose label is not registered (the pre-create hook returning): the descriptor it
leaves has every unset hook replaced by its default (`pre_create_stub`, `post_create_stub`,
`init_wait_for_logger`, `exit_stub`), every set hook and the label, main function, data and
suppressed flag unchanged; if the OS creation succeeds (the post-create hook returning) the
steps are, in this order, the pre-create hook, `platform_thread_create` with entry point
`app_thread_x`, the post-create hook and the registration, and then: when the registration
succeeds, the state update to `RUNNING`, the registry gaining exactly the entry of the
descriptor with the created handle in state `RUNNING`, and true is returned; when the
registration fails, an error log instead of the state update, the registry is unchanged, the
thread with the created handle has been started, and false is returned; if the OS creation
fails the steps are the pre-create hook, the failed `platform_thread_create` and an error log,
the registry is unchanged and false is returned. -/
theorem C11_creation_protocol (reg : GlobalRegistry) (t : AppThread_T WorkerWorld)
    (w w1 : WorkerWorld) (r1 : Int) (a : CreateAnswers)
    (hinit : reg.g_registry_initialized = true)
    (hnew : thread_registry_is_registered reg.entries t.label = false)
    (hpre : (t.pre_create_func.getD pre_create_stub) t.label w = some (r1, w1)) :
    (∃ t1, (app_thread_create reg (some t) w a).thread = some t1 ∧
      t1.pre_create_func = some (t.pre_create_func.getD pre_create_stub) ∧
      t1.post_create_func = some (t.post_create_func.getD post_create_stub) ∧
      t1.init_func = some (t.init_func.getD init_wait_for_logger) ∧
      t1.exit_func = some (t.exit_func.getD exit_stub) ∧
      t1.label = t.label ∧ t1.func = t.func ∧ t1.data = t.data ∧
      t1.suppressed = t.suppressed) ∧
    (∀ r2 w2, a.create_code = 0 → a.register_accepted = true →
      (t.post_create_func.getD post_create_stub) t.label w1 = some (r2, w2) →
      (app_thread_create reg (some t) w a).steps
        = [CreateStep.pre_create_func,
           CreateStep.platform_thread_create ThreadEntry.app_thread_x 0,
           CreateStep.post_create_func,
           CreateStep.thread_registry_register true,
           CreateStep.thread_registry_update_state ThreadState.THREAD_STATE_RUNNING] ∧
      (app_thread_create reg (some t) w a).result = some true ∧
      (app_thread_create reg (some t) w a).started = some a.handle ∧
      (app_thread_create reg (some t) w a).reg
        = { g_registry_initialized := true,
            entries := reg.entries ++
              [{ label := t.label, handle := a.handle,
                 state := ThreadState.THREAD_STATE_RUNNING }] } ∧
      (app_thread_create reg (some t) w a).world = w2) ∧
    (∀ r2 w2, a.create_code = 0 → a.register_accepted = false →
      (t.post_create_func.getD post_create_stub) t.label w1 = some (r2, w2) →
      (app_thread_create reg (some t) w a).steps
        = [CreateStep.pre_create_func,
           CreateStep.platform_thread_create ThreadEntry.app_thread_x 0,
           CreateStep.post_create_func,
           CreateStep.thread_registry_register false,
           CreateStep.logger_log LogLevel.LOG_ERROR] ∧
      (app_thread_create reg (some t) w a).result = some false ∧
      (app_thread_create reg (some t) w a).started = some a.handle ∧
      (app_thread_create reg (some t) w a).reg = reg ∧
      (app_thread_create reg (some t) w a).world = w2) ∧
    (a.create_code ≠ 0 →
      (app_thread_create reg (some t) w a).steps
        = [CreateStep.pre_create_func,
           CreateStep.platform_thread_create ThreadEntry.app_thread_x a.create_code,
           CreateStep.logger_log LogLevel.LOG_ERROR] ∧
      (app_thread_create reg (some t) w a).result = some false ∧
      (app_thread_create reg (some t) w a).started = none ∧
      (app_thread_create reg (some t) w a).reg = reg ∧
      (app_thread_create reg (some t) w a).world = w1) := by
  have hrun : app_thread_create reg (some t) w a
      = app_thread_create_body reg (fill_default_hooks t) w a := by
    simp [app_thread_create, hinit, hnew]
  have hcall : call_if_set (fill_default_hooks t).pre_create_func (fill_default_hooks t).label w
      = some (w1, true) := by
    simp [call_if_set, fill_default_hooks, hpre]
  rw [hrun]
  refine ⟨?_, ?_, ?_, ?_⟩
  · unfold app_thread_create_body
    rw [hcall]
    by_cases hc : a.create_code = 0
    · simp only [hc, ne_eq, not_true_eq_false, if_false]
      cases hp : call_if_set (fill_default_hooks t).post_create_func
          (fill_default_hooks t).label w1 with
      | none => exact ⟨_, rfl, rfl, rfl, rfl, rfl, rfl, rfl, rfl, rfl⟩
      | some p =>
        obtain ⟨w2, called⟩ := p
        cases hr : thread_registry_register a.register_accepted reg.entries
            (fill_default_hooks t).label a.handle with
        | none => exact ⟨_, rfl, rfl, rfl, rfl, rfl, rfl, rfl, rfl, rfl⟩
        | some entries => exact ⟨_, rfl, rfl, rfl, rfl, rfl, rfl, rfl, rfl, rfl⟩
    · simp only [hc, ne_eq, not_false_eq_true, if_true]
      exact ⟨_, rfl, rfl, rfl, rfl, rfl, rfl, rfl, rfl, rfl⟩
  · intro r2 w2 hc hacc hpost
    have hcall2 : call_if_set (fill_default_hooks t).post_create_func
        (fill_default_hooks t).label w1 = some (w2, true) := by
      simp [call_if_set, fill_default_hooks, hpost]
    have hreg : thread_registry_register a.register_accepted reg.entries
        (fill_default_hooks t).label a.handle
        = some (reg.entries ++ [{ label := t.label, handle := a.handle,
                                  state := ThreadState.THREAD_STATE_CREATED }]) := by
      simp [thread_registry_register, hacc, fill_default_hooks, hnew]
    unfold app_thread_create_body
    rw [hcall]
    simp only [hc, ne_eq, not_true_eq_false, if_false, hcall2, hreg, if_true,
      List.singleton_append, List.cons_append, List.nil_append, hinit]
    refine ⟨by trivial, by trivial, by trivial, ?_, by trivial⟩
    have hlabel : (fill_default_hooks t).label = t.label := rfl
    rw [hlabel, update_state_of_new_entry reg.entries t.label a.handle _ hnew]
  · intro r2 w2 hc hacc hpost
    have hcall2 : call_if_set (fill_default_hooks t).post_create_func
        (fill_default_hooks t).label w1 = some (w2, true) := by
      simp [call_if_set, fill_default_hooks, hpost]
    have hreg : thread_registry_register a.register_accepted reg.entries
        (fill_default_hooks t).label a.handle = none := by
      simp [thread_registry_register, hacc]
    unfold app_thread_create_body
    rw [hcall]
    simp only [hc, ne_eq, not_true_eq_false, if_false, hcall2, hreg, if_true,
      List.singleton_append, List.cons_append, List.nil_append]
    exact ⟨by trivial, by trivial, by trivial, by trivial, by trivial⟩
  · intro hc
    unfold app_thread_create_body
    rw [hcall]
    simp [hc]

/-- C11 (witness): a descriptor with no hook set, an empty initialised registry, the OS
creating the thread with handle 7. -/
theorem C11_creation_protocol_witness :
    (app_thread_create emptyRegistry (some bareWorker) freshWorld creationSucceeds).steps
      = [CreateStep.pre_create_func,
         CreateStep.platform_thread_create ThreadEntry.app_thread_x 0,
         CreateStep.post_create_func,
         CreateStep.thread_registry_register true,
         CreateStep.thread_registry_update_state ThreadState.THREAD_STATE_RUNNING] ∧
    (app_thread_create emptyRegistry (some bareWorker) freshWorld creationSucceeds).result
      = some true ∧
    (app_thread_create emptyRegistry (some bareWorker) freshWorld creationSucceeds).started
      = some 7 ∧
    (app_thread_create emptyRegistry (some bareWorker) freshWorld creationSucceeds).reg
      = { g_registry_initialized := true,
          entries := [] ++ [{ label := "CLIENT".toList, handle := 7,
                              state := ThreadState.THREAD_STATE_RUNNING }] } ∧
    (app_thread_create emptyRegistry (some bareWorker) freshWorld creationSucceeds).world
      = freshWorld :=
  (C11_creation_protocol emptyRegistry bareWorker freshWorld freshWorld 0 creationSucceeds
    rfl rfl rfl).2.1 0 freshWorld rfl rfl rfl

/-- C18 (the code at the failing input): with an empty initialised registry, a descriptor
with label `CLIENT` and the OS creating the thread with handle 7, when
`thread_registry_register` reports failure `app_thread_create` returns false although the OS
thread it started (handle 7) is running and is not tracked by the registry. -/
theorem C18_failed_registration_leaves_thread_running :
    (app_thread_create emptyRegistry (some bareWorker) freshWorld registrationRefused).result
      = some false ∧
    (app_thread_create emptyRegistry (some bareWorker) freshWorld registrationRefused).started
      = some 7 ∧
    (app_thread_create emptyRegistry (some bareWorker) freshWorld registrationRefused).reg
      = emptyRegistry ∧
    (app_thread_create emptyRegistry (some bareWorker) freshWorld registrationRefused).steps
      = [CreateStep.pre_create_func,
         CreateStep.platform_thread_create ThreadEntry.app_thread_x 0,
         CreateStep.post_create_func,
         CreateStep.thread_registry_register false,
         CreateStep.logger_log LogLevel.LOG_ERROR] := by
  decide

/-! ### Thread-local label -/

theorem init_wait_for_logger_loop_label (label : List Char) (tl : Option (List Char))
    (answers : List BarrierAnswers) :
    ∀ (events : List WorkerEvent) (r : Int) (w1 : WorkerWorld),
      init_wait_for_logger_loop label tl events answers = some (r, w1) →
      w1.thread_label = tl := by
  induction answers with
  | nil =>
    intro events r w1 h
    simp [init_wait_for_logger_loop] at h
  | cons a rest ih =>
    intro events r w1 h
    unfold init_wait_for_logger_loop at h
    split_ifs at h
    · simp only [Option.some.injEq, Prod.mk.injEq] at h
      rw [← h.2]
    · simp only [Option.some.injEq, Prod.mk.injEq] at h
      rw [← h.2]
    · simp only [Option.some.injEq, Prod.mk.injEq] at h
      rw [← h.2]
    · exact ih _ r w1 h

/-- C13 (counterexample): in a new thread (label `NULL`) `app_thread_x` invokes the init hook
`init_wait_for_logger` with the label still `NULL`, not the descriptor's label; and for a
descriptor whose init hook is `init_stub` (like the logger's) the label is still `NULL` when
the main function is invoked. -/
theorem C13_label_not_set_by_envelope :
    get_thread_label loggerReady = none ∧
    labelsAtCalls CallKind.init_func (app_thread_x barrierWorker loggerReady).calls = [none] ∧
    labelsAtCalls CallKind.func (app_thread_x barrierWorker loggerReady).calls
      = [some barrierWorker.label] ∧
    labelsAtCalls CallKind.init_func (app_thread_x stubInitWorker freshWorld).calls = [none] ∧
    labelsAtCalls CallKind.func (app_thread_x stubInitWorker freshWorld).calls = [none] := by
  decide

/-- C13 (amended): `app_thread_x` itself never sets the thread-local label: the init hook is
invoked in the world in which `app_thread_x` was entered, and so is the main function when
there is no init hook (so `get_thread_label()` returns what it returned on entry).  The label
is set by `init_wait_for_logger`: for every descriptor whose init hook is
`init_wait_for_logger`, `get_thread_label()` returns the descriptor's label at the moment the
main function is invoked. -/
theorem C13_label_set_by_init_hook (t : AppThread_T WorkerWorld) (w : WorkerWorld) :
    (∀ wi, (Call.mk CallKind.init_func wi) ∈ (app_thread_x t w).calls → wi = w) ∧
    (t.init_func = none →
      ∀ wm, (Call.mk CallKind.func wm) ∈ (app_thread_x t w).calls → wm = w) ∧
    (t.init_func = some init_wait_for_logger →
      ∀ wm, (Call.mk CallKind.func wm) ∈ (app_thread_x t w).calls →
        get_thread_label wm = some t.label) := by
  refine ⟨?_, ?_, ?_⟩
  · intro wi hmem
    cases hi : t.init_func with
    | none =>
      rw [app_thread_x_no_init t w hi] at hmem
      have hm := app_thread_x_main_calls t w
      unfold app_thread_x_main at hmem
      cases hf : t.func t.label w with
      | none => simp [hf] at hmem
      | some p =>
        obtain ⟨r, w1⟩ := p
        cases he : t.exit_func with
        | none => simp [hf, he] at hmem
        | some ex =>
          cases hx : ex t.label w1 with
          | none => simp [hf, he, hx] at hmem
          | some q => simp [hf, he, hx] at hmem
    | some init_func =>
      cases hr : init_func t.label w with
      | none =>
        rw [app_thread_x_init_hangs t w init_func hi hr] at hmem
        simpa using hmem
      | some p =>
        obtain ⟨r, w1⟩ := p
        by_cases h0 : toWaitResult r = APP_WAIT_SUCCESS
        · rw [app_thread_x_init_ok t w w1 r init_func hi hr h0] at hmem
          simp only [List.mem_cons, Call.mk.injEq, true_and] at hmem
          rcases hmem with hmem | hmem
          · exact hmem
          · exfalso
            unfold app_thread_x_main at hmem
            cases hf : t.func t.label w1 with
            | none => simp [hf] at hmem
            | some p =>
              obtain ⟨r2, w2⟩ := p
              cases he : t.exit_func with
              | none => simp [hf, he] at hmem
              | some ex =>
                cases hx : ex t.label w2 with
                | none => simp [hf, he, hx] at hmem
                | some q => simp [hf, he, hx] at hmem
        · rw [app_thread_x_init_failed t w w1 r init_func hi hr h0] at hmem
          simpa using hmem
  · intro hi wm hmem
    rw [app_thread_x_no_init t w hi] at hmem
    exact (app_thread_x_main_calls t w).2.2.2.1 wm hmem
  · intro hi wm hmem
    cases hr : init_wait_for_logger t.label w with
    | none =>
      rw [app_thread_x_init_hangs t w _ hi hr] at hmem
      simp at hmem
    | some p =>
      obtain ⟨r, w1⟩ := p
      by_cases h0 : toWaitResult r = APP_WAIT_SUCCESS
      · rw [app_thread_x_init_ok t w w1 r _ hi hr h0] at hmem
        simp only [List.mem_cons, Call.mk.injEq, false_and, false_or, reduceCtorEq] at hmem
        have hwm := (app_thread_x_main_calls t w1).2.2.2.1 wm hmem
        subst hwm
        exact init_wait_for_logger_loop_label t.label (some t.label) w.answers _ _ _ hr
      · rw [app_thread_x_init_failed t w w1 r _ hi hr h0] at hmem
        simp at hmem

/-! ### Startup orchestrator -/

end ClaudeEther
